import Mathlib

/-!
# purcsex: the scripted renderer client of PurC Midnight Commander

A shallow embedding of `bin/purcsex/purcsex.c`: the operation queue
(`issue_first_operation`, `issue_next_operation`, `issue_operation`), the
per-window transfer functions (`create_plain_win`, `load_or_write_doucment`,
`write_more_doucment`, `change_document`), the four response handlers and the
event handler (`match_event`, `my_event_handler`).

Conventions of the embedding.

* `struct client_info` is the record `client_info`; the connection
  `pcrdr_conn` carries it as user data, together with what the transport and
  the file system contribute: the requests accepted so far, the pending
  request table, the outcomes of the upcoming send attempts and the files.
* The five per-window arrays have `MAX_NR_WINDOWS` cells; they are total
  functions on `Nat`, and every access goes through `cell`, which is `none`
  outside `0 .. MAX_NR_WINDOWS - 1`; that branch is undefined behaviour.
* A C function returns `Ret α × pcrdr_conn`: the returned value, or the
  failure of an `assert`, or undefined behaviour (an index out of range, the
  read of a variable that was never assigned), with the connection as it is
  at that point.
* A byte of a buffer is a natural number (below 256); a buffer is a list of
  bytes without its terminating NUL.
* A C string of a script (a locator, a name) is the `String` of the
  characters that its bytes encode in UTF-8, the encoding of the strings of
  PurC; the characters that the code looks for (the slash, digits, white
  space, the sign) are single bytes that are part of no other character, so
  the search and the conversions go character by character; a length or a
  difference of pointers counts bytes, which is `byte_length`.
* `size_t` counters are natural numbers: they count operations, windows and
  bytes of files held in memory and stay far below `2 ^ 64`.
* Allocation failures (`malloc`, `pcrdr_make_request_message`,
  `purc_variant_make_*` returning NULL) and the release of messages and
  variants are outside the model, and so is the clean-up after the labels
  `failed:` (it releases the message or the data, which on the early paths
  are pointers not yet assigned); `printf` output is not recorded.
-/

namespace Purcsex

/-! ## Constants -/

/-- Line 35: `#define MAX_NR_WINDOWS 8`. -/
def MAX_NR_WINDOWS : Nat := 8

/-- Line 36: `#define DEF_LEN_ONE_WRITE 1024`. -/
def DEF_LEN_ONE_WRITE : Nat := 1024

/-- Modelled from the spec: the constant `PURC_LEN_IDENTIFIER` of the PurC
headers (the header is not part of the sources), the greatest length of an
identifier. -/
def PURC_LEN_IDENTIFIER : Nat := 63

/-- Modelled from the spec: the status `OK` of a response (`PCRDR_SC_OK` of
the PurC headers). -/
def PCRDR_SC_OK : Nat := 200

/-- Modelled from the spec: the state `CANCELLED` handed to a response
handler (`PCRDR_RESPONSE_CANCELLED` of the PurC headers). -/
def PCRDR_RESPONSE_CANCELLED : Int := 2

/-- Modelled from the spec: the state of a response that carries a result
(`PCRDR_RESPONSE_RESULT` of the PurC headers). -/
def PCRDR_RESPONSE_RESULT : Int := 0

/-- Modelled from the spec: target kind `workspace` of a message. -/
def PCRDR_MSG_TARGET_WORKSPACE : Int := 1

/-- Modelled from the spec: target kind `plainwindow` of a message. -/
def PCRDR_MSG_TARGET_PLAINWINDOW : Int := 2

/-- Modelled from the spec: target kind `dom` of a message. -/
def PCRDR_MSG_TARGET_DOM : Int := 4

/-- Modelled from the spec: element type `void` of a message. -/
def PCRDR_MSG_ELEMENT_TYPE_VOID : Int := 0

/-- Modelled from the spec: element type `handle` of a message. -/
def PCRDR_MSG_ELEMENT_TYPE_HANDLE : Int := 3

/-! ## Results of C functions -/

/-- What a call of a C function ends in. -/
inductive Ret (α : Type) where
  | ok (v : α)
  | assert_failed
  | undefined_behaviour
  deriving DecidableEq, Repr

/-! ## The structured-value store (`purc_variant_t`) -/

/-- Modelled from the spec: the tree-shaped dynamic value
(object/array/string/number/boolean/null) that holds the script.
`PURC_VARIANT_INVALID` is `none` of `Option purc_variant`. -/
inductive purc_variant where
  | null
  | boolean (b : Bool)
  | number (n : Int)
  | string (s : String)
  | array (items : List purc_variant)
  | object (members : List (String × purc_variant))

/-- Modelled from the spec: `purc_variant_object_get_by_ckey`, the member of
an object under a key; invalid when the value is no object or has no such
member. -/
def purc_variant_object_get_by_ckey (obj : Option purc_variant) (key : String) :
    Option purc_variant :=
  match obj with
  | some (purc_variant.object members) => members.lookup key
  | _ => none

/-- Modelled from the spec: `purc_variant_get_string_const`, the text of a
string value, NULL for any other value. -/
def purc_variant_get_string_const (v : purc_variant) : Option String :=
  match v with
  | purc_variant.string s => some s
  | _ => none

/-- Modelled from the spec: `purc_variant_array_get`, the element of an
array at an index; invalid when the value is no array or the index is not
below its size. -/
def purc_variant_array_get (arr : Option purc_variant) (idx : Nat) : Option purc_variant :=
  match arr with
  | some (purc_variant.array items) => items.get? idx
  | _ => none

/-- Modelled from the spec: `purc_variant_array_size`, the number of
elements of an array; it fails on any other value. -/
def purc_variant_array_size (arr : Option purc_variant) : Option Nat :=
  match arr with
  | some (purc_variant.array items) => some items.length
  | _ => none

/-- Modelled from the spec: `purc_variant_is_object`. -/
def purc_variant_is_object (v : Option purc_variant) : Bool :=
  match v with
  | some (purc_variant.object _) => true
  | _ => false

/-- The C idiom `if ((tmp = get_by_ckey(op, key))) x = get_string_const(tmp);`
with `x` first set to NULL: the text under the key, NULL when the key is
absent or holds no string. -/
def string_member (obj : Option purc_variant) (key : String) : Option String :=
  match purc_variant_object_get_by_ckey obj key with
  | some tmp => purc_variant_get_string_const tmp
  | none => none

/-! ## C strings -/

/-- The libc `strchr(s, c)`: the characters before the first `c` and the
characters after it (`sep + 1`); `none` is NULL. -/
def strchr (s : List Char) (c : Char) : Option (List Char × List Char) :=
  match s with
  | [] => none
  | x :: xs =>
    if x = c then some ([], xs)
    else
      match strchr xs c with
      | none => none
      | some (before, rest) => some (x :: before, rest)

/-- The libc `isspace` in the C locale. -/
def isspace (c : Char) : Bool :=
  c.toNat = 32 || (9 ≤ c.toNat && c.toNat ≤ 13)

/-- The libc `isdigit`. -/
def isdigit (c : Char) : Bool :=
  48 ≤ c.toNat && c.toNat ≤ 57

/-- The digits read by `strtol`: the value accumulated so far and the first
character that is no digit onwards. -/
def scan_digits : List Char → Nat → Nat × List Char
  | [], acc => (acc, [])
  | c :: cs, acc =>
    if isdigit c then scan_digits cs (acc * 10 + (c.toNat - 48)) else (acc, c :: cs)

/-- The values of `LONG_MAX` and `LONG_MIN` hold 64 bits. -/
def clamp_long (v : Int) : Int :=
  if v > 9223372036854775807 then 9223372036854775807
  else if v < -9223372036854775808 then -9223372036854775808
  else v

/-- The libc `strtol(s, &end, 10)`: white space is skipped, a sign is
optional, then digits; the value (clamped to a `long`) and `end`. Without a
digit the value is 0 and `end` is `s`. -/
def strtol (s : List Char) : Int × List Char :=
  let t := s.dropWhile isspace
  let neg := t.head? = some (Char.ofNat 45)
  let u := if t.head? = some (Char.ofNat 45) ∨ t.head? = some (Char.ofNat 43) then t.tail else t
  match u with
  | [] => (0, s)
  | c :: _ =>
    if isdigit c then
      let r := scan_digits u 0
      (clamp_long (if neg then -(r.1 : Int) else (r.1 : Int)), r.2)
    else (0, s)

/-- The conversion `(int)l` of a `long`: the low 32 bits, read as signed. -/
def long_to_int (l : Int) : Int :=
  (l + 2147483648) % 4294967296 - 2147483648

/-- The libc `atoi(s)`, which is `(int)strtol(s, NULL, 10)`. -/
def atoi (s : List Char) : Int :=
  long_to_int (strtol s).1

/-! ## Locators -/

/-- The number of bytes of a text in UTF-8: what `sep - target`, a difference
of `char` pointers, counts. -/
def byte_length : List Char → Nat
  | [] => 0
  | c :: cs => c.utf8Size + byte_length cs

/-- Lines 298-322, `split_target`: the returned `int` and what is stored in
`target_name` (`none` while nothing has been stored). `name_len` is a number
of bytes. -/
def split_target (target : String) : Int × Option String :=
  match strchr target.data (Char.ofNat 47) with
  | none => (-1, none)
  | some (name, sep) =>
    if byte_length name > PURC_LEN_IDENTIFIER then (-1, none)
    else if sep = [] then (-1, some (String.mk name))
    else
      let r := strtol sep
      if r.2 = [] then (long_to_int r.1, some (String.mk name))
      else (-1, some (String.mk name))

/-- Lines 324-327, `split_target_deep`: it returns -1 and stores nothing in
`target_value` (`none`: the variable of the caller stays unassigned). -/
def split_target_deep (_source : String) : Int × Option Nat :=
  (-1, none)

/-- Lines 329-348, `split_element`: the returned value (the text after the
first slash, `none` is NULL) and what is stored in `element_type`.
`type_len` is a number of bytes. -/
def split_element (element : String) : Option String × Option String :=
  match strchr element.data (Char.ofNat 47) with
  | none => (none, none)
  | some (type, sep) =>
    if byte_length type > PURC_LEN_IDENTIFIER then (none, none)
    else if sep = [] then (none, some (String.mk type))
    else (some (String.mk sep), some (String.mk type))

/-- The text that `sprintf(buff, "%llx", v)` writes: lowercase hexadecimal. -/
def sprintf_llx (v : Nat) : String :=
  String.mk (Nat.toDigits 16 v)

/-- The text that `sprintf(buff, "%d", v)` writes for a value that is not
negative. -/
def sprintf_d (v : Nat) : String :=
  String.mk (Nat.toDigits 10 v)

/-! ## UTF-8 text -/

/-- A continuation byte of UTF-8, `0x80 .. 0xBF`. -/
def utf8_cont (b : Nat) : Bool :=
  128 ≤ b && b ≤ 191

/-- The number of bytes of the complete, valid UTF-8 character at the head of
`s`; `none` when `s` starts with a NUL byte, an invalid or overlong sequence,
a surrogate, or a character cut short by the end of `s`. -/
def utf8_char_len (s : List Nat) : Option Nat :=
  match s with
  | [] => none
  | b0 :: r =>
    if 1 ≤ b0 ∧ b0 ≤ 127 then some 1
    else if 194 ≤ b0 ∧ b0 ≤ 223 then
      match r with
      | b1 :: _ => if utf8_cont b1 then some 2 else none
      | _ => none
    else if 224 ≤ b0 ∧ b0 ≤ 239 then
      match r with
      | b1 :: b2 :: _ =>
        if utf8_cont b1 && utf8_cont b2 && (b0 != 224 || 160 ≤ b1) && (b0 != 237 || b1 ≤ 159)
        then some 3 else none
      | _ => none
    else if 240 ≤ b0 ∧ b0 ≤ 244 then
      match r with
      | b1 :: b2 :: b3 :: _ =>
        if utf8_cont b1 && utf8_cont b2 && utf8_cont b3
            && (b0 != 240 || 144 ≤ b1) && (b0 != 244 || b1 ≤ 143)
        then some 4 else none
      | _ => none
    else none

/-- The scan of `pcutils_string_check_utf8_len`: characters are accepted one
after the other while the next one is complete, valid and ends within the
`max_len` bytes that are left; the number of bytes accepted. -/
def utf8_scan : Nat → List Nat → Nat → Nat
  | 0, _, _ => 0
  | fuel + 1, s, max_len =>
    match utf8_char_len s with
    | none => 0
    | some n => if n ≤ max_len then n + utf8_scan fuel (s.drop n) (max_len - n) else 0

/-- Modelled from the spec: `pcutils_string_check_utf8_len(start, max_len,
NULL, &end)` of the PurC library (not part of the sources), taken as
returning the end of the longest valid prefix within the given byte bound:
the value is `end - start`. Every character takes a byte at least, so
`max_len` steps are enough. -/
def pcutils_string_check_utf8_len (start : List Nat) (max_len : Nat) : Nat :=
  utf8_scan max_len start max_len

/-- Valid text: the bytes split into complete valid UTF-8 characters, none of
them NUL (`fuel` bounds the number of characters). -/
def utf8_text_upto : Nat → List Nat → Bool
  | _, [] => true
  | 0, _ :: _ => false
  | fuel + 1, b :: r =>
    match utf8_char_len (b :: r) with
    | none => false
    | some n => utf8_text_upto fuel ((b :: r).drop n)

/-- A document that is valid UTF-8 text without NUL bytes. -/
def utf8_text (s : List Nat) : Bool :=
  utf8_text_upto s.length s

/-- The C string that starts at a buffer position: the bytes before the
first NUL byte. -/
def c_string (s : List Nat) : List Nat :=
  s.takeWhile (fun b => b != 0)

/-! ## Messages, the session and the connection -/

/-- The data attached to a message (`dataType` and `data`). -/
inductive msg_data where
  | void
  | text (bytes : List Nat)
  | ejson (v : purc_variant)

/-- A request message (`pcrdr_msg` of type request), as
`pcrdr_make_request_message` builds it. -/
structure pcrdr_msg where
  target : Int
  targetValue : Nat
  operation : String
  elementType : Int
  element : Option String
  property : Option String
  data : msg_data

/-- A response message (`pcrdr_msg` of type response): the fields the
handlers read. -/
structure pcrdr_response_msg where
  retCode : Nat
  resultValue : Nat
  deriving DecidableEq, Repr

/-- An event message (`pcrdr_msg` of type event): the fields `match_event`
reads. -/
structure pcrdr_event_msg where
  event : String
  target : Int
  targetValue : Nat
  elementType : Int
  element : Option String
  deriving DecidableEq, Repr

/-- Lines 48-84, `struct client_info` (the fields of the command line and of
the clock, and the variant `sample` that owns the script, are left out). -/
structure client_info where
  running : Bool
  nr_windows : Nat
  initialOps : Option purc_variant
  namedOps : Option purc_variant
  events : Option purc_variant
  nr_ops : Nat
  nr_events : Nat
  ops_issued : Nat
  nr_windows_created : Nat
  doc_content : Nat → Option (List Nat)
  len_content : Nat → Nat
  len_wrotten : Nat → Nat
  win_handles : Nat → Nat
  dom_handles : Nat → Nat
  buff : String

/-- The cell `a[i]` of an array of `MAX_NR_WINDOWS` cells; `none` when the
index is out of range. -/
def cell {α : Type} (a : Nat → α) (i : Nat) : Option α :=
  if i < MAX_NR_WINDOWS then some (a i) else none

/-- The four response handlers (`pcrdr_response_handler`). -/
inductive response_handler where
  | plainwin_created_handler
  | loaded_handler
  | wrotten_handler
  | changed_handler
  deriving DecidableEq, Repr

/-- An entry of the pending request table: a request the transport accepted,
with the context and the handler given to `pcrdr_send_request`. The request
identifier is the number of requests accepted before it. -/
structure pending_request where
  id : Nat
  msg : pcrdr_msg
  context : Nat
  handler : response_handler

/-- Modelled from the spec: the connection (`pcrdr_conn`). Beside the user
data it holds what the transport contributes: `sent`, the requests accepted
so far in sending order; `pending`, the requests without a response, oldest
first; `send_script`, the outcomes of the upcoming send attempts (`true`:
accepted; once the list is used up every request is accepted); and `files`,
the content of the files that `fopen` can open. -/
structure pcrdr_conn where
  user_data : client_info
  sent : List pending_request
  pending : List pending_request
  send_script : List Bool
  files : String → Option (List Nat)

/-- Modelled from the spec: `pcrdr_send_request(conn, msg, time, context,
handler)`: a negative value when the transmission fails, and then no entry
is recorded; otherwise 0, and the request is recorded with its context and
handler. -/
def pcrdr_send_request (conn : pcrdr_conn) (msg : pcrdr_msg) (context : Nat)
    (handler : response_handler) : Int × pcrdr_conn :=
  let entry : pending_request :=
    { id := conn.sent.length, msg := msg, context := context, handler := handler }
  match conn.send_script with
  | false :: rest => (-1, { conn with send_script := rest })
  | true :: rest =>
    (0, { conn with send_script := rest, sent := conn.sent ++ [entry],
                    pending := conn.pending ++ [entry] })
  | [] => (0, { conn with sent := conn.sent ++ [entry], pending := conn.pending ++ [entry] })

/-- Modelled from the spec: the table of operation names of the renderer
protocol (`pcrdr_try_operation_atom` and `pcrdr_operation_from_atom` of the
PurC library); the identifier `PCRDR_K_OPERATION_*` of an operation is its
position. -/
def pcrdr_operation_names : List String :=
  ["startSession", "endSession", "createWorkspace", "updateWorkspace", "destroyWorkspace",
   "createPlainWindow", "updatePlainWindow", "destroyPlainWindow",
   "createTabbedWindow", "updateTabbedWindow", "destroyTabbedWindow",
   "createTabpage", "updateTabpage", "destroyTabpage",
   "load", "writeBegin", "writeMore", "writeEnd",
   "append", "prepend", "insertBefore", "insertAfter",
   "displace", "update", "erase", "clear"]

/-- The identifier of a known operation name; `none` for an unknown name. -/
def pcrdr_operation_id (operation : String) : Option Nat :=
  if pcrdr_operation_names.indexOf operation < pcrdr_operation_names.length
  then some (pcrdr_operation_names.indexOf operation) else none

/-- Identifier of `createPlainWindow`. -/
def PCRDR_K_OPERATION_CREATEPLAINWINDOW : Nat := 5

/-- Identifier of `load`. -/
def PCRDR_K_OPERATION_LOAD : Nat := 14

/-- Identifier of `displace`. -/
def PCRDR_K_OPERATION_DISPLACE : Nat := 22

/-- Identifier of `update`. -/
def PCRDR_K_OPERATION_UPDATE : Nat := 23

/-- Identifier of `erase`. -/
def PCRDR_K_OPERATION_ERASE : Nat := 24

/-- Identifier of `clear`. -/
def PCRDR_K_OPERATION_CLEAR : Nat := 25

/-! ## Issuing requests -/

/-- Lines 199-230, `load_file_content`: the buffer with the content of the
file (its length is the length of the file), NULL when the file cannot be
opened. -/
def load_file_content (conn : pcrdr_conn) (file : String) : Option (List Nat) :=
  conn.files file

/-- The value a caller returns after a call whose own value it drops, as in
`issue_next_operation(conn); return 0;`: an abort of the callee stays an
abort. -/
def and_return {α β : Type} (r : Ret α × pcrdr_conn) (v : β) : Ret β × pcrdr_conn :=
  match r.1 with
  | Ret.ok _ => (Ret.ok v, r.2)
  | Ret.assert_failed => (Ret.assert_failed, r.2)
  | Ret.undefined_behaviour => (Ret.undefined_behaviour, r.2)

/-- Lines 440-503, `create_plain_win`. The exit at line 446, taken when all
the windows are created, is the return of -1; the clean-up it jumps to, which
reads `msg`, `data` and `win` before they are assigned, is outside the
model. -/
def create_plain_win (conn : pcrdr_conn) (op : purc_variant) : Ret Int × pcrdr_conn :=
  let info := conn.user_data
  if info.nr_windows = info.nr_windows_created then (Ret.ok (-1), conn)
  else
    let win := info.nr_windows_created
    let name_buff := "the-plain-window-" ++ sprintf_d win
    let title :=
      match string_member (some op) "title" with
      | some t => t
      | none => "No Title"
    let data := purc_variant.object
      [("name", purc_variant.string name_buff), ("title", purc_variant.string title)]
    let msg : pcrdr_msg :=
      { target := PCRDR_MSG_TARGET_WORKSPACE, targetValue := 0,
        operation := "createPlainWindow",
        elementType := PCRDR_MSG_ELEMENT_TYPE_VOID, element := none, property := none,
        data := msg_data.ejson data }
    let r := pcrdr_send_request conn msg win response_handler.plainwin_created_handler
    if r.1 < 0 then (Ret.ok (-1), r.2) else (Ret.ok 0, r.2)

/-- Lines 580-655, `write_more_doucment`. -/
def write_more_doucment (conn : pcrdr_conn) (win : Nat) : Ret Int × pcrdr_conn :=
  let info := conn.user_data
  if ¬ win < info.nr_windows then (Ret.assert_failed, conn)
  else
    match cell info.len_wrotten win, cell info.len_content win,
          cell info.win_handles win, cell info.doc_content win with
    | some wrotten, some total, some handle, some (some content) =>
      if wrotten > content.length then (Ret.undefined_behaviour, conn)
      else if wrotten + DEF_LEN_ONE_WRITE > total then
        -- writeEnd
        let msg : pcrdr_msg :=
          { target := PCRDR_MSG_TARGET_PLAINWINDOW, targetValue := handle,
            operation := "writeEnd",
            elementType := PCRDR_MSG_ELEMENT_TYPE_VOID, element := none, property := none,
            data := msg_data.text (c_string (content.drop wrotten)) }
        let conn1 := { conn with user_data :=
          { info with len_wrotten := Function.update info.len_wrotten win total } }
        let r := pcrdr_send_request conn1 msg win response_handler.loaded_handler
        if r.1 < 0 then (Ret.ok (-1), r.2) else (Ret.ok 0, r.2)
      else
        -- writeMore
        let start := content.drop wrotten
        let len_to_write := pcutils_string_check_utf8_len start DEF_LEN_ONE_WRITE
        if len_to_write > 0 then
          let msg : pcrdr_msg :=
            { target := PCRDR_MSG_TARGET_PLAINWINDOW, targetValue := handle,
              operation := "writeMore",
              elementType := PCRDR_MSG_ELEMENT_TYPE_VOID, element := none, property := none,
              data := msg_data.text (c_string (start.take len_to_write)) }
          let conn1 := { conn with user_data :=
            { info with len_wrotten :=
                Function.update info.len_wrotten win (wrotten + len_to_write) } }
          let r := pcrdr_send_request conn1 msg win response_handler.wrotten_handler
          if r.1 < 0 then (Ret.ok (-1), r.2) else (Ret.ok 0, r.2)
        else (Ret.ok (-1), conn)
    | _, _, _, _ => (Ret.undefined_behaviour, conn)

/-- Lines 698-769 of `load_or_write_doucment`: the request for the content
held in `doc_content[win]`, a load or a write-begin. -/
def load_or_write_request (conn : pcrdr_conn) (win : Nat) (handle : Nat)
    (content : List Nat) : Ret Int × pcrdr_conn :=
  let info := conn.user_data
  if info.len_content win > DEF_LEN_ONE_WRITE then
    -- use writeBegin
    let len_to_write := pcutils_string_check_utf8_len content DEF_LEN_ONE_WRITE
    if len_to_write > 0 then
      let msg : pcrdr_msg :=
        { target := PCRDR_MSG_TARGET_PLAINWINDOW, targetValue := handle,
          operation := "writeBegin",
          elementType := PCRDR_MSG_ELEMENT_TYPE_VOID, element := none, property := none,
          data := msg_data.text (c_string (content.take len_to_write)) }
      let conn1 := { conn with user_data :=
        { info with len_wrotten := Function.update info.len_wrotten win len_to_write } }
      let r := pcrdr_send_request conn1 msg win response_handler.wrotten_handler
      if r.1 < 0 then (Ret.ok (-1), r.2) else (Ret.ok 0, r.2)
    else (Ret.ok (-1), conn)
  else
    -- use load
    let msg : pcrdr_msg :=
      { target := PCRDR_MSG_TARGET_PLAINWINDOW, targetValue := handle,
        operation := "load",
        elementType := PCRDR_MSG_ELEMENT_TYPE_VOID, element := none, property := none,
        data := msg_data.text (c_string content) }
    let conn1 := { conn with user_data :=
      { info with len_wrotten := Function.update info.len_wrotten win (info.len_content win) } }
    let r := pcrdr_send_request conn1 msg win response_handler.loaded_handler
    if r.1 < 0 then (Ret.ok (-1), r.2) else (Ret.ok 0, r.2)

/-- Lines 682-696 of `load_or_write_doucment`: the content of the window is
read from the file named by the operation unless a buffer is held already;
then the request is made. -/
def load_or_write_content (conn : pcrdr_conn) (op : purc_variant) (win : Nat)
    (handle : Nat) : Ret Int × pcrdr_conn :=
  let info := conn.user_data
  match info.doc_content win with
  | some content => load_or_write_request conn win handle content
  | none =>
    match purc_variant_object_get_by_ckey (some op) "content" with
    | none => (Ret.undefined_behaviour, conn)
    | some tmp =>
      match purc_variant_get_string_const tmp with
      | none => (Ret.ok (-1), conn)
      | some file =>
        match load_file_content conn file with
        | none => (Ret.ok (-1), conn)
        | some content =>
          let conn1 := { conn with user_data :=
            { info with doc_content := Function.update info.doc_content win (some content),
                        len_content := Function.update info.len_content win content.length } }
          load_or_write_request conn1 win handle content

/-- Lines 657-769, `load_or_write_doucment`. The exits through `failed:` are
the return of -1; the clean-up there, which on the early exits (lines
668-679 and 695) reads `msg` and `data` before they are assigned, is outside
the model. With an index outside the arrays the model stops at the first
read, `win_handles[win]`, with the connection as it is; what the code goes
on to do with the cells behind the arrays is not modelled. -/
def load_or_write_doucment (conn : pcrdr_conn) (op : purc_variant) : Ret Int × pcrdr_conn :=
  let info := conn.user_data
  match string_member (some op) "target" with
  | none => (Ret.ok (-1), conn)
  | some target =>
    let win := (split_target target).1
    let target_name := (split_target target).2
    if win < 0 ∨ win > (info.nr_windows_created : Int) then (Ret.ok (-1), conn)
    else
      match cell info.win_handles win.toNat with
      | none => (Ret.undefined_behaviour, conn)
      | some handle =>
        if handle = 0 then (Ret.ok (-1), conn)
        else if target_name ≠ some "plainwindow" then (Ret.ok (-1), conn)
        else load_or_write_content conn op win.toNat handle

/-- Lines 771-851, `make_change_message`: the message, `none` for NULL. -/
def make_change_message (conn : pcrdr_conn) (op_id : Nat) (operation : String)
    (op : purc_variant) (win : Nat) : Ret (Option pcrdr_msg) :=
  let info := conn.user_data
  match string_member (some op) "element" with
  | none => Ret.ok none
  | some element =>
    match (split_element element).1 with
    | none => Ret.ok none
    | some element_value =>
      if (split_element element).2 ≠ some "handle" then Ret.ok none
      else if op_id = PCRDR_K_OPERATION_UPDATE then
        -- `content_length` is handed to the message without having been assigned
        match purc_variant_object_get_by_ckey (some op) "content" with
        | none => Ret.undefined_behaviour
        | some tmp =>
          match purc_variant_get_string_const tmp with
          | none => Ret.ok none
          | some _ => Ret.undefined_behaviour
      else if op_id = PCRDR_K_OPERATION_ERASE ∨ op_id = PCRDR_K_OPERATION_CLEAR then
        -- `content` is read without having been assigned
        Ret.undefined_behaviour
      else
        match purc_variant_object_get_by_ckey (some op) "content" with
        | none => Ret.undefined_behaviour
        | some tmp =>
          match purc_variant_get_string_const tmp with
          | none => Ret.ok none
          | some file =>
            match load_file_content conn file with
            | none => Ret.ok none
            | some content =>
              match cell info.dom_handles win with
              | none => Ret.undefined_behaviour
              | some dom =>
                Ret.ok (some
                  { target := PCRDR_MSG_TARGET_DOM, targetValue := dom,
                    operation := operation,
                    elementType := PCRDR_MSG_ELEMENT_TYPE_HANDLE,
                    element := some element_value, property := none,
                    data := msg_data.text (c_string content) })

/-- Lines 882-931, `change_document`. The exits through `failed:` are the
return of -1; the clean-up there, which on the early exits (lines 893-906)
releases `msg` before it is assigned, is outside the model. With an index
outside the arrays the model stops at the first read, `win_handles[win]`,
with the connection as it is. -/
def change_document (conn : pcrdr_conn) (op_id : Nat) (operation : String)
    (op : purc_variant) : Ret Int × pcrdr_conn :=
  let info := conn.user_data
  match string_member (some op) "target" with
  | none => (Ret.ok (-1), conn)
  | some target =>
    let win := (split_target target).1
    let target_name := (split_target target).2
    if win < 0 ∨ win > (info.nr_windows_created : Int) then (Ret.ok (-1), conn)
    else
      match cell info.win_handles win.toNat with
      | none => (Ret.undefined_behaviour, conn)
      | some handle =>
        if handle = 0 then (Ret.ok (-1), conn)
        else if target_name ≠ some "dom" then (Ret.ok (-1), conn)
        else
          match make_change_message conn op_id operation op win.toNat with
          | Ret.ok none => (Ret.ok (-1), conn)
          | Ret.ok (some msg) =>
            let r := pcrdr_send_request conn msg win.toNat response_handler.changed_handler
            if r.1 < 0 then (Ret.ok (-1), r.2) else (Ret.ok 0, r.2)
          | Ret.assert_failed => (Ret.assert_failed, conn)
          | Ret.undefined_behaviour => (Ret.undefined_behaviour, conn)

/-- Lines 934-976, `issue_operation`. For a name that is no operation of the
protocol `op_id` is never assigned and the `switch` reads it. -/
def issue_operation (conn : pcrdr_conn) (op : purc_variant) : Ret Int × pcrdr_conn :=
  match string_member (some op) "operation" with
  | none => (Ret.ok (-1), conn)
  | some operation =>
    match pcrdr_operation_id operation with
    | none => (Ret.undefined_behaviour, conn)
    | some op_id =>
      if op_id = PCRDR_K_OPERATION_CREATEPLAINWINDOW then create_plain_win conn op
      else if op_id = PCRDR_K_OPERATION_LOAD then load_or_write_doucment conn op
      else if op_id = PCRDR_K_OPERATION_DISPLACE then change_document conn op_id operation op
      else (Ret.ok (-1), conn)

/-! ## The operation queue -/

/-- Lines 380-391, `issue_first_operation`. -/
def issue_first_operation (conn : pcrdr_conn) : Ret Int × pcrdr_conn :=
  let conn1 := { conn with user_data := { conn.user_data with ops_issued := 0 } }
  match purc_variant_array_get conn1.user_data.initialOps conn1.user_data.ops_issued with
  | none => (Ret.assert_failed, conn1)
  | some op => issue_operation conn1 op

/-- Lines 393-407, `issue_next_operation`. -/
def issue_next_operation (conn : pcrdr_conn) : Ret Int × pcrdr_conn :=
  if conn.user_data.ops_issued < conn.user_data.nr_ops then
    let conn1 := { conn with user_data :=
      { conn.user_data with ops_issued := conn.user_data.ops_issued + 1 } }
    match purc_variant_array_get conn1.user_data.initialOps conn1.user_data.ops_issued with
    | none => (Ret.assert_failed, conn1)
    | some op => issue_operation conn1 op
  else (Ret.ok 0, conn)

/-! ## Response handlers -/

/-- Lines 409-438, `plainwin_created_handler`. -/
def plainwin_created_handler (conn : pcrdr_conn) (state : Int) (context : Nat)
    (response_msg : Option pcrdr_response_msg) : Ret Int × pcrdr_conn :=
  let info := conn.user_data
  let win := context
  if ¬ win < info.nr_windows then (Ret.assert_failed, conn)
  else
    match response_msg with
    | none => (Ret.ok 0, conn)
    | some response =>
      if state = PCRDR_RESPONSE_CANCELLED then (Ret.ok 0, conn)
      else if response.retCode = PCRDR_SC_OK then
        if win < MAX_NR_WINDOWS then
          and_return (issue_next_operation { conn with user_data :=
            { info with nr_windows_created := info.nr_windows_created + 1,
                        win_handles :=
                          Function.update info.win_handles win response.resultValue } }) 0
        else (Ret.undefined_behaviour, conn)
      else (Ret.ok 0, { conn with user_data := { info with running := false } })

/-- Lines 505-537, `loaded_handler`. -/
def loaded_handler (conn : pcrdr_conn) (state : Int) (context : Nat)
    (response_msg : Option pcrdr_response_msg) : Ret Int × pcrdr_conn :=
  let info := conn.user_data
  let win := context
  if ¬ win < info.nr_windows then (Ret.assert_failed, conn)
  else
    match response_msg with
    | none => (Ret.ok 0, conn)
    | some response =>
      if state = PCRDR_RESPONSE_CANCELLED then (Ret.ok 0, conn)
      else if response.retCode = PCRDR_SC_OK then
        if win < MAX_NR_WINDOWS then
          and_return (issue_next_operation { conn with user_data :=
            { info with dom_handles :=
                          Function.update info.dom_handles win response.resultValue,
                        doc_content := Function.update info.doc_content win none } }) 0
        else (Ret.undefined_behaviour, conn)
      else (Ret.ok 0, { conn with user_data := { info with running := false } })

/-- Lines 541-578, `wrotten_handler`. -/
def wrotten_handler (conn : pcrdr_conn) (state : Int) (context : Nat)
    (response_msg : Option pcrdr_response_msg) : Ret Int × pcrdr_conn :=
  let info := conn.user_data
  let win := context
  if ¬ win < info.nr_windows then (Ret.assert_failed, conn)
  else
    match response_msg with
    | none => (Ret.ok 0, conn)
    | some response =>
      if state = PCRDR_RESPONSE_CANCELLED then (Ret.ok 0, conn)
      else if response.retCode = PCRDR_SC_OK then
        if win < MAX_NR_WINDOWS then
          if info.len_wrotten win = info.len_content win then
            and_return (issue_next_operation { conn with user_data :=
              { info with dom_handles :=
                            Function.update info.dom_handles win response.resultValue,
                          doc_content := Function.update info.doc_content win none } }) 0
          else and_return (write_more_doucment conn win) 0
        else (Ret.undefined_behaviour, conn)
      else (Ret.ok 0, { conn with user_data := { info with running := false } })

/-- Lines 853-880, `changed_handler`. -/
def changed_handler (conn : pcrdr_conn) (state : Int) (context : Nat)
    (response_msg : Option pcrdr_response_msg) : Ret Int × pcrdr_conn :=
  let info := conn.user_data
  let win := context
  if ¬ win < info.nr_windows then (Ret.assert_failed, conn)
  else
    match response_msg with
    | none => (Ret.ok 0, conn)
    | some response =>
      if state = PCRDR_RESPONSE_CANCELLED then (Ret.ok 0, conn)
      else if response.retCode = PCRDR_SC_OK then and_return (issue_next_operation conn) 0
      else (Ret.ok 0, { conn with user_data := { info with running := false } })

/-- The call of a handler through the pointer kept with a request. -/
def call_handler (h : response_handler) (conn : pcrdr_conn) (state : Int) (context : Nat)
    (response_msg : Option pcrdr_response_msg) : Ret Int × pcrdr_conn :=
  match h with
  | response_handler.plainwin_created_handler =>
    plainwin_created_handler conn state context response_msg
  | response_handler.loaded_handler => loaded_handler conn state context response_msg
  | response_handler.wrotten_handler => wrotten_handler conn state context response_msg
  | response_handler.changed_handler => changed_handler conn state context response_msg

/-! ## Events -/

/-- Lines 350-376, `transfer_element_info`: the returned value (`none` is
NULL), what is stored in `element_type` (`none` while nothing has been
stored), and the session, whose `buff` receives the text of a window
handle. -/
def transfer_element_info (info : client_info) (element : String) :
    Ret (Option String × Option Int) × client_info :=
  match (split_element element).1 with
  | none => (Ret.ok (none, none), info)
  | some value =>
    if (split_element element).2 = some "handle" then
      (Ret.ok (some value, some PCRDR_MSG_ELEMENT_TYPE_HANDLE), info)
    else if (split_element element).2 = some "plainwindow" then
      let win := atoi value.data
      if win < 0 ∨ win ≥ (info.nr_windows : Int) then
        (Ret.ok (none, some PCRDR_MSG_ELEMENT_TYPE_HANDLE), info)
      else
        match cell info.win_handles win.toNat with
        | none => (Ret.undefined_behaviour, info)
        | some handle =>
          (Ret.ok (some (sprintf_llx handle), some PCRDR_MSG_ELEMENT_TYPE_HANDLE),
           { info with buff := sprintf_llx handle })
    else (Ret.ok (some value, none), info)

/-- Lines 983-1039, `match_event`: the name of the named operation of the
subscription when it matches the event, `none` (NULL) when it does not.
`target_value` and `element_type` are compared also when the callee stored
nothing in them. -/
def match_event (conn : pcrdr_conn) (evt_vrt : Option purc_variant)
    (evt_msg : pcrdr_event_msg) : Ret (Option String) × pcrdr_conn :=
  match string_member evt_vrt "event", string_member evt_vrt "source",
        string_member evt_vrt "namedOp" with
  | some event, some source, some namedOp =>
    if event ≠ evt_msg.event then (Ret.ok none, conn)
    else if (split_target_deep source).1 ≠ evt_msg.target then (Ret.ok none, conn)
    else
      match (split_target_deep source).2 with
      | none => (Ret.undefined_behaviour, conn)
      | some target_value =>
        if target_value ≠ evt_msg.targetValue then (Ret.ok none, conn)
        else
          match string_member evt_vrt "element" with
          | none => (Ret.ok (some namedOp), conn)
          | some element =>
            match transfer_element_info conn.user_data element with
            | (Ret.ok (element_value, some element_type), info1) =>
              if element_type ≠ evt_msg.elementType ∨ element_value = none
                  ∨ element_value ≠ evt_msg.element
              then (Ret.ok none, { conn with user_data := info1 })
              else (Ret.ok (some namedOp), { conn with user_data := info1 })
            | (_, info1) => (Ret.undefined_behaviour, { conn with user_data := info1 })
  | _, _, _ => (Ret.ok none, conn)

/-- Lines 1045-1051 of `my_event_handler`, the loop
`for (i = 0; i < nr_events; i++) { op_name = matcher(events[i]); if (op_name) break; }`
over the subscriptions `i, i + 1, ...` (`n` of them are left), for any
matcher: it stops at the first subscription the matcher accepts. -/
def first_match (matcher : pcrdr_conn → Option purc_variant → Ret (Option String) × pcrdr_conn) :
    Nat → Nat → pcrdr_conn → Ret (Option String) × pcrdr_conn
  | 0, _, conn => (Ret.ok none, conn)
  | n + 1, i, conn =>
    match matcher conn (purc_variant_array_get conn.user_data.events i) with
    | (Ret.ok none, conn1) => first_match matcher n (i + 1) conn1
    | r => r

/-- The loop of `my_event_handler` with its matcher, `match_event` on the
inbound event. -/
def match_events (msg : pcrdr_event_msg) (n i : Nat) (conn : pcrdr_conn) :
    Ret (Option String) × pcrdr_conn :=
  first_match (fun c evt_vrt => match_event c evt_vrt msg) n i conn

/-- Lines 1053-1094 of `my_event_handler`: what is done with the selected
name; an event that no subscription matches is reported and dropped, `QUIT`
clears the running flag, any other name is looked up among the named
operations and a bad one is reported. -/
def handle_selected (conn : pcrdr_conn) (op_name : Option String) : pcrdr_conn :=
  match op_name with
  | none => conn
  | some name =>
    if name = "QUIT" then { conn with user_data := { conn.user_data with running := false } }
    else
      if purc_variant_is_object
          (purc_variant_object_get_by_ckey conn.user_data.namedOps name) then conn
      else conn

/-- Lines 1041-1094, `my_event_handler`. -/
def my_event_handler (conn : pcrdr_conn) (msg : pcrdr_event_msg) : Ret Unit × pcrdr_conn :=
  match match_events msg conn.user_data.nr_events 0 conn with
  | (Ret.ok op_name, conn1) => (Ret.ok (), handle_selected conn1 op_name)
  | (Ret.assert_failed, conn1) => (Ret.assert_failed, conn1)
  | (Ret.undefined_behaviour, conn1) => (Ret.undefined_behaviour, conn1)

/-! ## The driver -/

/-- What the transport hands to a response handler: the identifier of the
request it answers, the state and the response message (`none` is NULL). -/
structure response where
  request_id : Nat
  state : Int
  msg : Option pcrdr_response_msg
  deriving DecidableEq, Repr

/-- A message read from the connection. -/
inductive inbound where
  | response (r : response)
  | event (e : pcrdr_event_msg)

/-- The entry of a request identifier in a pending table and the table
without it. -/
def take_pending (id : Nat) : List pending_request →
    Option (pending_request × List pending_request)
  | [] => none
  | p :: ps =>
    if p.id = id then some (p, ps)
    else
      match take_pending id ps with
      | none => none
      | some (q, rest) => some (q, p :: rest)

/-- Modelled from the spec: `pcrdr_read_and_dispatch_message` of the PurC
library (section 4.3). A response is looked up by its request identifier; if
absent it is dropped; otherwise the entry is removed from the table and then
its handler is invoked. An event goes to the event handler. -/
def pcrdr_read_and_dispatch_message (conn : pcrdr_conn) (m : inbound) :
    Ret Int × pcrdr_conn :=
  match m with
  | inbound.response r =>
    match take_pending r.request_id conn.pending with
    | none => (Ret.ok 0, conn)
    | some (p, rest) => call_handler p.handler { conn with pending := rest } r.state p.context r.msg
  | inbound.event e => and_return (my_event_handler conn e) 0

/-- Lines 1162-1209 of `main`: the loop that reads and dispatches the
inbound messages, one at a time, until the running flag is cleared (or the
process aborts). The clock and the time-outs of the loop are left out. -/
def main_loop : List inbound → pcrdr_conn → Ret Int × pcrdr_conn
  | [], conn => (Ret.ok 0, conn)
  | m :: ms, conn =>
    match pcrdr_read_and_dispatch_message conn m with
    | (Ret.ok _, conn1) =>
      if conn1.user_data.running then main_loop ms conn1 else (Ret.ok 0, conn1)
    | r => r

/-- Line 1112 of `main`: `memset(&client, 0, sizeof(client))`. -/
def zero_client : client_info :=
  { running := false, nr_windows := 0, initialOps := none, namedOps := none, events := none,
    nr_ops := 0, nr_events := 0, ops_issued := 0, nr_windows_created := 0,
    doc_content := fun _ => none, len_content := fun _ => 0, len_wrotten := fun _ => 0,
    win_handles := fun _ => 0, dom_handles := fun _ => 0, buff := "" }

/-- The session with which `main` enters line 1159 for a script whose
`nrWindows` is within range: the zeroed client, the fields that `load_sample`
fills from the script, and the running flag set (line 1146). -/
def script_session (nr_windows : Nat) (initialOps : List purc_variant)
    (namedOps : Option purc_variant) (events : List purc_variant) : client_info :=
  { zero_client with
    running := true, nr_windows := nr_windows,
    initialOps := some (purc_variant.array initialOps), nr_ops := initialOps.length,
    namedOps := namedOps,
    events := some (purc_variant.array events), nr_events := events.length }

/-- A connection on which nothing has been sent yet, whose transport accepts
every request. -/
def fresh_conn (info : client_info) (files : String → Option (List Nat)) : pcrdr_conn :=
  { user_data := info, sent := [], pending := [], send_script := [], files := files }

/-- Lines 1159-1209 of `main`: the first operation is issued (its value is
dropped), then the loop runs. -/
def run_session (inputs : List inbound) (conn : pcrdr_conn) : Ret Int × pcrdr_conn :=
  match issue_first_operation conn with
  | (Ret.ok _, conn1) => main_loop inputs conn1
  | r => r

/-- The states a session passes through: the state after
`issue_first_operation`, and the state after every message read and
dispatched from such a state. -/
inductive Reachable (conn0 : pcrdr_conn) : pcrdr_conn → Prop where
  | first : Reachable conn0 (issue_first_operation conn0).2
  | step (conn : pcrdr_conn) (m : inbound) :
      Reachable conn0 conn → Reachable conn0 (pcrdr_read_and_dispatch_message conn m).2

/-- The states a session passes through while the process runs: the state
after `issue_first_operation` and the state after every message read and
dispatched from such a state, as far as these calls return; a call that
aborts on an assertion or runs into undefined behaviour ends the run. -/
inductive Returned (conn0 : pcrdr_conn) : pcrdr_conn → Prop where
  | first (v : Int) (conn1 : pcrdr_conn) :
      issue_first_operation conn0 = (Ret.ok v, conn1) → Returned conn0 conn1
  | step (conn : pcrdr_conn) (m : inbound) (v : Int) (conn1 : pcrdr_conn) :
      Returned conn0 conn → pcrdr_read_and_dispatch_message conn m = (Ret.ok v, conn1) →
      Returned conn0 conn1

/-- A response that is delivered with a result and the status `OK`. -/
def success (r : response) : Prop :=
  r.state ≠ PCRDR_RESPONSE_CANCELLED ∧ ∃ m, r.msg = some m ∧ m.retCode = PCRDR_SC_OK

/-- The response `OK` with result value `v` to the oldest pending request. -/
def ok_response (conn : pcrdr_conn) (v : Nat) : inbound :=
  inbound.response
    { request_id := match conn.pending with
                    | [] => 0
                    | p :: _ => p.id,
      state := PCRDR_RESPONSE_RESULT,
      msg := some { retCode := PCRDR_SC_OK, resultValue := v } }

/-- The pending requests are answered with `OK`, one after the other, with
the result values `vs`; it stops when the process aborts. -/
def answer_ok : List Nat → pcrdr_conn → Ret Int × pcrdr_conn
  | [], conn => (Ret.ok 0, conn)
  | v :: vs, conn =>
    match pcrdr_read_and_dispatch_message conn (ok_response conn v) with
    | (Ret.ok _, conn1) => answer_ok vs conn1
    | r => r

/-- The bytes a request carries as text (none for other data). -/
def payload (p : pending_request) : List Nat :=
  match p.msg.data with
  | msg_data.text bytes => bytes
  | _ => []

/-- Valid text, with some bound on the number of characters. -/
def ValidText (s : List Nat) : Prop :=
  ∃ fuel, utf8_text_upto fuel s = true

/-- Text of single-byte characters: every byte is in `1 .. 127`. -/
def single_byte_text (s : List Nat) : Prop :=
  ∀ b ∈ s, 1 ≤ b ∧ b ≤ 127

/-- Window slot `w` holds the document `doc` and `k` bytes of it are
written: the state of a chunked transfer between two requests, on a
transport that accepts every request. -/
structure Transfer (conn : pcrdr_conn) (w : Nat) (doc : List Nat) (k : Nat) : Prop where
  win_lt : w < conn.user_data.nr_windows
  win_max : w < MAX_NR_WINDOWS
  content : conn.user_data.doc_content w = some doc
  total : conn.user_data.len_content w = doc.length
  wrotten : conn.user_data.len_wrotten w = k
  sends : ∀ b ∈ conn.send_script, b = true

/-- The request that `write_more_doucment` makes for window `w`: operation,
payload and handler. -/
def write_request (conn : pcrdr_conn) (w : Nat) (operation : String) (bytes : List Nat)
    (handler : response_handler) : pending_request :=
  { id := conn.sent.length,
    msg := { target := PCRDR_MSG_TARGET_PLAINWINDOW,
             targetValue := conn.user_data.win_handles w,
             operation := operation,
             elementType := PCRDR_MSG_ELEMENT_TYPE_VOID, element := none, property := none,
             data := msg_data.text bytes },
    context := w, handler := handler }

/-- The connection after `write_more_doucment` has sent the request `q` and
set the written counter of window `w` to `k`, with no other request
pending. -/
def after_write (conn : pcrdr_conn) (w k : Nat) (q : pending_request) : pcrdr_conn :=
  { conn with
    user_data := { conn.user_data with
                   len_wrotten := Function.update conn.user_data.len_wrotten w k },
    send_script := conn.send_script.tail,
    sent := conn.sent ++ [q],
    pending := [q] }

/-- The connection with which a handler calls `issue_next_operation` when the
transfer for window `w` is complete: the DOM handle is set to the result
value `v`, the buffer is released, and no request is pending. -/
def transfer_done (conn : pcrdr_conn) (w v : Nat) : pcrdr_conn :=
  { conn with
    user_data := { conn.user_data with
                   dom_handles := Function.update conn.user_data.dom_handles w v,
                   doc_content := Function.update conn.user_data.doc_content w none },
    pending := [] }

/-- Between the requests of a transfer only the written counters of the
session change. -/
def only_wrotten_changed (a b : client_info) : Prop :=
  b = { a with len_wrotten := b.len_wrotten }

/-- The connection once `load_or_write_doucment` has read the document of
window `w` from its file. -/
def with_document (conn : pcrdr_conn) (w : Nat) (doc : List Nat) : pcrdr_conn :=
  { conn with user_data :=
    { conn.user_data with
      doc_content := Function.update conn.user_data.doc_content w (some doc),
      len_content := Function.update conn.user_data.len_content w doc.length } }

/-- What a function that issues a request may do to the requests: nothing,
or one more request sent and pending. -/
def sends_at_most_one (a b : pcrdr_conn) : Prop :=
  (b.sent = a.sent ∧ b.pending = a.pending)
  ∨ ∃ p, b.sent = a.sent ++ [p] ∧ b.pending = a.pending ++ [p]

/-- The script and the queue position are left alone, and one request at
most is sent. -/
def Frame (a b : pcrdr_conn) : Prop :=
  b.user_data.ops_issued = a.user_data.ops_issued
  ∧ b.user_data.initialOps = a.user_data.initialOps
  ∧ b.user_data.nr_ops = a.user_data.nr_ops
  ∧ sends_at_most_one a b

/-- The requests, the script and the queue position are left alone. -/
def Quiet (a b : pcrdr_conn) : Prop :=
  b.sent = a.sent ∧ b.pending = a.pending
  ∧ b.user_data.ops_issued = a.user_data.ops_issued
  ∧ b.user_data.initialOps = a.user_data.initialOps
  ∧ b.user_data.nr_ops = a.user_data.nr_ops

/-- The outcome `r` is that of issuing the operation at the index after the
queue position of `c`: the position is moved by one, the operation at the
new index is fetched from `initialOps` and handed to `issue_operation`, or
the assertion fails because there is none. -/
def issues_next (c : pcrdr_conn) (r : Ret Int × pcrdr_conn) : Prop :=
  ∃ c1 : pcrdr_conn,
    c1.user_data.ops_issued = c.user_data.ops_issued + 1
    ∧ c1.user_data.initialOps = c.user_data.initialOps
    ∧ ((purc_variant_array_get c.user_data.initialOps (c.user_data.ops_issued + 1) = none
          ∧ r = (Ret.assert_failed, c1))
        ∨ ∃ op, purc_variant_array_get c.user_data.initialOps (c.user_data.ops_issued + 1)
              = some op
            ∧ r = and_return (issue_operation c1 op) 0)

/-- One request at most is pending, and it is the last one sent. -/
def one_pending (c : pcrdr_conn) : Prop :=
  c.pending = [] ∨ ∃ p, c.pending = [p] ∧ c.sent.getLast? = some p

/-- What a response handler does with the queue: the conclusion shared by
the four handlers. -/
def handler_outcome (c : pcrdr_conn) (state : Int) (msg : Option pcrdr_response_msg)
    (r : Ret Int × pcrdr_conn) : Prop :=
  r.2.user_data.initialOps = c.user_data.initialOps
  ∧ r.2.user_data.nr_ops = c.user_data.nr_ops
  ∧ sends_at_most_one c r.2
  ∧ (r.2.user_data.ops_issued = c.user_data.ops_issued
      ∨ (r.2.user_data.ops_issued = c.user_data.ops_issued + 1
          ∧ state ≠ PCRDR_RESPONSE_CANCELLED
          ∧ (∃ m, msg = some m ∧ m.retCode = PCRDR_SC_OK)
          ∧ issues_next c r))

/-! ## Loading the script -/

/-- Modelled from the spec: `purc_variant_cast_to_uint32(v, &u32, false)` of
the PurC library: it succeeds on a number that is an unsigned integer of 32
bits and stores it; it fails on every other value. -/
def purc_variant_cast_to_uint32 (v : purc_variant) : Option Nat :=
  match v with
  | purc_variant.number n => if 0 ≤ n ∧ n ≤ 4294967295 then some n.toNat else none
  | _ => none

/-- Lines 232-281, `load_sample`; `sample` is what
`purc_variant_load_from_json_file` returns for the file of the sample
(`none` when the file cannot be loaded). The result is the returned `bool`
and the session. -/
def load_sample (info : client_info) (sample : Option purc_variant) : Bool × client_info :=
  match sample with
  | none => (false, info)
  | some _ =>
    let nr_windows :=
      match purc_variant_object_get_by_ckey sample "nrWindows" with
      | some tmp =>
        match purc_variant_cast_to_uint32 tmp with
        | some nr => nr
        | none => 0
      | none => 0
    let info1 := { info with
      nr_windows := if nr_windows = 0 ∨ nr_windows > MAX_NR_WINDOWS then 1 else nr_windows,
      initialOps := purc_variant_object_get_by_ckey sample "initialOps" }
    match purc_variant_array_size info1.initialOps with
    | none => (false, info1)
    | some nr_ops =>
      let namedOps := purc_variant_object_get_by_ckey sample "namedOps"
      let info2 := { info1 with
        nr_ops := nr_ops,
        namedOps := if purc_variant_is_object namedOps then namedOps else none }
      match purc_variant_array_size (purc_variant_object_get_by_ckey sample "events") with
      | none => (true, { info2 with events := none, nr_events := 0 })
      | some nr_events =>
        (true, { info2 with events := purc_variant_object_get_by_ckey sample "events",
                            nr_events := nr_events })

/-- A sample with the given `nrWindows` and an empty list of operations. -/
def sample_with_windows (n : Int) : Option purc_variant :=
  some (purc_variant.object [("nrWindows", purc_variant.number n),
                             ("initialOps", purc_variant.array [])])

/-! ## Scenarios -/

/-- The script of one operation, `createPlainWindow` with the title `Test`. -/
def one_operation_script : List purc_variant :=
  [purc_variant.object [("operation", purc_variant.string "createPlainWindow"),
                        ("title", purc_variant.string "Test")]]

/-- The session on the script of one operation after `issue_first_operation`
and the creation of the window with handle `0x1001`, as
`plainwin_created_handler` hands it to `issue_next_operation`. -/
def after_only_operation : pcrdr_conn :=
  { user_data := { script_session 1 one_operation_script none [] with
                   nr_windows_created := 1,
                   win_handles := Function.update (fun _ => 0) 0 4097 },
    sent := (issue_first_operation
              (fresh_conn (script_session 1 one_operation_script none []) (fun _ => none))).2.sent,
    pending := [], send_script := [], files := fun _ => none }

/-- A document of `n` bytes, each the letter `a`. -/
def letters (n : Nat) : List Nat :=
  List.replicate n 97

/-- The operation that loads the file `doc.html` into window 0. -/
def load_operation : purc_variant :=
  purc_variant.object [("operation", purc_variant.string "load"),
                       ("target", purc_variant.string "plainwindow/0"),
                       ("content", purc_variant.string "doc.html")]

/-- The script that creates a window and loads `doc.html` into it. -/
def load_script : List purc_variant :=
  one_operation_script ++ [load_operation]

/-- The file system that holds `doc.html` with the given content. -/
def document_file (doc : List Nat) : String → Option (List Nat) :=
  fun file => if file = "doc.html" then some doc else none

/-- The session on `load_script` once window 0 is created with handle
`0x1001`, at the point where `issue_next_operation` hands the load operation
to `issue_operation`. -/
def window_ready (doc : List Nat) : pcrdr_conn :=
  { user_data := { script_session 1 load_script none [] with
                   ops_issued := 1, nr_windows_created := 1,
                   win_handles := Function.update (fun _ => 0) 0 4097 },
    sent := [], pending := [], send_script := [], files := document_file doc }

/-- The subscription list of the event-matching scenario, with the action
under the key `namedOp`, which is the key `match_event` reads. -/
def click_subscriptions : List purc_variant :=
  [purc_variant.object [("event", purc_variant.string "click"),
                        ("source", purc_variant.string "plainwindow/0"),
                        ("namedOp", purc_variant.string "OP1")],
   purc_variant.object [("event", purc_variant.string "click"),
                        ("source", purc_variant.string "plainwindow/0"),
                        ("namedOp", purc_variant.string "QUIT")]]

/-- The same subscription list with the action under the key `action`, as
the specification writes the records. -/
def click_subscriptions_action : List purc_variant :=
  [purc_variant.object [("event", purc_variant.string "click"),
                        ("source", purc_variant.string "plainwindow/0"),
                        ("action", purc_variant.string "OP1")],
   purc_variant.object [("event", purc_variant.string "click"),
                        ("source", purc_variant.string "plainwindow/0"),
                        ("action", purc_variant.string "QUIT")]]

/-- The session with the given subscriptions and the named operation `OP1`,
once window 0 is created with handle `0x1001`. -/
def subscribed (events : List purc_variant) : pcrdr_conn :=
  { user_data :=
      { script_session 1 one_operation_script
          (some (purc_variant.object [("OP1", load_operation)])) events with
        nr_windows_created := 1,
        win_handles := Function.update (fun _ => 0) 0 4097 },
    sent := [], pending := [], send_script := [], files := fun _ => none }

/-- The inbound event: a click that targets window 0 (the plain window with
handle `0x1001`). -/
def click_on_window : pcrdr_event_msg :=
  { event := "click", target := PCRDR_MSG_TARGET_PLAINWINDOW, targetValue := 4097,
    elementType := PCRDR_MSG_ELEMENT_TYPE_VOID, element := none }

/-- A matcher that accepts every subscription that names an operation; it
stands for a matcher that can succeed. -/
def accept_named (conn : pcrdr_conn) (evt_vrt : Option purc_variant) :
    Ret (Option String) × pcrdr_conn :=
  (Ret.ok (string_member evt_vrt "namedOp"), conn)

/-- A document of 2000 bytes that starts with the byte `0xFF`, which begins
no UTF-8 character. -/
def broken_document : List Nat :=
  255 :: letters 1999

/-- The request that `change_document` makes for window `w`. -/
def change_request (conn : pcrdr_conn) (w : Nat) (operation value : String)
    (content : List Nat) : pending_request :=
  { id := conn.sent.length,
    msg := { target := PCRDR_MSG_TARGET_DOM,
             targetValue := conn.user_data.dom_handles w,
             operation := operation,
             elementType := PCRDR_MSG_ELEMENT_TYPE_HANDLE,
             element := some value, property := none,
             data := msg_data.text (c_string content) },
    context := w, handler := response_handler.changed_handler }

/-- The operation that displaces the content of the element with handle `3f`
in the document of window 0 by the content of the file `frag.html`. -/
def displace_operation : purc_variant :=
  purc_variant.object [("operation", purc_variant.string "displace"),
                       ("target", purc_variant.string "dom/0"),
                       ("element", purc_variant.string "handle/3f"),
                       ("content", purc_variant.string "frag.html")]

/-- An operation that updates the text of the element with handle `3f` in
the document of window 0. -/
def update_operation : purc_variant :=
  purc_variant.object [("operation", purc_variant.string "update"),
                       ("target", purc_variant.string "dom/0"),
                       ("element", purc_variant.string "handle/3f"),
                       ("property", purc_variant.string "textContent"),
                       ("content", purc_variant.string "hello")]

/-- The file system that holds `frag.html` with the given content. -/
def fragment_file (frag : List Nat) : String → Option (List Nat) :=
  fun file => if file = "frag.html" then some frag else none

/-- A session whose window 0 is created with handle `0x1001` and whose
document is written, with DOM handle `0x2002`; the script is the given one
and `frag.html` holds ten letters. -/
def document_written (ops : List purc_variant) : pcrdr_conn :=
  { user_data := { script_session 1 ops none [] with
                   nr_windows_created := 1,
                   win_handles := Function.update (fun _ => 0) 0 4097,
                   dom_handles := Function.update (fun _ => 0) 0 8194 },
    sent := [], pending := [], send_script := [], files := fragment_file (letters 10) }

/-- The script that creates a window and at once displaces an element of its
document, which has not been loaded. -/
def displace_script : List purc_variant :=
  one_operation_script ++ [displace_operation]

/-- What the handler of a request needs of the session when the request is
made: a create request is made for the next slot to create, a document
request for a slot that has a window handle. -/
def context_ok (info : client_info) (handler : response_handler) (context : Nat) : Prop :=
  match handler with
  | response_handler.plainwin_created_handler => context = info.nr_windows_created
  | response_handler.loaded_handler => info.win_handles context ≠ 0
  | response_handler.wrotten_handler => info.win_handles context ≠ 0
  | response_handler.changed_handler => True

/-- The handles, the window counts and the running flag are left alone. -/
def Kept (a b : pcrdr_conn) : Prop :=
  b.user_data.win_handles = a.user_data.win_handles
  ∧ b.user_data.dom_handles = a.user_data.dom_handles
  ∧ b.user_data.nr_windows_created = a.user_data.nr_windows_created
  ∧ b.user_data.nr_windows = a.user_data.nr_windows
  ∧ b.user_data.running = a.user_data.running

/-- No request is added to the pending ones, or one whose context is in
order. -/
def Requests (a b : pcrdr_conn) : Prop :=
  b.pending = a.pending
  ∨ ∃ p, b.pending = a.pending ++ [p] ∧ context_ok a.user_data p.handler p.context

/-- The handles of a session are in order: a slot with a DOM handle has a
window handle, and the slots from `nr_windows_created` on have no window
handle. -/
def handles_ordered (info : client_info) : Prop :=
  (∀ w, info.dom_handles w ≠ 0 → info.win_handles w ≠ 0)
  ∧ (∀ w, info.nr_windows_created ≤ w → info.win_handles w = 0)

/-- The handles are in order, and one request at most is pending, with its
context in order. -/
def Slots (c : pcrdr_conn) : Prop :=
  handles_ordered c.user_data
  ∧ (c.pending = []
      ∨ ∃ p, c.pending = [p] ∧ context_ok c.user_data p.handler p.context)

/-- The operation that loads the file `bad.html` into window 0. -/
def reload_operation : purc_variant :=
  purc_variant.object [("operation", purc_variant.string "load"),
                       ("target", purc_variant.string "plainwindow/0"),
                       ("content", purc_variant.string "bad.html")]

/-- The script that creates a window, loads `doc.html` into it and then
loads `bad.html` into the same window. -/
def reload_script : List purc_variant :=
  load_script ++ [reload_operation]

/-- The file system that holds `doc.html` and `bad.html` with the given
contents. -/
def two_documents (doc bad : List Nat) : String → Option (List Nat) :=
  fun file => if file = "doc.html" then some doc
              else if file = "bad.html" then some bad else none

/-- The response `OK` with result value `v` to the request `id`. -/
def ok_reply (id v : Nat) : inbound :=
  inbound.response
    { request_id := id, state := PCRDR_RESPONSE_RESULT,
      msg := some { retCode := PCRDR_SC_OK, resultValue := v } }

/-- The operation that creates a plain window with the title `Test`. -/
def create_window_operation : purc_variant :=
  purc_variant.object [("operation", purc_variant.string "createPlainWindow"),
                       ("title", purc_variant.string "Test")]

/-- The operation that loads the file `doc.html` into the window with index
8, one past the last slot. -/
def load_beyond_operation : purc_variant :=
  purc_variant.object [("operation", purc_variant.string "load"),
                       ("target", purc_variant.string "plainwindow/8"),
                       ("content", purc_variant.string "doc.html")]

/-- The script that creates eight windows, loads `doc.html` into window 0
and then loads it into the window with index 8. -/
def eight_windows_script : List purc_variant :=
  List.replicate 8 create_window_operation ++ [load_operation, load_beyond_operation]

/-- The session on `eight_windows_script` with `nrWindows` 8 and a file
`doc.html` of ten bytes, as `main` enters line 1159. -/
def eight_windows_session : pcrdr_conn :=
  fresh_conn (script_session 8 eight_windows_script none []) (document_file (letters 10))

/-- The session with which `plainwin_created_handler` is called for the
first request of a script: the state after `issue_first_operation`, with the
request taken from the pending table. -/
def first_answered (ops : List purc_variant) (files : String → Option (List Nat)) :
    pcrdr_conn :=
  { (issue_first_operation (fresh_conn (script_session 1 ops none []) files)).2 with
    pending := [] }

/-- The session with which the handler of a success response to the create
request for slot `w` with result handle `h` calls `issue_operation`: the
count of windows is raised, the handle stored and the queue position
moved. -/
def window_stored (conn : pcrdr_conn) (w h : Nat) : pcrdr_conn :=
  { conn with user_data :=
    { conn.user_data with
      nr_windows_created := conn.user_data.nr_windows_created + 1,
      win_handles := Function.update conn.user_data.win_handles w h,
      ops_issued := conn.user_data.ops_issued + 1 } }

/-- What the outcome of the transport does to a function that issues a
request: no send is attempted, or the transport accepts the request, or the
function returns -1 and no request is recorded. -/
def Refusal (a : pcrdr_conn) (r : Ret Int × pcrdr_conn) : Prop :=
  r.2.send_script = a.send_script
  ∨ a.send_script.head? ≠ some false
  ∨ (r.1 = Ret.ok (-1) ∧ r.2.sent = a.sent ∧ r.2.pending = a.pending)

/-- The connection with a transport that fails to send the next request. -/
def refusing (conn : pcrdr_conn) : pcrdr_conn :=
  { conn with send_script := [false] }

/-- A connection on which nothing has been sent yet, whose transport fails
to send the first request. -/
def refusing_conn (info : client_info) (files : String → Option (List Nat)) : pcrdr_conn :=
  refusing (fresh_conn info files)

/-- The session on `reload_script` whose `doc.html` holds 3000 letters and
whose `bad.html` holds the broken document of 2000 bytes, as `main` enters
line 1159. -/
def reload_session : pcrdr_conn :=
  fresh_conn (script_session 1 reload_script none [])
    (two_documents (letters 3000) broken_document)

/-- A decimal numeral, in the words of the specification: a text of decimal
digits, one at least. -/
def decimal_numeral (s : List Char) : Bool :=
  !s.isEmpty && s.all isdigit

/-- The number that a text of decimal digits denotes. -/
def decimal_value (s : List Char) : Nat :=
  s.foldl (fun acc c => acc * 10 + (c.toNat - 48)) 0

/-- The texts that `strtol` converts in full: white space, then an optional
sign, then a decimal numeral. -/
def strtol_numeral (s : List Char) : Bool :=
  decimal_numeral
    (if (s.dropWhile isspace).head? = some (Char.ofNat 45)
        ∨ (s.dropWhile isspace).head? = some (Char.ofNat 43)
     then (s.dropWhile isspace).tail else s.dropWhile isspace)

/-- The operation that displaces the content of the element with handle `3f`
in the document of the window with index 8, one past the last slot. -/
def displace_beyond_operation : purc_variant :=
  purc_variant.object [("operation", purc_variant.string "displace"),
                       ("target", purc_variant.string "dom/8"),
                       ("element", purc_variant.string "handle/3f"),
                       ("content", purc_variant.string "frag.html")]

/-- The session with `nrWindows` 8 on the script that creates eight windows
and then displaces an element in the window with index 8, as `main` enters
line 1159; `frag.html` holds ten letters. -/
def eight_windows_displace_session : pcrdr_conn :=
  fresh_conn
    (script_session 8 (List.replicate 8 create_window_operation ++ [displace_beyond_operation])
      none [])
    (fragment_file (letters 10))

/-- The session on `eight_windows_script` with `nrWindows` 8 and an empty
file `doc.html`, as `main` enters line 1159. -/
def eight_windows_empty_session : pcrdr_conn :=
  fresh_conn (script_session 8 eight_windows_script none []) (document_file [])

/-- The responses `OK` to the eight create requests, with the window handles
`0x1001` to `0x1008`, and to the load into window 0, with the DOM handle
`0x2002`. -/
def eight_windows_replies : List inbound :=
  [ok_reply 0 4097, ok_reply 1 4098, ok_reply 2 4099, ok_reply 3 4100, ok_reply 4 4101,
   ok_reply 5 4102, ok_reply 6 4103, ok_reply 7 4104, ok_reply 8 8194]

/-! # Theorems -/

/-! ## UTF-8 text and the checker -/

theorem utf8_char_len_bounds (s : List Nat) (n : Nat) (h : utf8_char_len s = some n) :
    1 ≤ n ∧ n ≤ 4 ∧ n ≤ s.length ∧ ∀ b ∈ s.take n, b ≠ 0 := by
  rcases s with _ | ⟨b0, r⟩
  · simp [utf8_char_len] at h
  · simp only [utf8_char_len] at h
    split_ifs at h with h1 h2 h3 h4
    · cases h
      simp
      omega
    · rcases r with _ | ⟨b1, r⟩
      · simp at h
      · simp only [utf8_cont] at h
        split_ifs at h with hc
        cases h
        simp at hc ⊢
        omega
    · rcases r with _ | ⟨b1, _ | ⟨b2, r⟩⟩
      · simp at h
      · simp at h
      · simp only [utf8_cont] at h
        split_ifs at h with hc
        cases h
        simp at hc ⊢
        omega
    · rcases r with _ | ⟨b1, _ | ⟨b2, _ | ⟨b3, r⟩⟩⟩
      · simp at h
      · simp at h
      · simp at h
      · simp only [utf8_cont] at h
        split_ifs at h with hc
        cases h
        simp at hc ⊢
        omega

theorem c_string_of_no_nul (s : List Nat) (h : ∀ b ∈ s, b ≠ 0) : c_string s = s := by
  induction s with
  | nil => rfl
  | cons b r ih =>
    have hb : b ≠ 0 := h b (by simp)
    have hr : ∀ x ∈ r, x ≠ 0 := fun x hx => h x (by simp [hx])
    have ih2 := ih hr
    simp only [c_string] at ih2 ⊢
    simp [List.takeWhile_cons, hb, ih2]

theorem utf8_scan_bounds (fuel : Nat) : ∀ (s : List Nat) (m : Nat),
    utf8_scan fuel s m ≤ m ∧ utf8_scan fuel s m ≤ s.length
      ∧ ∀ b ∈ s.take (utf8_scan fuel s m), b ≠ 0 := by
  induction fuel with
  | zero => intro s m; simp [utf8_scan]
  | succ f ih =>
    intro s m
    unfold utf8_scan
    cases hc : utf8_char_len s with
    | none => simp
    | some n =>
      simp only
      have hb := utf8_char_len_bounds s n hc
      split_ifs with hn
      · have ih2 := ih (s.drop n) (m - n)
        simp only [List.length_drop] at ih2
        refine ⟨by omega, by omega, ?_⟩
        intro b hbm
        rw [List.take_add] at hbm
        rcases List.mem_append.mp hbm with h1 | h1
        · exact hb.2.2.2 b h1
        · exact ih2.2.2 b h1
      · simp

theorem validText_char (s : List Nat) (h : ValidText s) (hne : s ≠ []) :
    ∃ n, utf8_char_len s = some n ∧ ValidText (s.drop n) := by
  obtain ⟨fuel, hf⟩ := h
  rcases s with _ | ⟨b, r⟩
  · exact absurd rfl hne
  · cases fuel with
    | zero => simp [utf8_text_upto] at hf
    | succ f =>
      unfold utf8_text_upto at hf
      cases hc : utf8_char_len (b :: r) with
      | none => simp [hc] at hf
      | some n =>
        simp only [hc] at hf
        exact ⟨n, rfl, f, hf⟩

theorem validText_of_utf8_text (s : List Nat) (h : utf8_text s = true) : ValidText s :=
  ⟨s.length, h⟩

theorem validText_drop_scan (fuel : Nat) : ∀ (s : List Nat) (m : Nat),
    ValidText s → ValidText (s.drop (utf8_scan fuel s m)) := by
  induction fuel with
  | zero => intro s m h; simpa [utf8_scan] using h
  | succ f ih =>
    intro s m h
    unfold utf8_scan
    cases hc : utf8_char_len s with
    | none => simpa using h
    | some n =>
      simp only
      split_ifs with hn
      · have hs : s ≠ [] := by
          intro h0
          simp [h0, utf8_char_len] at hc
        obtain ⟨n2, hn2, hv⟩ := validText_char s h hs
        rw [hc] at hn2
        cases hn2
        have := ih (s.drop n) (m - n) hv
        rwa [List.drop_drop] at this
      · simpa using h

theorem utf8_scan_pos (fuel : Nat) (s : List Nat) (m : Nat) (h : ValidText s) (hne : s ≠ [])
    (hm : 4 ≤ m) (hfuel : 1 ≤ fuel) : 0 < utf8_scan fuel s m := by
  obtain ⟨n, hn, _⟩ := validText_char s h hne
  have hb := utf8_char_len_bounds s n hn
  cases fuel with
  | zero => omega
  | succ f =>
    unfold utf8_scan
    simp only [hn]
    have : n ≤ m := by omega
    simp [this]
    omega

theorem validText_no_nul (n : Nat) : ∀ (s : List Nat), s.length ≤ n → ValidText s →
    ∀ b ∈ s, b ≠ 0 := by
  induction n with
  | zero =>
    intro s hl _ b hb
    have : s = [] := List.length_eq_zero.mp (by omega)
    simp [this] at hb
  | succ k ih =>
    intro s hl hv b hb
    by_cases hne : s = []
    · simp [hne] at hb
    · obtain ⟨c, hc, hv2⟩ := validText_char s hv hne
      have hbd := utf8_char_len_bounds s c hc
      rw [← List.take_append_drop c s] at hb
      rcases List.mem_append.mp hb with h1 | h1
      · exact hbd.2.2.2 b h1
      · exact ih (s.drop c) (by simp only [List.length_drop]; omega) hv2 b h1

theorem single_byte_char_len (b : Nat) (r : List Nat) (h : 1 ≤ b ∧ b ≤ 127) :
    utf8_char_len (b :: r) = some 1 := by
  simp [utf8_char_len, h]

theorem single_byte_scan (fuel : Nat) : ∀ (s : List Nat) (m : Nat), single_byte_text s →
    utf8_scan fuel s m = min fuel (min m s.length) := by
  induction fuel with
  | zero => intro s m _; simp [utf8_scan]
  | succ f ih =>
    intro s m h
    rcases s with _ | ⟨b, r⟩
    · simp [utf8_scan, utf8_char_len]
    · have hb : 1 ≤ b ∧ b ≤ 127 := h b (by simp)
      have hr : single_byte_text r := fun x hx => h x (by simp [hx])
      unfold utf8_scan
      rw [single_byte_char_len b r hb]
      simp only [List.drop_succ_cons, List.drop_zero, List.length_cons]
      split_ifs with hm
      · rw [ih r (m - 1) hr]
        omega
      · omega

theorem single_byte_check (s : List Nat) (m : Nat) (h : single_byte_text s) :
    pcutils_string_check_utf8_len s m = min m s.length := by
  unfold pcutils_string_check_utf8_len
  rw [single_byte_scan m s m h]
  omega

theorem single_byte_upto (fuel : Nat) : ∀ (s : List Nat), s.length ≤ fuel →
    single_byte_text s → utf8_text_upto fuel s = true := by
  induction fuel with
  | zero =>
    intro s hl _
    have : s = [] := List.length_eq_zero.mp (by omega)
    simp [this, utf8_text_upto]
  | succ f ih =>
    intro s hl h
    rcases s with _ | ⟨b, r⟩
    · simp [utf8_text_upto]
    · have hb : 1 ≤ b ∧ b ≤ 127 := h b (by simp)
      have hr : single_byte_text r := fun x hx => h x (by simp [hx])
      unfold utf8_text_upto
      rw [single_byte_char_len b r hb]
      simp only [List.drop_succ_cons, List.drop_zero]
      exact ih r (by simpa using hl) hr

theorem single_byte_utf8_text (s : List Nat) (h : single_byte_text s) : utf8_text s = true :=
  single_byte_upto s.length s (le_refl _) h

theorem letters_single_byte (n : Nat) : single_byte_text (letters n) := by
  intro b hb
  rw [List.eq_of_mem_replicate hb]
  exact ⟨by decide, by decide⟩

theorem letters_length (n : Nat) : (letters n).length = n := by
  simp [letters]

/-! ## The end of the script (C1) -/

/-- C1, which the code breaks: when the success response of the last
operation (queue position K-1 of a script of K operations) is handled,
`issue_next_operation` does not find the queue idle. It moves the position to
K, fetches the operation at index K, which the script does not have, and its
`assert(op)` fails; it does not return 0. -/
theorem issue_next_operation_after_last_aborts (conn : pcrdr_conn) (ops : List purc_variant)
    (hops : conn.user_data.initialOps = some (purc_variant.array ops))
    (hnr : conn.user_data.nr_ops = ops.length)
    (hlast : conn.user_data.ops_issued + 1 = ops.length) :
    issue_next_operation conn =
      (Ret.assert_failed,
       { conn with user_data := { conn.user_data with ops_issued := ops.length } }) := by
  have hlt : conn.user_data.ops_issued < conn.user_data.nr_ops := by omega
  simp [issue_next_operation, hlt, hops, purc_variant_array_get, hlast]

/-- C1 on the script of one operation: the hypotheses hold after the window
is created, the whole run ends in the failed assertion, and by then the only
request sent is the one that creates the window. -/
theorem issue_next_operation_after_last_aborts_witness :
    (run_session
        [ok_response (issue_first_operation
          (fresh_conn (script_session 1 one_operation_script none []) (fun _ => none))).2 4097]
        (fresh_conn (script_session 1 one_operation_script none []) (fun _ => none))).1
      = Ret.assert_failed
    ∧ issue_next_operation after_only_operation =
      (Ret.assert_failed,
       { after_only_operation with
         user_data := { after_only_operation.user_data with
                        ops_issued := one_operation_script.length } }) :=
  ⟨by decide,
   issue_next_operation_after_last_aborts after_only_operation one_operation_script
     rfl rfl rfl⟩

/-! ## Responses that are no success (C3, C4) -/

/-- C3: a response that is neither cancelled nor null and whose return code
is not `OK` makes each of the four handlers return 0 with the session as it
was except for the running flag, which is false: the queue position, the
requests sent and pending, the window and DOM handles, the created-window
count and the written counters are those of before. The context is a window
below `nr_windows`, as the handlers assert. -/
theorem failure_response_stops_session (conn : pcrdr_conn) (state : Int) (context : Nat)
    (m : pcrdr_response_msg)
    (hwin : context < conn.user_data.nr_windows)
    (hstate : state ≠ PCRDR_RESPONSE_CANCELLED)
    (hcode : m.retCode ≠ PCRDR_SC_OK) :
    plainwin_created_handler conn state context (some m) =
        (Ret.ok 0, { conn with user_data := { conn.user_data with running := false } })
    ∧ loaded_handler conn state context (some m) =
        (Ret.ok 0, { conn with user_data := { conn.user_data with running := false } })
    ∧ wrotten_handler conn state context (some m) =
        (Ret.ok 0, { conn with user_data := { conn.user_data with running := false } })
    ∧ changed_handler conn state context (some m) =
        (Ret.ok 0, { conn with user_data := { conn.user_data with running := false } }) := by
  refine ⟨?_, ?_, ?_, ?_⟩
  · simp [plainwin_created_handler, hwin, hstate, hcode]
  · simp [loaded_handler, hwin, hstate, hcode]
  · simp [wrotten_handler, hwin, hstate, hcode]
  · simp [changed_handler, hwin, hstate, hcode]

/-- C3 on the session whose only window was just requested: the response
carries the return code 500. -/
theorem failure_response_stops_session_witness :
    (0 < (script_session 1 one_operation_script none []).nr_windows
      ∧ PCRDR_RESPONSE_RESULT ≠ PCRDR_RESPONSE_CANCELLED
      ∧ (500 : Nat) ≠ PCRDR_SC_OK)
    ∧ (plainwin_created_handler
          (fresh_conn (script_session 1 one_operation_script none []) (fun _ => none))
          PCRDR_RESPONSE_RESULT 0 (some { retCode := 500, resultValue := 0 })).2.user_data.running
        = false :=
  ⟨by decide,
   by rw [(failure_response_stops_session
            (fresh_conn (script_session 1 one_operation_script none []) (fun _ => none))
            PCRDR_RESPONSE_RESULT 0 { retCode := 500, resultValue := 0 }
            (by decide) (by decide) (by decide)).1]⟩

/-- C4: a response delivered with the cancelled state or with a null
response message leaves the connection, and with it the whole session
(running flag, queue position, handles, counters, buffers, requests sent and
pending), as it was, in each of the four handlers; and the handler returns 0
when its context is a window below `nr_windows`, as it asserts. -/
theorem cancelled_response_changes_nothing (conn : pcrdr_conn) (state : Int) (context : Nat)
    (response_msg : Option pcrdr_response_msg)
    (h : state = PCRDR_RESPONSE_CANCELLED ∨ response_msg = none) :
    ((plainwin_created_handler conn state context response_msg).2 = conn
      ∧ (loaded_handler conn state context response_msg).2 = conn
      ∧ (wrotten_handler conn state context response_msg).2 = conn
      ∧ (changed_handler conn state context response_msg).2 = conn)
    ∧ (context < conn.user_data.nr_windows →
        (plainwin_created_handler conn state context response_msg).1 = Ret.ok 0
        ∧ (loaded_handler conn state context response_msg).1 = Ret.ok 0
        ∧ (wrotten_handler conn state context response_msg).1 = Ret.ok 0
        ∧ (changed_handler conn state context response_msg).1 = Ret.ok 0) := by
  have key : ∀ (hd : response_handler),
      (call_handler hd conn state context response_msg).2 = conn
      ∧ (context < conn.user_data.nr_windows →
          (call_handler hd conn state context response_msg).1 = Ret.ok 0) := by
    intro hd
    cases hd <;>
    · by_cases hw : context < conn.user_data.nr_windows
      · rcases h with h | h
        · cases response_msg <;>
            simp [call_handler, plainwin_created_handler, loaded_handler, wrotten_handler,
              changed_handler, hw, h]
        · simp [call_handler, plainwin_created_handler, loaded_handler, wrotten_handler,
            changed_handler, hw, h]
      · simp [call_handler, plainwin_created_handler, loaded_handler, wrotten_handler,
          changed_handler, hw]
  exact ⟨⟨(key response_handler.plainwin_created_handler).1,
          (key response_handler.loaded_handler).1,
          (key response_handler.wrotten_handler).1,
          (key response_handler.changed_handler).1⟩,
         fun hw => ⟨(key response_handler.plainwin_created_handler).2 hw,
                    (key response_handler.loaded_handler).2 hw,
                    (key response_handler.wrotten_handler).2 hw,
                    (key response_handler.changed_handler).2 hw⟩⟩

/-- C4 on the session whose only window was just requested: the response is
cancelled. -/
theorem cancelled_response_changes_nothing_witness :
    (PCRDR_RESPONSE_CANCELLED = PCRDR_RESPONSE_CANCELLED
      ∨ (some { retCode := 200, resultValue := 7 } : Option pcrdr_response_msg) = none)
    ∧ (wrotten_handler
          (fresh_conn (script_session 1 one_operation_script none []) (fun _ => none))
          PCRDR_RESPONSE_CANCELLED 0 (some { retCode := 200, resultValue := 7 })).2
        = fresh_conn (script_session 1 one_operation_script none []) (fun _ => none) :=
  ⟨Or.inl rfl,
   (cancelled_response_changes_nothing
      (fresh_conn (script_session 1 one_operation_script none []) (fun _ => none))
      PCRDR_RESPONSE_CANCELLED 0 (some { retCode := 200, resultValue := 7 })
      (Or.inl rfl)).1.2.2.1⟩

/-! ## Loading a document (C8) -/

theorem send_accepted (conn : pcrdr_conn) (msg : pcrdr_msg) (context : Nat)
    (handler : response_handler) (hsend : conn.send_script.head? ≠ some false) :
    pcrdr_send_request conn msg context handler =
      (0, { conn with
            send_script := conn.send_script.tail,
            sent := conn.sent ++
              [{ id := conn.sent.length, msg := msg, context := context, handler := handler }],
            pending := conn.pending ++
              [{ id := conn.sent.length, msg := msg, context := context, handler := handler }] }) := by
  rcases conn with ⟨info, sent, pending, script, files⟩
  rcases script with _ | ⟨b, rest⟩
  · simp [pcrdr_send_request]
  · cases b
    · simp at hsend
    · simp [pcrdr_send_request]

theorem load_or_write_doucment_reads_file (conn : pcrdr_conn) (op : purc_variant)
    (target file : String) (w : Nat) (doc : List Nat)
    (htarget : string_member (some op) "target" = some target)
    (hsplit : split_target target = ((w : Int), some "plainwindow"))
    (hw : w ≤ conn.user_data.nr_windows_created) (hw8 : w < MAX_NR_WINDOWS)
    (hhandle : conn.user_data.win_handles w ≠ 0)
    (hempty : conn.user_data.doc_content w = none)
    (hcontent : purc_variant_object_get_by_ckey (some op) "content"
        = some (purc_variant.string file))
    (hfile : conn.files file = some doc) :
    load_or_write_doucment conn op =
      load_or_write_request
        { conn with user_data :=
          { conn.user_data with
            doc_content := Function.update conn.user_data.doc_content w (some doc),
            len_content := Function.update conn.user_data.len_content w doc.length } }
        w (conn.user_data.win_handles w) doc := by
  have h1 : ¬ ((w : Int) < 0) := by omega
  have h2 : ¬ (conn.user_data.nr_windows_created < w) := by omega
  simp [load_or_write_doucment, htarget, hsplit, h1, h2, cell, hw8, hhandle,
    load_or_write_content, hempty, hcontent, purc_variant_get_string_const,
    load_file_content, hfile]

theorem load_or_write_request_load (conn : pcrdr_conn) (w handle : Nat) (doc : List Nat)
    (hlen : conn.user_data.len_content w ≤ DEF_LEN_ONE_WRITE)
    (hsend : conn.send_script.head? ≠ some false) :
    load_or_write_request conn w handle doc =
      (Ret.ok 0,
       { conn with
         user_data := { conn.user_data with
           len_wrotten :=
             Function.update conn.user_data.len_wrotten w (conn.user_data.len_content w) },
         send_script := conn.send_script.tail,
         sent := conn.sent ++
           [{ id := conn.sent.length,
              msg := { target := PCRDR_MSG_TARGET_PLAINWINDOW, targetValue := handle,
                       operation := "load",
                       elementType := PCRDR_MSG_ELEMENT_TYPE_VOID, element := none,
                       property := none, data := msg_data.text (c_string doc) },
              context := w, handler := response_handler.loaded_handler }],
         pending := conn.pending ++
           [{ id := conn.sent.length,
              msg := { target := PCRDR_MSG_TARGET_PLAINWINDOW, targetValue := handle,
                       operation := "load",
                       elementType := PCRDR_MSG_ELEMENT_TYPE_VOID, element := none,
                       property := none, data := msg_data.text (c_string doc) },
              context := w, handler := response_handler.loaded_handler }] }) := by
  have h1 : ¬ (conn.user_data.len_content w > DEF_LEN_ONE_WRITE) := by omega
  unfold load_or_write_request
  simp only [h1, if_false]
  rw [send_accepted _ _ _ _ (by simpa using hsend)]
  simp

theorem load_or_write_request_begin (conn : pcrdr_conn) (w handle : Nat) (doc : List Nat)
    (hlen : DEF_LEN_ONE_WRITE < conn.user_data.len_content w)
    (hchunk : 0 < pcutils_string_check_utf8_len doc DEF_LEN_ONE_WRITE)
    (hsend : conn.send_script.head? ≠ some false) :
    load_or_write_request conn w handle doc =
      (Ret.ok 0,
       { conn with
         user_data := { conn.user_data with
           len_wrotten :=
             Function.update conn.user_data.len_wrotten w
               (pcutils_string_check_utf8_len doc DEF_LEN_ONE_WRITE) },
         send_script := conn.send_script.tail,
         sent := conn.sent ++
           [{ id := conn.sent.length,
              msg := { target := PCRDR_MSG_TARGET_PLAINWINDOW, targetValue := handle,
                       operation := "writeBegin",
                       elementType := PCRDR_MSG_ELEMENT_TYPE_VOID, element := none,
                       property := none,
                       data := msg_data.text
                         (doc.take (pcutils_string_check_utf8_len doc DEF_LEN_ONE_WRITE)) },
              context := w, handler := response_handler.wrotten_handler }],
         pending := conn.pending ++
           [{ id := conn.sent.length,
              msg := { target := PCRDR_MSG_TARGET_PLAINWINDOW, targetValue := handle,
                       operation := "writeBegin",
                       elementType := PCRDR_MSG_ELEMENT_TYPE_VOID, element := none,
                       property := none,
                       data := msg_data.text
                         (doc.take (pcutils_string_check_utf8_len doc DEF_LEN_ONE_WRITE)) },
              context := w, handler := response_handler.wrotten_handler }] }) := by
  have h1 : conn.user_data.len_content w > DEF_LEN_ONE_WRITE := hlen
  have h2 : pcutils_string_check_utf8_len doc DEF_LEN_ONE_WRITE > 0 := hchunk
  have h3 : c_string (doc.take (pcutils_string_check_utf8_len doc DEF_LEN_ONE_WRITE))
      = doc.take (pcutils_string_check_utf8_len doc DEF_LEN_ONE_WRITE) :=
    c_string_of_no_nul _ (utf8_scan_bounds _ doc _).2.2
  unfold load_or_write_request
  simp only [h1, h2, if_true]
  rw [send_accepted _ _ _ _ (by simpa using hsend), h3]
  simp

/-- C8 as amended: for a load operation on a window slot with a handle and
no buffer yet, whose content file holds `doc` of length L, with the request
accepted by the transport: if L is at most the threshold 1024 (not only
below it), `load_or_write_doucment` issues a single load request, which
carries the content as a C string (all of it when it has no NUL byte), and
sets the written counter to L; if L is greater than 1024 and the checker
accepts a first chunk that is not empty, it issues a single write-begin
request carrying that chunk and sets the written counter to the length of
the chunk. -/
theorem load_or_write_doucment_by_length (conn : pcrdr_conn) (op : purc_variant)
    (target file : String) (w : Nat) (doc : List Nat)
    (htarget : string_member (some op) "target" = some target)
    (hsplit : split_target target = ((w : Int), some "plainwindow"))
    (hw : w ≤ conn.user_data.nr_windows_created) (hw8 : w < MAX_NR_WINDOWS)
    (hhandle : conn.user_data.win_handles w ≠ 0)
    (hempty : conn.user_data.doc_content w = none)
    (hcontent : purc_variant_object_get_by_ckey (some op) "content"
        = some (purc_variant.string file))
    (hfile : conn.files file = some doc)
    (hsend : conn.send_script.head? ≠ some false) :
    (doc.length ≤ DEF_LEN_ONE_WRITE →
      (load_or_write_doucment conn op).1 = Ret.ok 0
      ∧ (∃ p, (load_or_write_doucment conn op).2.sent = conn.sent ++ [p]
          ∧ p.msg.operation = "load"
          ∧ p.msg.target = PCRDR_MSG_TARGET_PLAINWINDOW
          ∧ p.msg.targetValue = conn.user_data.win_handles w
          ∧ payload p = c_string doc
          ∧ ((∀ b ∈ doc, b ≠ 0) → payload p = doc)
          ∧ p.handler = response_handler.loaded_handler ∧ p.context = w)
      ∧ (load_or_write_doucment conn op).2.user_data.len_wrotten w = doc.length)
    ∧ (DEF_LEN_ONE_WRITE < doc.length →
        0 < pcutils_string_check_utf8_len doc DEF_LEN_ONE_WRITE →
      (load_or_write_doucment conn op).1 = Ret.ok 0
      ∧ (∃ p, (load_or_write_doucment conn op).2.sent = conn.sent ++ [p]
          ∧ p.msg.operation = "writeBegin"
          ∧ p.msg.target = PCRDR_MSG_TARGET_PLAINWINDOW
          ∧ p.msg.targetValue = conn.user_data.win_handles w
          ∧ payload p = doc.take (pcutils_string_check_utf8_len doc DEF_LEN_ONE_WRITE)
          ∧ p.handler = response_handler.wrotten_handler ∧ p.context = w)
      ∧ (load_or_write_doucment conn op).2.user_data.len_wrotten w
          = pcutils_string_check_utf8_len doc DEF_LEN_ONE_WRITE) := by
  rw [load_or_write_doucment_reads_file conn op target file w doc htarget hsplit hw hw8
    hhandle hempty hcontent hfile]
  constructor
  · intro hlen
    rw [load_or_write_request_load _ w _ doc (by simpa using hlen) (by simpa using hsend)]
    refine ⟨rfl, ⟨_, rfl, rfl, rfl, rfl, rfl, ?_, rfl, rfl⟩, by simp⟩
    intro hz
    exact c_string_of_no_nul doc hz
  · intro hlen hchunk
    rw [load_or_write_request_begin _ w _ doc (by simpa using hlen) hchunk
      (by simpa using hsend)]
    exact ⟨rfl, ⟨_, rfl, rfl, rfl, rfl, rfl, rfl, rfl⟩, by simp⟩

/-- C8 as amended, on window 0 of the session that is ready to load
`doc.html`, a file of 100 bytes: a single load request carries them. -/
theorem load_or_write_doucment_by_length_witness :
    (load_or_write_doucment (window_ready (letters 100)) load_operation).1 = Ret.ok 0
    ∧ (load_or_write_doucment (window_ready (letters 100)) load_operation
        ).2.user_data.len_wrotten 0 = 100 := by
  have h := (load_or_write_doucment_by_length (window_ready (letters 100))
    load_operation "plainwindow/0" "doc.html" 0 (letters 100)
    (by decide) (by decide) (by decide) (by decide) (by decide) (by rfl) (by rfl)
    (by rfl) (by decide)).1 (by rw [letters_length]; decide)
  exact ⟨h.1, by rw [h.2.2, letters_length]⟩

/-- C8 as stated fails at a content of exactly 1024 bytes: the length is not
below the threshold, and the request issued is a load, not a write-begin. -/
theorem load_at_threshold_counterexample :
    ¬ ((letters 1024).length < DEF_LEN_ONE_WRITE)
    ∧ ((load_or_write_doucment (window_ready (letters 1024)) load_operation
        ).2.sent.map (fun p => p.msg.operation)) = ["load"] := by
  constructor
  · rw [letters_length]
    decide
  · rw [load_or_write_doucment_reads_file (window_ready (letters 1024))
      load_operation "plainwindow/0" "doc.html" 0 (letters 1024)
      (by decide) (by decide) (by decide) (by decide) (by decide) (by rfl) (by rfl) (by rfl)]
    rw [load_or_write_request_load _ 0 _ _
      (by simp only [Function.update_same, letters_length]; decide) (by decide)]
    simp [window_ready]

/-! ## Events (C9, C10) -/

/-- C9, which the code breaks: with the subscription list of the scenario
and window 0 created, a click event that targets window 0 selects no action
at all. The loop of `my_event_handler` ends without a match, because
`split_target_deep` answers -1 for the source locator, and the session stays
as it is; this holds with the action under the key `namedOp` and under the
key `action`. -/
theorem click_event_selects_nothing :
    (match_events click_on_window 2 0 (subscribed click_subscriptions)).1 = Ret.ok none
    ∧ (my_event_handler (subscribed click_subscriptions) click_on_window).1 = Ret.ok ()
    ∧ (my_event_handler (subscribed click_subscriptions) click_on_window).2.user_data.running
        = true
    ∧ (match_events click_on_window 2 0 (subscribed click_subscriptions_action)).1 = Ret.ok none
    ∧ split_target_deep "plainwindow/0" = (-1, none) := by
  refine ⟨by decide, by decide, by decide, by decide, rfl⟩

theorem match_event_never_matches (conn : pcrdr_conn) (evt_vrt : Option purc_variant)
    (msg : pcrdr_event_msg) (htarget : 0 ≤ msg.target) :
    match_event conn evt_vrt msg = (Ret.ok none, conn) := by
  have h : (-1 : Int) ≠ msg.target := by omega
  unfold match_event
  split
  · simp [split_target_deep, h]
  · rfl

theorem match_events_never_match (msg : pcrdr_event_msg) (htarget : 0 ≤ msg.target)
    (n : Nat) : ∀ (i : Nat) (conn : pcrdr_conn),
    match_events msg n i conn = (Ret.ok none, conn) := by
  induction n with
  | zero => intro i conn; rfl
  | succ k ih =>
    intro i conn
    have h := ih (i + 1) conn
    unfold match_events at h ⊢
    unfold first_match
    simp only [match_event_never_matches conn _ msg htarget]
    exact h

/-- C10: the loop of `my_event_handler` selects the action of the first
subscription in declaration order that its matcher accepts and consults no
later subscription (for any matcher that leaves the session alone where it
rejects, whatever the `m` subscriptions after the accepted one are);
`my_event_handler` applies `handle_selected` to what the loop run with
`match_event` selects; `handle_selected` clears the running flag, and
changes nothing else, for the reserved name `QUIT`, and leaves the session
exactly as it was for any other name, a named operation of the script or
not, and when nothing was selected; and `my_event_handler` as a whole leaves
the session exactly as it was for every subscription list and every event
whose target kind is not negative. -/
theorem my_event_handler_first_match_wins :
    (∀ (matcher : pcrdr_conn → Option purc_variant → Ret (Option String) × pcrdr_conn)
        (conn conn1 : pcrdr_conn) (k m i : Nat) (name : String),
        (∀ j, j < k →
          matcher conn (purc_variant_array_get conn.user_data.events (i + j))
            = (Ret.ok none, conn)) →
        matcher conn (purc_variant_array_get conn.user_data.events (i + k))
            = (Ret.ok (some name), conn1) →
        first_match matcher (k + 1 + m) i conn = (Ret.ok (some name), conn1))
    ∧ (∀ (conn conn1 : pcrdr_conn) (msg : pcrdr_event_msg) (selected : Option String),
        match_events msg conn.user_data.nr_events 0 conn = (Ret.ok selected, conn1) →
        my_event_handler conn msg = (Ret.ok (), handle_selected conn1 selected))
    ∧ (∀ conn : pcrdr_conn,
        handle_selected conn (some "QUIT")
          = { conn with user_data := { conn.user_data with running := false } })
    ∧ (∀ (conn : pcrdr_conn) (name : String), name ≠ "QUIT" →
        handle_selected conn (some name) = conn)
    ∧ (∀ conn : pcrdr_conn, handle_selected conn none = conn)
    ∧ (∀ (conn : pcrdr_conn) (msg : pcrdr_event_msg), 0 ≤ msg.target →
        my_event_handler conn msg = (Ret.ok (), conn)) := by
  refine ⟨?_, ?_, ?_, ?_, ?_, ?_⟩
  · intro matcher conn conn1 k
    induction k with
    | zero =>
      intro m i name _ hacc
      have e : 0 + 1 + m = m + 1 := by omega
      rw [e]
      unfold first_match
      simp only [Nat.add_zero] at hacc
      rw [hacc]
    | succ k ih =>
      intro m i name hrej hacc
      have e : k + 1 + 1 + m = (k + 1 + m) + 1 := by omega
      rw [e]
      unfold first_match
      have h0 := hrej 0 (by omega)
      simp only [Nat.add_zero] at h0
      rw [h0]
      simp only
      apply ih
      · intro j hj
        have := hrej (j + 1) (by omega)
        rwa [show i + (j + 1) = i + 1 + j by omega] at this
      · rwa [show i + (k + 1) = i + 1 + k by omega] at hacc
  · intro conn conn1 msg selected h
    simp [my_event_handler, h]
  · intro conn
    simp [handle_selected]
  · intro conn name hname
    simp [handle_selected, hname]
  · intro conn
    rfl
  · intro conn msg htarget
    simp [my_event_handler, match_events_never_match msg htarget, handle_selected]

/-- C10 on the subscription list of the scenario: a matcher that accepts
every subscription with a named operation selects `OP1`, the first one, with
`QUIT` behind it; the loop run with `match_event` selects nothing for the
click on window 0, so that the handler leaves the session as it was. -/
theorem my_event_handler_first_match_wins_witness :
    first_match accept_named 2 0 (subscribed click_subscriptions)
        = (Ret.ok (some "OP1"), subscribed click_subscriptions)
    ∧ my_event_handler (subscribed click_subscriptions) click_on_window
        = (Ret.ok (), subscribed click_subscriptions) :=
  ⟨my_event_handler_first_match_wins.1 accept_named (subscribed click_subscriptions)
      (subscribed click_subscriptions) 0 1 0 "OP1" (fun j hj => absurd hj (by omega)) rfl,
   my_event_handler_first_match_wins.2.2.2.2.2 (subscribed click_subscriptions)
      click_on_window (by decide)⟩

/-! ## The chunked transfer (C5, C6, C7) -/

theorem head_of_sends (script : List Bool) (h : ∀ b ∈ script, b = true) :
    script.head? ≠ some false := by
  rcases script with _ | ⟨b, rest⟩
  · simp
  · have := h b (by simp)
    simp [this]

theorem dispatch_ok_single (conn : pcrdr_conn) (p : pending_request) (v : Nat)
    (hp : conn.pending = [p]) :
    pcrdr_read_and_dispatch_message conn (ok_response conn v) =
      call_handler p.handler { conn with pending := [] } PCRDR_RESPONSE_RESULT p.context
        (some { retCode := PCRDR_SC_OK, resultValue := v }) := by
  simp [pcrdr_read_and_dispatch_message, ok_response, hp, take_pending]

theorem write_more_doucment_more (conn : pcrdr_conn) (w : Nat) (doc : List Nat) (k : Nat)
    (ht : Transfer conn w doc k) (hk : k + DEF_LEN_ONE_WRITE ≤ doc.length)
    (hchunk : 0 < pcutils_string_check_utf8_len (doc.drop k) DEF_LEN_ONE_WRITE)
    (hpend : conn.pending = []) :
    write_more_doucment conn w =
      (Ret.ok 0, after_write conn w
        (k + pcutils_string_check_utf8_len (doc.drop k) DEF_LEN_ONE_WRITE)
        (write_request conn w "writeMore"
          ((doc.drop k).take (pcutils_string_check_utf8_len (doc.drop k) DEF_LEN_ONE_WRITE))
          response_handler.wrotten_handler)) := by
  have h1 : ¬ (k > doc.length) := by omega
  have h2 : ¬ (k + DEF_LEN_ONE_WRITE > doc.length) := by omega
  have h3 : c_string ((doc.drop k).take
      (pcutils_string_check_utf8_len (doc.drop k) DEF_LEN_ONE_WRITE))
      = (doc.drop k).take (pcutils_string_check_utf8_len (doc.drop k) DEF_LEN_ONE_WRITE) :=
    c_string_of_no_nul _ (utf8_scan_bounds _ (doc.drop k) _).2.2
  have h4 : pcutils_string_check_utf8_len (doc.drop k) DEF_LEN_ONE_WRITE > 0 := hchunk
  unfold write_more_doucment
  simp only [ht.win_lt, not_true_eq_false, if_false, cell, ht.win_max, if_true, ht.content,
    ht.total, ht.wrotten, h1, h2, h3, h4]
  rw [send_accepted _ _ _ _ (by simpa using head_of_sends _ ht.sends)]
  simp [after_write, write_request, hpend]

theorem write_more_doucment_end (conn : pcrdr_conn) (w : Nat) (doc : List Nat) (k : Nat)
    (ht : Transfer conn w doc k) (hk : k ≤ doc.length)
    (hend : doc.length < k + DEF_LEN_ONE_WRITE)
    (hnul : ∀ b ∈ doc.drop k, b ≠ 0)
    (hpend : conn.pending = []) :
    write_more_doucment conn w =
      (Ret.ok 0, after_write conn w doc.length
        (write_request conn w "writeEnd" (doc.drop k) response_handler.loaded_handler)) := by
  have h1 : ¬ (k > doc.length) := by omega
  have h2 : k + DEF_LEN_ONE_WRITE > doc.length := by omega
  unfold write_more_doucment
  simp only [ht.win_lt, not_true_eq_false, if_false, cell, ht.win_max, if_true, ht.content,
    ht.total, ht.wrotten, h1, h2, c_string_of_no_nul _ hnul]
  rw [send_accepted _ _ _ _ (by simpa using head_of_sends _ ht.sends)]
  simp [after_write, write_request, hpend]

theorem only_wrotten_changed_refl (a : client_info) : only_wrotten_changed a a := rfl

theorem only_wrotten_changed_trans (a b c : client_info) (h1 : only_wrotten_changed a b)
    (h2 : only_wrotten_changed b c) : only_wrotten_changed a c := by
  unfold only_wrotten_changed at *
  rw [h2, h1]

theorem transfer_after_write (conn : pcrdr_conn) (w : Nat) (doc : List Nat) (k k1 : Nat)
    (q : pending_request) (ht : Transfer conn w doc k) :
    Transfer (after_write conn w k1 q) w doc k1 := by
  refine ⟨ht.win_lt, ht.win_max, ht.content, ht.total, ?_, ?_⟩
  · simp [after_write]
  · intro b hb
    exact ht.sends b (List.mem_of_mem_tail hb)

theorem wrotten_response_more (conn : pcrdr_conn) (w : Nat) (doc : List Nat) (k v : Nat)
    (p : pending_request)
    (ht : Transfer conn w doc k) (hk : k + DEF_LEN_ONE_WRITE ≤ doc.length)
    (hchunk : 0 < pcutils_string_check_utf8_len (doc.drop k) DEF_LEN_ONE_WRITE)
    (hp : conn.pending = [p]) (hh : p.handler = response_handler.wrotten_handler)
    (hc : p.context = w) :
    pcrdr_read_and_dispatch_message conn (ok_response conn v) =
      (Ret.ok 0, after_write conn w
        (k + pcutils_string_check_utf8_len (doc.drop k) DEF_LEN_ONE_WRITE)
        (write_request conn w "writeMore"
          ((doc.drop k).take (pcutils_string_check_utf8_len (doc.drop k) DEF_LEN_ONE_WRITE))
          response_handler.wrotten_handler)) := by
  have ht0 : Transfer { conn with pending := [] } w doc k :=
    ⟨ht.win_lt, ht.win_max, ht.content, ht.total, ht.wrotten, ht.sends⟩
  have hne : ¬ (conn.user_data.len_wrotten w = conn.user_data.len_content w) := by
    rw [ht.wrotten, ht.total]
    have : 0 < DEF_LEN_ONE_WRITE := by decide
    omega
  have hst : PCRDR_RESPONSE_RESULT ≠ PCRDR_RESPONSE_CANCELLED := by decide
  rw [dispatch_ok_single conn p v hp, hh, hc]
  simp only [call_handler, wrotten_handler, ht.win_lt, not_true_eq_false, if_false, hst,
    ht.win_max, if_true, hne]
  rw [write_more_doucment_more _ w doc k ht0 hk hchunk rfl]
  rfl

theorem wrotten_response_end (conn : pcrdr_conn) (w : Nat) (doc : List Nat) (k v : Nat)
    (p : pending_request)
    (ht : Transfer conn w doc k) (hk : k < doc.length)
    (hend : doc.length < k + DEF_LEN_ONE_WRITE)
    (hnul : ∀ b ∈ doc.drop k, b ≠ 0)
    (hp : conn.pending = [p]) (hh : p.handler = response_handler.wrotten_handler)
    (hc : p.context = w) :
    pcrdr_read_and_dispatch_message conn (ok_response conn v) =
      (Ret.ok 0, after_write conn w doc.length
        (write_request conn w "writeEnd" (doc.drop k) response_handler.loaded_handler)) := by
  have ht0 : Transfer { conn with pending := [] } w doc k :=
    ⟨ht.win_lt, ht.win_max, ht.content, ht.total, ht.wrotten, ht.sends⟩
  have hne : ¬ (conn.user_data.len_wrotten w = conn.user_data.len_content w) := by
    rw [ht.wrotten, ht.total]
    omega
  have hst : PCRDR_RESPONSE_RESULT ≠ PCRDR_RESPONSE_CANCELLED := by decide
  rw [dispatch_ok_single conn p v hp, hh, hc]
  simp only [call_handler, wrotten_handler, ht.win_lt, not_true_eq_false, if_false, hst,
    ht.win_max, if_true, hne]
  rw [write_more_doucment_end _ w doc k ht0 (by omega) hend hnul rfl]
  rfl

theorem final_response_completes (conn : pcrdr_conn) (w : Nat) (doc : List Nat) (v : Nat)
    (q : pending_request)
    (ht : Transfer conn w doc doc.length)
    (hq : conn.pending = [q]) (hc : q.context = w)
    (hh : q.handler = response_handler.loaded_handler
        ∨ q.handler = response_handler.wrotten_handler) :
    pcrdr_read_and_dispatch_message conn (ok_response conn v) =
      and_return (issue_next_operation (transfer_done conn w v)) 0 := by
  have heq : conn.user_data.len_wrotten w = conn.user_data.len_content w := by
    rw [ht.wrotten, ht.total]
  have hst : PCRDR_RESPONSE_RESULT ≠ PCRDR_RESPONSE_CANCELLED := by decide
  rw [dispatch_ok_single conn q v hq, hc]
  rcases hh with hh | hh
  · rw [hh]
    simp only [call_handler, loaded_handler, ht.win_lt, not_true_eq_false, if_false, hst,
      ht.win_max, if_true]
    rfl
  · rw [hh]
    simp only [call_handler, wrotten_handler, ht.win_lt, not_true_eq_false, if_false, hst,
      ht.win_max, if_true, heq]
    rfl


theorem answer_ok_cons (conn conn1 : pcrdr_conn) (v : Nat) (vs : List Nat) (x : Int)
    (h : pcrdr_read_and_dispatch_message conn (ok_response conn v) = (Ret.ok x, conn1)) :
    answer_ok (v :: vs) conn = answer_ok vs conn1 := by
  simp [answer_ok, h]

theorem transfer_completes (r : Nat) : ∀ (conn : pcrdr_conn) (w : Nat) (doc : List Nat)
    (k : Nat) (p : pending_request),
    doc.length - k ≤ r → Transfer conn w doc k → k ≤ doc.length → ValidText (doc.drop k) →
    conn.pending = [p] → p.handler = response_handler.wrotten_handler → p.context = w →
    ∃ (n : Nat) (reqs : List pending_request) (conn1 : pcrdr_conn) (j : Nat)
      (ends : List String),
      (∀ vs : List Nat, vs.length = n → answer_ok vs conn = (Ret.ok 0, conn1))
      ∧ (∀ vs : List Nat, vs.length ≤ n →
          (answer_ok vs conn).1 = Ret.ok 0
          ∧ only_wrotten_changed conn.user_data (answer_ok vs conn).2.user_data)
      ∧ conn1.sent = conn.sent ++ reqs
      ∧ (reqs.map payload).flatten = doc.drop k
      ∧ (∀ q ∈ reqs, (payload q).length ≤ DEF_LEN_ONE_WRITE)
      ∧ reqs.map (fun q => q.msg.operation) = List.replicate j "writeMore" ++ ends
      ∧ (ends = [] ∨ ends = ["writeEnd"])
      ∧ Transfer conn1 w doc doc.length
      ∧ only_wrotten_changed conn.user_data conn1.user_data
      ∧ ∃ q, conn1.pending = [q] ∧ q.context = w
          ∧ (q.handler = response_handler.loaded_handler
              ∨ q.handler = response_handler.wrotten_handler)
          ∧ (p :: reqs).getLast? = some q
          ∧ (ends = [] → ((reqs.take j).map payload).flatten.length = doc.length - k)
          ∧ (ends = ["writeEnd"] →
              ((reqs.take j).map payload).flatten.length < doc.length - k) := by
  induction r with
  | zero =>
    intro conn w doc k p hr ht hk _ hp hh hc
    have hkl : k = doc.length := by omega
    subst hkl
    refine ⟨0, [], conn, 0, [], ?_, ?_, by simp, by simp, by simp, by simp, Or.inl rfl, ht,
      only_wrotten_changed_refl _, p, hp, hc, Or.inr hh, by simp, by simp, by simp⟩
    · intro vs hvs
      have : vs = [] := List.length_eq_zero.mp hvs
      subst this
      rfl
    · intro vs hvs
      have : vs = [] := List.length_eq_zero.mp (by omega)
      subst this
      exact ⟨rfl, only_wrotten_changed_refl _⟩
  | succ r ih =>
    intro conn w doc k p hr ht hk hv hp hh hc
    by_cases hkl : k = doc.length
    · subst hkl
      refine ⟨0, [], conn, 0, [], ?_, ?_, by simp, by simp, by simp, by simp, Or.inl rfl, ht,
        only_wrotten_changed_refl _, p, hp, hc, Or.inr hh, by simp, by simp, by simp⟩
      · intro vs hvs
        have : vs = [] := List.length_eq_zero.mp hvs
        subst this
        rfl
      · intro vs hvs
        have : vs = [] := List.length_eq_zero.mp (by omega)
        subst this
        exact ⟨rfl, only_wrotten_changed_refl _⟩
    · have hlt : k < doc.length := by omega
      have hnul : ∀ b ∈ doc.drop k, b ≠ 0 := validText_no_nul _ _ (le_refl _) hv
      by_cases hend : doc.length < k + DEF_LEN_ONE_WRITE
      · -- the remainder goes out with write-end
        have hstep := fun v => wrotten_response_end conn w doc k v p ht hlt hend hnul hp hh hc
        refine ⟨1, [write_request conn w "writeEnd" (doc.drop k)
            response_handler.loaded_handler], _, 0, ["writeEnd"], ?_, ?_, ?_, ?_, ?_, ?_,
          Or.inr rfl, transfer_after_write conn w doc k _ _ ht, ?_,
          write_request conn w "writeEnd" (doc.drop k) response_handler.loaded_handler,
          rfl, rfl, Or.inl rfl, ?_, by simp, ?_⟩
        · intro vs hvs
          rcases vs with _ | ⟨v, _ | ⟨v2, vs⟩⟩
          · simp at hvs
          · rw [answer_ok_cons _ _ v [] 0 (hstep v)]
            rfl
          · simp at hvs
        · intro vs hvs
          rcases vs with _ | ⟨v, _ | ⟨v2, vs⟩⟩
          · exact ⟨rfl, only_wrotten_changed_refl _⟩
          · rw [answer_ok_cons _ _ v [] 0 (hstep v)]
            exact ⟨rfl, by simp [answer_ok, after_write, only_wrotten_changed]⟩
          · simp at hvs
        · simp [after_write]
        · simp [payload, write_request]
        · intro q hq
          simp only [List.mem_singleton] at hq
          subst hq
          simp only [payload, write_request, List.length_drop]
          omega
        · simp [write_request]
        · simp [after_write, only_wrotten_changed]
        · simp
        · intro _
          simp only [List.take_zero, List.map_nil, List.flatten_nil, List.length_nil]
          omega
      · -- one more chunk
        have hk2 : k + DEF_LEN_ONE_WRITE ≤ doc.length := by omega
        have hne : doc.drop k ≠ [] := by
          intro h0
          have := congrArg List.length h0
          simp only [List.length_drop, List.length_nil] at this
          omega
        have hchunk : 0 < pcutils_string_check_utf8_len (doc.drop k) DEF_LEN_ONE_WRITE :=
          utf8_scan_pos _ _ _ hv hne (by decide) (by decide)
        have hb := utf8_scan_bounds DEF_LEN_ONE_WRITE (doc.drop k) DEF_LEN_ONE_WRITE
        have hstep := fun v => wrotten_response_more conn w doc k v p ht hk2 hchunk hp hh hc
        have hv2 : ValidText (doc.drop
            (k + pcutils_string_check_utf8_len (doc.drop k) DEF_LEN_ONE_WRITE)) := by
          have := validText_drop_scan DEF_LEN_ONE_WRITE (doc.drop k) DEF_LEN_ONE_WRITE hv
          rw [List.drop_drop] at this
          exact this
        have hle : pcutils_string_check_utf8_len (doc.drop k) DEF_LEN_ONE_WRITE
            ≤ doc.length - k := by
          have := hb.2.1
          simpa [pcutils_string_check_utf8_len] using this
        obtain ⟨n, reqs, conn1, j, ends, h1, h2, h3, h4, h5, h6, h7, h8, h9, q, hq1, hq2, hq3,
            hq4, he1, he2⟩ :=
          ih (after_write conn w
              (k + pcutils_string_check_utf8_len (doc.drop k) DEF_LEN_ONE_WRITE)
              (write_request conn w "writeMore"
                ((doc.drop k).take
                  (pcutils_string_check_utf8_len (doc.drop k) DEF_LEN_ONE_WRITE))
                response_handler.wrotten_handler))
            w doc (k + pcutils_string_check_utf8_len (doc.drop k) DEF_LEN_ONE_WRITE) _
            (by omega) (transfer_after_write conn w doc k _ _ ht) (by omega) hv2 rfl rfl rfl
        have hfr : only_wrotten_changed conn.user_data
            (after_write conn w
              (k + pcutils_string_check_utf8_len (doc.drop k) DEF_LEN_ONE_WRITE)
              (write_request conn w "writeMore"
                ((doc.drop k).take
                  (pcutils_string_check_utf8_len (doc.drop k) DEF_LEN_ONE_WRITE))
                response_handler.wrotten_handler)).user_data := by
          simp [after_write, only_wrotten_changed]
        refine ⟨n + 1,
          write_request conn w "writeMore"
              ((doc.drop k).take
                (pcutils_string_check_utf8_len (doc.drop k) DEF_LEN_ONE_WRITE))
              response_handler.wrotten_handler :: reqs,
          conn1, j + 1, ends, ?_, ?_, ?_, ?_, ?_, ?_, h7, h8,
          only_wrotten_changed_trans _ _ _ hfr h9, q, hq1, hq2, hq3, ?_, ?_, ?_⟩
        · intro vs hvs
          rcases vs with _ | ⟨v, vs⟩
          · simp at hvs
          · rw [answer_ok_cons _ _ v vs 0 (hstep v)]
            exact h1 vs (by simpa using hvs)
        · intro vs hvs
          rcases vs with _ | ⟨v, vs⟩
          · exact ⟨rfl, only_wrotten_changed_refl _⟩
          · rw [answer_ok_cons _ _ v vs 0 (hstep v)]
            have := h2 vs (by simpa using hvs)
            exact ⟨this.1, only_wrotten_changed_trans _ _ _ hfr this.2⟩
        · rw [h3]
          simp [after_write]
        · simp only [List.map_cons, List.flatten_cons, h4]
          simp only [payload, write_request]
          rw [← List.drop_drop, List.take_append_drop]
        · intro x hx
          rcases List.mem_cons.mp hx with hx | hx
          · subst hx
            simp only [payload, write_request, List.length_take]
            have := hb.1
            simp only [pcutils_string_check_utf8_len] at *
            omega
          · exact h5 x hx
        · simp [h6, write_request, List.replicate_succ]
        · rw [List.getLast?_cons_cons]
          exact hq4
        · intro he
          have h10 := he1 he
          simp only [List.take_succ_cons, List.map_cons, List.flatten_cons, List.length_append,
            payload, write_request, List.length_take, List.length_drop] at h10 ⊢
          omega
        · intro he
          have h10 := he2 he
          simp only [List.take_succ_cons, List.map_cons, List.flatten_cons, List.length_append,
            payload, write_request, List.length_take, List.length_drop] at h10 ⊢
          omega

theorem load_or_write_doucment_begins (conn : pcrdr_conn) (op : purc_variant)
    (target file : String) (w : Nat) (doc : List Nat)
    (htarget : string_member (some op) "target" = some target)
    (hsplit : split_target target = ((w : Int), some "plainwindow"))
    (hw : w ≤ conn.user_data.nr_windows_created) (hw8 : w < MAX_NR_WINDOWS)
    (hhandle : conn.user_data.win_handles w ≠ 0)
    (hempty : conn.user_data.doc_content w = none)
    (hcontent : purc_variant_object_get_by_ckey (some op) "content"
        = some (purc_variant.string file))
    (hfile : conn.files file = some doc)
    (hsends : ∀ b ∈ conn.send_script, b = true) (hpend : conn.pending = [])
    (hlong : DEF_LEN_ONE_WRITE < doc.length)
    (hchunk : 0 < pcutils_string_check_utf8_len doc DEF_LEN_ONE_WRITE) :
    load_or_write_doucment conn op =
      (Ret.ok 0, after_write (with_document conn w doc) w
        (pcutils_string_check_utf8_len doc DEF_LEN_ONE_WRITE)
        (write_request (with_document conn w doc) w "writeBegin"
          (doc.take (pcutils_string_check_utf8_len doc DEF_LEN_ONE_WRITE))
          response_handler.wrotten_handler)) := by
  rw [load_or_write_doucment_reads_file conn op target file w doc htarget hsplit hw hw8
    hhandle hempty hcontent hfile]
  rw [load_or_write_request_begin _ w _ doc (by simpa using hlong) hchunk
    (by simpa using head_of_sends _ hsends)]
  simp [after_write, write_request, with_document, hpend]

theorem transfer_with_document (conn : pcrdr_conn) (w : Nat) (doc : List Nat)
    (hwin : w < conn.user_data.nr_windows) (hw8 : w < MAX_NR_WINDOWS)
    (hsends : ∀ b ∈ conn.send_script, b = true) :
    Transfer (with_document conn w doc) w doc (conn.user_data.len_wrotten w) :=
  ⟨hwin, hw8, by simp [with_document], by simp [with_document], rfl, hsends⟩

theorem transfer_runs (conn : pcrdr_conn) (op : purc_variant)
    (target file : String) (w : Nat) (doc : List Nat)
    (htarget : string_member (some op) "target" = some target)
    (hsplit : split_target target = ((w : Int), some "plainwindow"))
    (hw : w ≤ conn.user_data.nr_windows_created) (hw8 : w < MAX_NR_WINDOWS)
    (hwin : w < conn.user_data.nr_windows)
    (hhandle : conn.user_data.win_handles w ≠ 0)
    (hempty : conn.user_data.doc_content w = none)
    (hcontent : purc_variant_object_get_by_ckey (some op) "content"
        = some (purc_variant.string file))
    (hfile : conn.files file = some doc)
    (hsends : ∀ b ∈ conn.send_script, b = true) (hpend : conn.pending = [])
    (hvalid : utf8_text doc = true)
    (hlong : DEF_LEN_ONE_WRITE < doc.length) :
    (load_or_write_doucment conn op).1 = Ret.ok 0
    ∧ ∃ (n : Nat) (reqs : List pending_request) (conn1 : pcrdr_conn) (j : Nat)
      (ends : List String),
      (∀ vs : List Nat, vs.length = n →
          answer_ok vs (load_or_write_doucment conn op).2 = (Ret.ok 0, conn1))
      ∧ (∀ vs : List Nat, vs.length ≤ n →
          (answer_ok vs (load_or_write_doucment conn op).2).1 = Ret.ok 0
          ∧ only_wrotten_changed (with_document conn w doc).user_data
              (answer_ok vs (load_or_write_doucment conn op).2).2.user_data)
      ∧ conn1.sent = conn.sent ++ reqs
      ∧ (reqs.map payload).flatten = doc
      ∧ (∀ q ∈ reqs, (payload q).length ≤ DEF_LEN_ONE_WRITE)
      ∧ reqs.map (fun q => q.msg.operation)
          = "writeBegin" :: (List.replicate j "writeMore" ++ ends)
      ∧ (ends = [] ∨ ends = ["writeEnd"])
      ∧ Transfer conn1 w doc doc.length
      ∧ ∃ q, conn1.pending = [q] ∧ q.context = w
          ∧ (q.handler = response_handler.loaded_handler
              ∨ q.handler = response_handler.wrotten_handler)
          ∧ reqs.getLast? = some q
          ∧ (ends = [] →
              1 ≤ j ∧ ((reqs.take (j + 1)).map payload).flatten.length = doc.length)
          ∧ (ends = ["writeEnd"] →
              ((reqs.take (j + 1)).map payload).flatten.length < doc.length) := by
  have hv : ValidText doc := validText_of_utf8_text doc hvalid
  have hne : doc ≠ [] := by
    intro h0
    simp [h0, DEF_LEN_ONE_WRITE] at hlong
  have hchunk : 0 < pcutils_string_check_utf8_len doc DEF_LEN_ONE_WRITE :=
    utf8_scan_pos _ _ _ hv hne (by decide) (by decide)
  have hb := utf8_scan_bounds DEF_LEN_ONE_WRITE doc DEF_LEN_ONE_WRITE
  have hbegin := load_or_write_doucment_begins conn op target file w doc htarget hsplit hw hw8
    hhandle hempty hcontent hfile hsends hpend hlong hchunk
  have ht := transfer_after_write (with_document conn w doc) w doc _
    (pcutils_string_check_utf8_len doc DEF_LEN_ONE_WRITE)
    (write_request (with_document conn w doc) w "writeBegin"
      (doc.take (pcutils_string_check_utf8_len doc DEF_LEN_ONE_WRITE))
      response_handler.wrotten_handler)
    (transfer_with_document conn w doc hwin hw8 hsends)
  have hv2 : ValidText (doc.drop (pcutils_string_check_utf8_len doc DEF_LEN_ONE_WRITE)) :=
    validText_drop_scan DEF_LEN_ONE_WRITE doc DEF_LEN_ONE_WRITE hv
  obtain ⟨n, reqs, conn1, j, ends, h1, h2, h3, h4, h5, h6, h7, h8, _, q, hq1, hq2, hq3, hq4,
      he1, he2⟩ :=
    transfer_completes (doc.length - pcutils_string_check_utf8_len doc DEF_LEN_ONE_WRITE)
      _ w doc (pcutils_string_check_utf8_len doc DEF_LEN_ONE_WRITE) _ (le_refl _) ht
      (by simpa [pcutils_string_check_utf8_len] using hb.2.1) hv2 rfl rfl rfl
  rw [hbegin]
  refine ⟨rfl, n,
    write_request (with_document conn w doc) w "writeBegin"
      (doc.take (pcutils_string_check_utf8_len doc DEF_LEN_ONE_WRITE))
      response_handler.wrotten_handler :: reqs,
    conn1, j, ends, h1, ?_, ?_, ?_, ?_, ?_, h7, h8, q, hq1, hq2, hq3, hq4, ?_, ?_⟩
  · intro vs hvs
    have := h2 vs hvs
    refine ⟨this.1, only_wrotten_changed_trans _ _ _ ?_ this.2⟩
    simp [after_write, only_wrotten_changed]
  · rw [h3]
    simp [after_write, with_document]
  · simp only [List.map_cons, List.flatten_cons, h4]
    simp only [payload, write_request]
    exact List.take_append_drop _ _
  · intro x hx
    rcases List.mem_cons.mp hx with hx | hx
    · subst hx
      simp only [payload, write_request, List.length_take]
      have := hb.1
      simp only [pcutils_string_check_utf8_len] at *
      omega
    · exact h5 x hx
  · simp [h6, write_request]
  · intro he
    have h10 := he1 he
    have hb1 := hb.1
    have hb2 := hb.2.1
    simp only [pcutils_string_check_utf8_len] at *
    constructor
    · by_contra hj
      have hj0 : j = 0 := by omega
      subst hj0
      simp only [List.take_zero, List.map_nil, List.flatten_nil, List.length_nil] at h10
      omega
    · simp only [List.take_succ_cons, List.map_cons, List.flatten_cons, List.length_append,
        payload, write_request, List.length_take] at h10 ⊢
      omega
  · intro he
    have h10 := he2 he
    have hb2 := hb.2.1
    simp only [pcutils_string_check_utf8_len] at *
    simp only [List.take_succ_cons, List.map_cons, List.flatten_cons, List.length_append,
      payload, write_request, List.length_take] at h10 ⊢
    omega

/-- C5: for every document that is valid UTF-8 text (without NUL bytes) and
longer than 1024 bytes, loaded into a window slot that has a handle and no
buffer yet, on a connection with nothing pending whose transport accepts
every request: `load_or_write_doucment` succeeds, and there are a number `n`
and requests `reqs` (a write-begin, then write-more requests, then at most
one write-end) such that, each request being answered with `OK`, after `n`
responses the requests sent are exactly `reqs`, in this order, the written
counter equals the length of the document, and the next `OK` response ends
the transfer, so that no further request is sent for the document. The
payloads of `reqs`, concatenated in sending order, equal the document, and
every payload is at most 1024 bytes long. -/
theorem chunked_transfer_reproduces_document (conn : pcrdr_conn) (op : purc_variant)
    (target file : String) (w : Nat) (doc : List Nat)
    (htarget : string_member (some op) "target" = some target)
    (hsplit : split_target target = ((w : Int), some "plainwindow"))
    (hw : w ≤ conn.user_data.nr_windows_created) (hw8 : w < MAX_NR_WINDOWS)
    (hwin : w < conn.user_data.nr_windows)
    (hhandle : conn.user_data.win_handles w ≠ 0)
    (hempty : conn.user_data.doc_content w = none)
    (hcontent : purc_variant_object_get_by_ckey (some op) "content"
        = some (purc_variant.string file))
    (hfile : conn.files file = some doc)
    (hsends : ∀ b ∈ conn.send_script, b = true) (hpend : conn.pending = [])
    (hvalid : utf8_text doc = true)
    (hlong : DEF_LEN_ONE_WRITE < doc.length) :
    (load_or_write_doucment conn op).1 = Ret.ok 0
    ∧ ∃ (n : Nat) (reqs : List pending_request),
        (reqs.map payload).flatten = doc
        ∧ (∀ q ∈ reqs, (payload q).length ≤ DEF_LEN_ONE_WRITE)
        ∧ (∃ (j : Nat) (ends : List String),
            reqs.map (fun q => q.msg.operation)
              = "writeBegin" :: (List.replicate j "writeMore" ++ ends)
            ∧ (ends = [] ∨ ends = ["writeEnd"]))
        ∧ ∀ vs : List Nat, vs.length = n →
            (answer_ok vs (load_or_write_doucment conn op).2).1 = Ret.ok 0
            ∧ (answer_ok vs (load_or_write_doucment conn op).2).2.sent = conn.sent ++ reqs
            ∧ (answer_ok vs (load_or_write_doucment conn op).2).2.user_data.len_wrotten w
                = doc.length
            ∧ ∀ v : Nat,
                pcrdr_read_and_dispatch_message
                    (answer_ok vs (load_or_write_doucment conn op).2).2
                    (ok_response (answer_ok vs (load_or_write_doucment conn op).2).2 v)
                  = and_return (issue_next_operation
                      (transfer_done (answer_ok vs (load_or_write_doucment conn op).2).2 w v)) 0 := by
  obtain ⟨h0, n, reqs, conn1, j, ends, h1, _, h3, h4, h5, h6, h7, h8, q, hq1, hq2, hq3, _⟩ :=
    transfer_runs conn op target file w doc htarget hsplit hw hw8 hwin hhandle hempty
      hcontent hfile hsends hpend hvalid hlong
  refine ⟨h0, n, reqs, h4, h5, ⟨j, ends, h6, h7⟩, ?_⟩
  intro vs hvs
  rw [h1 vs hvs]
  exact ⟨rfl, h3, h8.wrotten, fun v => final_response_completes conn1 w doc v q h8 hq1 hq2 hq3⟩

/-- C6 as amended: for every document that is valid UTF-8 text longer than
1024 bytes whose requests all succeed, the chunked transfer consists of a
write-begin, write-more requests and exactly one write-end request, which
is the last request, unless a write-more chunk ends exactly at the end of
the document: the transfer ends with a write-end exactly when the chunks of
the write-begin and the write-more requests stay short of the length of the
document, and it has no write-end, and a write-more as its last request,
exactly when these chunks make up the whole document. While the write-begin
and the `n - 1` first
further requests are answered (`n` responses at most), the DOM handles, the
buffer and the queue position stay as they are; the DOM handle is set, the
buffer released and `issue_next_operation` called only when the success
response of the last request of the transfer is handled, be it the write-end
or the last write-more. -/
theorem chunked_transfer_completes_on_last_response (conn : pcrdr_conn) (op : purc_variant)
    (target file : String) (w : Nat) (doc : List Nat)
    (htarget : string_member (some op) "target" = some target)
    (hsplit : split_target target = ((w : Int), some "plainwindow"))
    (hw : w ≤ conn.user_data.nr_windows_created) (hw8 : w < MAX_NR_WINDOWS)
    (hwin : w < conn.user_data.nr_windows)
    (hhandle : conn.user_data.win_handles w ≠ 0)
    (hempty : conn.user_data.doc_content w = none)
    (hcontent : purc_variant_object_get_by_ckey (some op) "content"
        = some (purc_variant.string file))
    (hfile : conn.files file = some doc)
    (hsends : ∀ b ∈ conn.send_script, b = true) (hpend : conn.pending = [])
    (hvalid : utf8_text doc = true)
    (hlong : DEF_LEN_ONE_WRITE < doc.length) :
    ∃ (n : Nat) (reqs : List pending_request) (j : Nat) (ends : List String),
      reqs.map (fun q => q.msg.operation)
        = "writeBegin" :: (List.replicate j "writeMore" ++ ends)
      ∧ ((ends = ["writeEnd"]
            ∧ ((reqs.take (j + 1)).map payload).flatten.length < doc.length)
          ∨ (ends = [] ∧ 1 ≤ j
            ∧ ((reqs.take (j + 1)).map payload).flatten.length = doc.length))
      ∧ (reqs.map payload).flatten = doc
      ∧ (∀ vs : List Nat, vs.length ≤ n →
          (answer_ok vs (load_or_write_doucment conn op).2).1 = Ret.ok 0
          ∧ (answer_ok vs (load_or_write_doucment conn op).2).2.user_data.dom_handles
              = conn.user_data.dom_handles
          ∧ (answer_ok vs (load_or_write_doucment conn op).2).2.user_data.doc_content w
              = some doc
          ∧ (answer_ok vs (load_or_write_doucment conn op).2).2.user_data.ops_issued
              = conn.user_data.ops_issued)
      ∧ (∀ vs : List Nat, vs.length = n →
          (answer_ok vs (load_or_write_doucment conn op).2).2.sent = conn.sent ++ reqs
          ∧ (∃ q, (answer_ok vs (load_or_write_doucment conn op).2).2.pending = [q]
              ∧ reqs.getLast? = some q)
          ∧ ∀ v : Nat,
              pcrdr_read_and_dispatch_message
                  (answer_ok vs (load_or_write_doucment conn op).2).2
                  (ok_response (answer_ok vs (load_or_write_doucment conn op).2).2 v)
                = and_return (issue_next_operation
                    (transfer_done (answer_ok vs (load_or_write_doucment conn op).2).2 w v)) 0
              ∧ (transfer_done (answer_ok vs (load_or_write_doucment conn op).2).2 w v
                  ).user_data.dom_handles w = v
              ∧ (transfer_done (answer_ok vs (load_or_write_doucment conn op).2).2 w v
                  ).user_data.doc_content w = none) := by
  obtain ⟨_, n, reqs, conn1, j, ends, h1, h2, h3, h4, _, h6, h7, h8, q, hq1, hq2, hq3, hq4,
      he1, he2⟩ :=
    transfer_runs conn op target file w doc htarget hsplit hw hw8 hwin hhandle hempty
      hcontent hfile hsends hpend hvalid hlong
  have hends : (ends = ["writeEnd"]
        ∧ ((reqs.take (j + 1)).map payload).flatten.length < doc.length)
      ∨ (ends = [] ∧ 1 ≤ j
        ∧ ((reqs.take (j + 1)).map payload).flatten.length = doc.length) := by
    rcases h7 with he | he
    · exact Or.inr ⟨he, (he1 he).1, (he1 he).2⟩
    · exact Or.inl ⟨he, he2 he⟩
  refine ⟨n, reqs, j, ends, h6, hends, h4, ?_, ?_⟩
  · intro vs hvs
    obtain ⟨ha, hb⟩ := h2 vs hvs
    unfold only_wrotten_changed at hb
    refine ⟨ha, ?_, ?_, ?_⟩
    · rw [hb]; rfl
    · rw [hb]; simp [with_document]
    · rw [hb]; rfl
  · intro vs hvs
    rw [h1 vs hvs]
    refine ⟨h3, ⟨q, hq1, hq4⟩, fun v => ⟨?_, ?_, ?_⟩⟩
    · exact final_response_completes conn1 w doc v q h8 hq1 hq2 hq3
    · simp [transfer_done]
    · simp [transfer_done]


/-- C5 on a document of 2000 letters loaded into window 0 of the session
that is ready for it. -/
theorem chunked_transfer_reproduces_document_witness :
    (load_or_write_doucment (window_ready (letters 2000)) load_operation).1 = Ret.ok 0
    ∧ ∃ (n : Nat) (reqs : List pending_request),
        (reqs.map payload).flatten = letters 2000
        ∧ (∀ q ∈ reqs, (payload q).length ≤ DEF_LEN_ONE_WRITE)
        ∧ ∀ vs : List Nat, vs.length = n →
            (answer_ok vs (load_or_write_doucment (window_ready (letters 2000))
              load_operation).2).2.sent = [] ++ reqs := by
  obtain ⟨h0, n, reqs, h1, h2, _, h4⟩ :=
    chunked_transfer_reproduces_document (window_ready (letters 2000)) load_operation
      "plainwindow/0" "doc.html" 0 (letters 2000)
      (by decide) (by decide) (by decide) (by decide) (by decide) (by decide) (by rfl)
      (by rfl) (by rfl) (by decide) (by rfl)
      (single_byte_utf8_text _ (letters_single_byte _))
      (by rw [letters_length]; decide)
  exact ⟨h0, n, reqs, h1, h2, fun vs hvs => (h4 vs hvs).2.1⟩

set_option maxRecDepth 10000 in
/-- C6 as amended, on a document of 2000 letters loaded into window 0: the
transfer ends with a write-end, or else its chunks before make up the
document, and while the requests before the last one are answered the DOM
handle of the slot stays unassigned. On a document of 2049 letters the
write-begin and the write-more carry 2048 bytes and a write-end carries the
last byte. -/
theorem chunked_transfer_completes_on_last_response_witness :
    (∃ (n : Nat) (reqs : List pending_request) (j : Nat) (ends : List String),
      reqs.map (fun q => q.msg.operation)
        = "writeBegin" :: (List.replicate j "writeMore" ++ ends)
      ∧ ((ends = ["writeEnd"]
            ∧ ((reqs.take (j + 1)).map payload).flatten.length < (letters 2000).length)
          ∨ (ends = [] ∧ 1 ≤ j
            ∧ ((reqs.take (j + 1)).map payload).flatten.length = (letters 2000).length))
      ∧ ∀ vs : List Nat, vs.length ≤ n →
          (answer_ok vs (load_or_write_doucment (window_ready (letters 2000))
            load_operation).2).2.user_data.dom_handles
            = (window_ready (letters 2000)).user_data.dom_handles)
    ∧ ((answer_ok [1, 2] (load_or_write_doucment (window_ready (letters 2049))
          load_operation).2).2.sent.map (fun q => (q.msg.operation, (payload q).length)))
        = [("writeBegin", 1024), ("writeMore", 1024), ("writeEnd", 1)] := by
  obtain ⟨n, reqs, j, ends, h1, h2, _, h3, _⟩ :=
    chunked_transfer_completes_on_last_response (window_ready (letters 2000)) load_operation
      "plainwindow/0" "doc.html" 0 (letters 2000)
      (by decide) (by decide) (by decide) (by decide) (by decide) (by decide) (by rfl)
      (by rfl) (by rfl) (by decide) (by rfl)
      (single_byte_utf8_text _ (letters_single_byte _))
      (by rw [letters_length]; decide)
  exact ⟨⟨n, reqs, j, ends, h1, h2, fun vs hvs => (h3 vs hvs).2.1⟩, by decide!⟩

set_option maxRecDepth 10000 in
/-- C6 as stated fails on a document of 2048 letters: the second chunk ends
exactly at the end of the document, so the transfer is a write-begin and one
write-more; after the write-begin is answered the DOM handle of the slot is
still unassigned, and the response to the write-more sets it (to the result
value 7) and releases the buffer. No write-end request is ever sent, and
nothing is pending at the end. -/
theorem write_end_missing_counterexample :
    ((answer_ok [1] (load_or_write_doucment (window_ready (letters 2048))
        load_operation).2).2.sent.map (fun q => q.msg.operation))
      = ["writeBegin", "writeMore"]
    ∧ (answer_ok [1] (load_or_write_doucment (window_ready (letters 2048))
        load_operation).2).2.user_data.dom_handles 0 = 0
    ∧ ((answer_ok [1, 7] (load_or_write_doucment (window_ready (letters 2048))
        load_operation).2).2.sent.map (fun q => q.msg.operation))
      = ["writeBegin", "writeMore"]
    ∧ (answer_ok [1, 7] (load_or_write_doucment (window_ready (letters 2048))
        load_operation).2).2.user_data.dom_handles 0 = 7
    ∧ (answer_ok [1, 7] (load_or_write_doucment (window_ready (letters 2048))
        load_operation).2).2.user_data.doc_content 0 = none
    ∧ (answer_ok [1, 7] (load_or_write_doucment (window_ready (letters 2048))
        load_operation).2).2.pending.length = 0 := by
  refine ⟨by decide!, by decide!, by decide!, by decide!, by decide!, by decide!⟩

theorem single_byte_drop (doc : List Nat) (k : Nat) (h : single_byte_text doc) :
    single_byte_text (doc.drop k) :=
  fun b hb => h b (List.mem_of_mem_drop hb)

theorem single_byte_no_nul (doc : List Nat) (h : single_byte_text doc) : ∀ b ∈ doc, b ≠ 0 := by
  intro b hb
  have := h b hb
  omega

theorem state_after_3000_bytes (conn : pcrdr_conn) (op : purc_variant)
    (target file : String) (w : Nat) (doc : List Nat) (v1 v2 : Nat)
    (htarget : string_member (some op) "target" = some target)
    (hsplit : split_target target = ((w : Int), some "plainwindow"))
    (hw : w ≤ conn.user_data.nr_windows_created) (hw8 : w < MAX_NR_WINDOWS)
    (hwin : w < conn.user_data.nr_windows)
    (hhandle : conn.user_data.win_handles w ≠ 0)
    (hempty : conn.user_data.doc_content w = none)
    (hcontent : purc_variant_object_get_by_ckey (some op) "content"
        = some (purc_variant.string file))
    (hfile : conn.files file = some doc)
    (hsends : ∀ b ∈ conn.send_script, b = true) (hpend : conn.pending = [])
    (hlen : doc.length = 3000) (hsingle : single_byte_text doc) :
    (load_or_write_doucment conn op).1 = Ret.ok 0
    ∧ answer_ok [v1, v2] (load_or_write_doucment conn op).2 =
      (Ret.ok 0,
        after_write
          (after_write
            (after_write (with_document conn w doc) w 1024
              (write_request (with_document conn w doc) w "writeBegin" (doc.take 1024)
                response_handler.wrotten_handler))
            w 2048
            (write_request
              (after_write (with_document conn w doc) w 1024
                (write_request (with_document conn w doc) w "writeBegin" (doc.take 1024)
                  response_handler.wrotten_handler))
              w "writeMore" ((doc.drop 1024).take 1024) response_handler.wrotten_handler))
          w 3000
          (write_request
            (after_write
              (after_write (with_document conn w doc) w 1024
                (write_request (with_document conn w doc) w "writeBegin" (doc.take 1024)
                  response_handler.wrotten_handler))
              w 2048
              (write_request
                (after_write (with_document conn w doc) w 1024
                  (write_request (with_document conn w doc) w "writeBegin" (doc.take 1024)
                    response_handler.wrotten_handler))
                w "writeMore" ((doc.drop 1024).take 1024) response_handler.wrotten_handler))
            w "writeEnd" (doc.drop 2048) response_handler.loaded_handler)) := by
  have hc0 : pcutils_string_check_utf8_len doc DEF_LEN_ONE_WRITE = 1024 := by
    rw [single_byte_check doc _ hsingle, hlen]
    decide
  have hc1 : pcutils_string_check_utf8_len (doc.drop 1024) DEF_LEN_ONE_WRITE = 1024 := by
    rw [single_byte_check _ _ (single_byte_drop doc 1024 hsingle), List.length_drop, hlen]
    decide
  have hbegin := load_or_write_doucment_begins conn op target file w doc htarget hsplit hw hw8
    hhandle hempty hcontent hfile hsends hpend (by rw [hlen]; decide) (by rw [hc0]; decide)
  rw [hc0] at hbegin
  have ht1 := transfer_after_write (with_document conn w doc) w doc _ 1024
    (write_request (with_document conn w doc) w "writeBegin" (doc.take 1024)
      response_handler.wrotten_handler)
    (transfer_with_document conn w doc hwin hw8 hsends)
  have hstep1 := wrotten_response_more _ w doc 1024 v1 _ ht1 (by rw [hlen]; decide)
    (by rw [hc1]; decide) rfl rfl rfl
  rw [hc1] at hstep1
  have ht2 := transfer_after_write _ w doc 1024 2048
    (write_request
      (after_write (with_document conn w doc) w 1024
        (write_request (with_document conn w doc) w "writeBegin" (doc.take 1024)
          response_handler.wrotten_handler))
      w "writeMore" ((doc.drop 1024).take 1024) response_handler.wrotten_handler) ht1
  have hstep2 := wrotten_response_end _ w doc 2048 v2 _ ht2 (by rw [hlen]; decide)
    (by rw [hlen]; decide) (single_byte_no_nul _ (single_byte_drop doc 2048 hsingle))
    rfl rfl rfl
  rw [hlen] at hstep2
  rw [hbegin]
  refine ⟨rfl, ?_⟩
  rw [answer_ok_cons _ _ v1 [v2] 0 hstep1, answer_ok_cons _ _ v2 [] 0 hstep2]
  rfl


/-- C7 as amended: for a document of 3000 bytes of single-byte characters,
loaded into a window slot that has a handle and no buffer yet, with every
request accepted and answered with `OK`, the transfer consists of exactly
three requests: one write-begin carrying the first 1024 bytes, one
write-more (not two) carrying the next 1024 bytes, and one final write-end
carrying the remaining 952 bytes. Once the write-end is sent the written
counter equals 3000 and the buffer is still held; handling the final
response sets the DOM handle, releases the buffer and calls
`issue_next_operation`. -/
theorem transfer_of_3000_bytes (conn : pcrdr_conn) (op : purc_variant)
    (target file : String) (w : Nat) (doc : List Nat)
    (htarget : string_member (some op) "target" = some target)
    (hsplit : split_target target = ((w : Int), some "plainwindow"))
    (hw : w ≤ conn.user_data.nr_windows_created) (hw8 : w < MAX_NR_WINDOWS)
    (hwin : w < conn.user_data.nr_windows)
    (hhandle : conn.user_data.win_handles w ≠ 0)
    (hempty : conn.user_data.doc_content w = none)
    (hcontent : purc_variant_object_get_by_ckey (some op) "content"
        = some (purc_variant.string file))
    (hfile : conn.files file = some doc)
    (hsends : ∀ b ∈ conn.send_script, b = true) (hpend : conn.pending = [])
    (hlen : doc.length = 3000) (hsingle : single_byte_text doc) :
    (load_or_write_doucment conn op).1 = Ret.ok 0
    ∧ ∀ v1 v2 : Nat,
        (answer_ok [v1, v2] (load_or_write_doucment conn op).2).1 = Ret.ok 0
        ∧ (∃ b m e : pending_request,
            (answer_ok [v1, v2] (load_or_write_doucment conn op).2).2.sent
              = conn.sent ++ [b, m, e]
            ∧ b.msg.operation = "writeBegin" ∧ payload b = doc.take 1024
            ∧ (payload b).length = 1024
            ∧ m.msg.operation = "writeMore" ∧ payload m = (doc.drop 1024).take 1024
            ∧ (payload m).length = 1024
            ∧ e.msg.operation = "writeEnd" ∧ payload e = doc.drop 2048
            ∧ (payload e).length = 952
            ∧ (answer_ok [v1, v2] (load_or_write_doucment conn op).2).2.pending = [e])
        ∧ (answer_ok [v1, v2] (load_or_write_doucment conn op).2).2.user_data.len_wrotten w
            = 3000
        ∧ (answer_ok [v1, v2] (load_or_write_doucment conn op).2).2.user_data.doc_content w
            = some doc
        ∧ ∀ v3 : Nat,
            pcrdr_read_and_dispatch_message
                (answer_ok [v1, v2] (load_or_write_doucment conn op).2).2
                (ok_response (answer_ok [v1, v2] (load_or_write_doucment conn op).2).2 v3)
              = and_return (issue_next_operation
                  (transfer_done (answer_ok [v1, v2] (load_or_write_doucment conn op).2).2
                    w v3)) 0
            ∧ (transfer_done (answer_ok [v1, v2] (load_or_write_doucment conn op).2).2 w v3
                ).user_data.doc_content w = none
            ∧ (transfer_done (answer_ok [v1, v2] (load_or_write_doucment conn op).2).2 w v3
                ).user_data.len_wrotten w = 3000 := by
  refine ⟨(state_after_3000_bytes conn op target file w doc 0 0 htarget hsplit hw hw8
    hwin hhandle hempty hcontent hfile hsends hpend hlen hsingle).1, ?_⟩
  intro v1 v2
  rw [(state_after_3000_bytes conn op target file w doc v1 v2 htarget hsplit hw hw8
    hwin hhandle hempty hcontent hfile hsends hpend hlen hsingle).2]
  have ht : Transfer (with_document conn w doc) w doc (conn.user_data.len_wrotten w) :=
    transfer_with_document conn w doc hwin hw8 hsends
  refine ⟨rfl,
    ⟨write_request (with_document conn w doc) w "writeBegin" (doc.take 1024)
        response_handler.wrotten_handler,
      write_request
        (after_write (with_document conn w doc) w 1024
          (write_request (with_document conn w doc) w "writeBegin" (doc.take 1024)
            response_handler.wrotten_handler))
        w "writeMore" ((doc.drop 1024).take 1024) response_handler.wrotten_handler,
      write_request
        (after_write
          (after_write (with_document conn w doc) w 1024
            (write_request (with_document conn w doc) w "writeBegin" (doc.take 1024)
              response_handler.wrotten_handler))
          w 2048
          (write_request
            (after_write (with_document conn w doc) w 1024
              (write_request (with_document conn w doc) w "writeBegin" (doc.take 1024)
                response_handler.wrotten_handler))
            w "writeMore" ((doc.drop 1024).take 1024) response_handler.wrotten_handler))
        w "writeEnd" (doc.drop 2048) response_handler.loaded_handler,
      ?_, rfl, rfl, ?_, rfl, rfl, ?_, rfl, rfl, ?_, rfl⟩, ?_, ?_, ?_⟩
  · simp [after_write, with_document]
  · simp [payload, write_request, hlen]
  · simp [payload, write_request, hlen]
  · simp [payload, write_request, hlen]
  · simp [after_write]
  · simp [after_write, with_document]
  · intro v3
    refine ⟨?_, ?_, ?_⟩
    · refine final_response_completes _ w doc v3 _ ?_ rfl rfl (Or.inl rfl)
      have h3 := transfer_after_write _ w doc _ 3000
        (write_request
          (after_write
            (after_write (with_document conn w doc) w 1024
              (write_request (with_document conn w doc) w "writeBegin" (doc.take 1024)
                response_handler.wrotten_handler))
            w 2048
            (write_request
              (after_write (with_document conn w doc) w 1024
                (write_request (with_document conn w doc) w "writeBegin" (doc.take 1024)
                  response_handler.wrotten_handler))
              w "writeMore" ((doc.drop 1024).take 1024) response_handler.wrotten_handler))
          w "writeEnd" (doc.drop 2048) response_handler.loaded_handler)
        (transfer_after_write _ w doc _ 2048
          (write_request
            (after_write (with_document conn w doc) w 1024
              (write_request (with_document conn w doc) w "writeBegin" (doc.take 1024)
                response_handler.wrotten_handler))
            w "writeMore" ((doc.drop 1024).take 1024) response_handler.wrotten_handler)
          (transfer_after_write _ w doc _ 1024
            (write_request (with_document conn w doc) w "writeBegin" (doc.take 1024)
              response_handler.wrotten_handler) ht))
      rw [hlen]
      exact h3
    · simp [transfer_done]
    · simp [transfer_done, after_write]

/-- C7 as amended, on 3000 letters loaded into window 0. -/
theorem transfer_of_3000_bytes_witness :
    (load_or_write_doucment (window_ready (letters 3000)) load_operation).1 = Ret.ok 0
    ∧ (answer_ok [1, 2] (load_or_write_doucment (window_ready (letters 3000))
        load_operation).2).2.user_data.len_wrotten 0 = 3000 := by
  have h := transfer_of_3000_bytes (window_ready (letters 3000)) load_operation
      "plainwindow/0" "doc.html" 0 (letters 3000)
      (by decide) (by decide) (by decide) (by decide) (by decide) (by decide) (by rfl)
      (by rfl) (by rfl) (by decide) (by rfl) (letters_length 3000) (letters_single_byte 3000)
  exact ⟨h.1, (h.2 1 2).2.2.1⟩

set_option maxRecDepth 10000 in
/-- C7 as stated fails on a document of 3000 letters: the whole transfer,
each request answered with `OK`, sends a write-begin, one write-more and a
write-end, carrying 1024, 1024 and 952 bytes; a write-more is sent once, not
twice. -/
theorem one_write_more_counterexample :
    ((answer_ok [1, 2, 3] (load_or_write_doucment (window_ready (letters 3000))
        load_operation).2).2.sent.map (fun q => q.msg.operation))
      = ["writeBegin", "writeMore", "writeEnd"]
    ∧ ((answer_ok [1, 2, 3] (load_or_write_doucment (window_ready (letters 3000))
        load_operation).2).2.sent.map (fun q => (payload q).length))
      = [1024, 1024, 952]
    ∧ ((answer_ok [1, 2, 3] (load_or_write_doucment (window_ready (letters 3000))
        load_operation).2).2.sent.map (fun q => q.msg.operation)).count "writeMore" ≠ 2 := by
  refine ⟨by decide!, by decide!, by decide!⟩

/-! ## The order of the operations (C2) -/

theorem frame_refl (a : pcrdr_conn) : Frame a a :=
  ⟨rfl, rfl, rfl, Or.inl ⟨rfl, rfl⟩⟩

theorem frame_send (a c : pcrdr_conn) (msg : pcrdr_msg) (context : Nat)
    (handler : response_handler)
    (h1 : c.sent = a.sent) (h2 : c.pending = a.pending)
    (h3 : c.user_data.ops_issued = a.user_data.ops_issued)
    (h4 : c.user_data.initialOps = a.user_data.initialOps)
    (h5 : c.user_data.nr_ops = a.user_data.nr_ops) :
    Frame a (pcrdr_send_request c msg context handler).2 := by
  unfold pcrdr_send_request
  rcases hs : c.send_script with _ | ⟨b, rest⟩
  · simp only [hs]
    exact ⟨h3, h4, h5, Or.inr
      ⟨{ id := c.sent.length, msg := msg, context := context, handler := handler },
        by simp [h1], by simp [h2]⟩⟩
  · cases b
    · exact ⟨h3, h4, h5, Or.inl ⟨h1, h2⟩⟩
    · exact ⟨h3, h4, h5, Or.inr
        ⟨{ id := c.sent.length, msg := msg, context := context, handler := handler },
          by simp [h1], by simp [h2]⟩⟩

theorem frame_trans_left (a b c : pcrdr_conn) (h : Frame b c)
    (h1 : b.sent = a.sent) (h2 : b.pending = a.pending)
    (h3 : b.user_data.ops_issued = a.user_data.ops_issued)
    (h4 : b.user_data.initialOps = a.user_data.initialOps)
    (h5 : b.user_data.nr_ops = a.user_data.nr_ops) : Frame a c := by
  obtain ⟨k1, k2, k3, k4⟩ := h
  refine ⟨k1.trans h3, k2.trans h4, k3.trans h5, ?_⟩
  unfold sends_at_most_one at *
  rw [h1, h2] at k4
  exact k4

theorem frame_create_plain_win (conn : pcrdr_conn) (op : purc_variant) :
    Frame conn (create_plain_win conn op).2 := by
  unfold create_plain_win
  simp only
  repeat' first
    | exact frame_refl _
    | exact frame_send _ _ _ _ _ rfl rfl rfl rfl rfl
    | split

theorem frame_write_more_doucment (conn : pcrdr_conn) (win : Nat) :
    Frame conn (write_more_doucment conn win).2 := by
  unfold write_more_doucment
  simp only
  repeat' first
    | exact frame_refl _
    | exact frame_send _ _ _ _ _ rfl rfl rfl rfl rfl
    | split

theorem frame_load_or_write_request (conn : pcrdr_conn) (win handle : Nat)
    (content : List Nat) :
    Frame conn (load_or_write_request conn win handle content).2 := by
  unfold load_or_write_request
  simp only
  repeat' first
    | exact frame_refl _
    | exact frame_send _ _ _ _ _ rfl rfl rfl rfl rfl
    | split

theorem frame_load_or_write_doucment (conn : pcrdr_conn) (op : purc_variant) :
    Frame conn (load_or_write_doucment conn op).2 := by
  unfold load_or_write_doucment load_or_write_content
  simp only
  repeat' first
    | exact frame_refl _
    | exact frame_load_or_write_request _ _ _ _
    | exact frame_trans_left _ _ _ (frame_load_or_write_request _ _ _ _) rfl rfl rfl rfl rfl
    | split

theorem frame_change_document (conn : pcrdr_conn) (op_id : Nat) (operation : String)
    (op : purc_variant) : Frame conn (change_document conn op_id operation op).2 := by
  unfold change_document
  simp only
  repeat' first
    | exact frame_refl _
    | exact frame_send _ _ _ _ _ rfl rfl rfl rfl rfl
    | split

theorem frame_issue_operation (conn : pcrdr_conn) (op : purc_variant) :
    Frame conn (issue_operation conn op).2 := by
  unfold issue_operation
  repeat' first
    | exact frame_refl _
    | exact frame_create_plain_win _ _
    | exact frame_load_or_write_doucment _ _
    | exact frame_change_document _ _ _ _
    | split

theorem and_return_snd {α β : Type} (r : Ret α × pcrdr_conn) (v : β) :
    (and_return r v).2 = r.2 := by
  unfold and_return
  split <;> rfl

theorem quiet_refl (a : pcrdr_conn) : Quiet a a := ⟨rfl, rfl, rfl, rfl, rfl⟩

theorem quiet_trans (a b c : pcrdr_conn) (h1 : Quiet a b) (h2 : Quiet b c) : Quiet a c :=
  ⟨h2.1.trans h1.1, h2.2.1.trans h1.2.1, h2.2.2.1.trans h1.2.2.1,
   h2.2.2.2.1.trans h1.2.2.2.1, h2.2.2.2.2.trans h1.2.2.2.2⟩

theorem quiet_match_event (conn : pcrdr_conn) (evt_vrt : Option purc_variant)
    (msg : pcrdr_event_msg) : Quiet conn (match_event conn evt_vrt msg).2 := by
  unfold match_event
  repeat' first
    | exact quiet_refl _
    | split

theorem quiet_match_events (msg : pcrdr_event_msg) (n : Nat) : ∀ (i : Nat) (conn : pcrdr_conn),
    Quiet conn (match_events msg n i conn).2 := by
  induction n with
  | zero => intro i conn; exact quiet_refl _
  | succ k ih =>
    intro i conn
    unfold match_events first_match
    have hq := quiet_match_event conn (purc_variant_array_get conn.user_data.events i) msg
    split
    · rename_i conn1 heq
      have e : (match_event conn (purc_variant_array_get conn.user_data.events i) msg).2
          = conn1 := by rw [heq]
      rw [e] at hq
      exact quiet_trans _ _ _ hq (ih (i + 1) conn1)
    · exact hq

theorem quiet_handle_selected (conn : pcrdr_conn) (op_name : Option String) :
    Quiet conn (handle_selected conn op_name) := by
  unfold handle_selected
  repeat' first
    | exact quiet_refl _
    | exact ⟨rfl, rfl, rfl, rfl, rfl⟩
    | split

theorem quiet_my_event_handler (conn : pcrdr_conn) (msg : pcrdr_event_msg) :
    Quiet conn (my_event_handler conn msg).2 := by
  have hq := quiet_match_events msg conn.user_data.nr_events 0 conn
  unfold my_event_handler
  split
  · rename_i op_name conn1 heq
    rw [heq] at hq
    exact quiet_trans _ _ _ hq (quiet_handle_selected conn1 op_name)
  · rename_i conn1 heq
    rw [heq] at hq
    exact hq
  · rename_i conn1 heq
    rw [heq] at hq
    exact hq

theorem issue_next_operation_cases (c : pcrdr_conn) :
    issue_next_operation c = (Ret.ok 0, c)
    ∨ (purc_variant_array_get c.user_data.initialOps (c.user_data.ops_issued + 1) = none
        ∧ issue_next_operation c =
          (Ret.assert_failed,
           { c with user_data :=
              { c.user_data with ops_issued := c.user_data.ops_issued + 1 } }))
    ∨ ∃ op, purc_variant_array_get c.user_data.initialOps (c.user_data.ops_issued + 1)
              = some op
        ∧ issue_next_operation c =
          issue_operation
            { c with user_data :=
              { c.user_data with ops_issued := c.user_data.ops_issued + 1 } } op := by
  unfold issue_next_operation
  split_ifs with h
  · cases hg : purc_variant_array_get c.user_data.initialOps (c.user_data.ops_issued + 1) with
    | none =>
      right; left
      simp [hg]
    | some op =>
      right; right
      exact ⟨op, rfl, by simp [hg]⟩
  · left; rfl

theorem outcome_of_frame (c : pcrdr_conn) (state : Int) (msg : Option pcrdr_response_msg)
    (r : Ret Int × pcrdr_conn) (h : Frame c r.2) : handler_outcome c state msg r :=
  ⟨h.2.1, h.2.2.1, h.2.2.2, Or.inl h.1⟩

theorem outcome_of_issue_next (c ch : pcrdr_conn) (state : Int) (m : pcrdr_response_msg)
    (hstate : state ≠ PCRDR_RESPONSE_CANCELLED) (hcode : m.retCode = PCRDR_SC_OK)
    (h1 : ch.sent = c.sent) (h2 : ch.pending = c.pending)
    (h3 : ch.user_data.ops_issued = c.user_data.ops_issued)
    (h4 : ch.user_data.initialOps = c.user_data.initialOps)
    (h5 : ch.user_data.nr_ops = c.user_data.nr_ops) :
    handler_outcome c state (some m) (and_return (issue_next_operation ch) 0) := by
  rcases issue_next_operation_cases ch with h | ⟨hg, h⟩ | ⟨op, hg, h⟩
  · rw [h]
    exact ⟨h4, h5, Or.inl ⟨h1, h2⟩, Or.inl h3⟩
  · rw [h]
    refine ⟨h4, h5, Or.inl ⟨h1, h2⟩, Or.inr ⟨?_, hstate, ⟨m, rfl, hcode⟩, ?_⟩⟩
    · simp [and_return, h3]
    · refine ⟨_, ?_, ?_, Or.inl ⟨?_, rfl⟩⟩
      · simp [h3]
      · simp [h4]
      · rw [← h4, ← h3]; exact hg
  · rw [h]
    have hf := frame_issue_operation
      { ch with user_data := { ch.user_data with ops_issued := ch.user_data.ops_issued + 1 } } op
    rw [← and_return_snd _ (0 : Int)] at hf
    refine ⟨hf.2.1.trans h4, hf.2.2.1.trans h5, ?_, Or.inr ⟨?_, hstate, ⟨m, rfl, hcode⟩, ?_⟩⟩
    · have := hf.2.2.2
      unfold sends_at_most_one at *
      simpa [h1, h2] using this
    · rw [hf.1]; simp [h3]
    · refine ⟨_, ?_, ?_, Or.inr ⟨op, ?_, rfl⟩⟩
      · simp [h3]
      · simp [h4]
      · rw [← h4, ← h3]; exact hg

theorem handler_outcome_holds (hd : response_handler) (c : pcrdr_conn) (state : Int)
    (context : Nat) (msg : Option pcrdr_response_msg) :
    handler_outcome c state msg (call_handler hd c state context msg) := by
  cases hd
  all_goals
    simp only [call_handler, plainwin_created_handler, loaded_handler, wrotten_handler,
      changed_handler]
    repeat' first
      | exact outcome_of_frame _ _ _ _ (frame_refl _)
      | exact outcome_of_frame _ _ _ _ ⟨rfl, rfl, rfl, Or.inl ⟨rfl, rfl⟩⟩
      | exact outcome_of_frame _ _ _ _
          (by rw [and_return_snd]; exact frame_write_more_doucment _ _)
      | exact outcome_of_issue_next _ _ _ _ (by assumption) (by assumption) rfl rfl rfl rfl rfl
      | split

theorem one_pending_of_sends (a c : pcrdr_conn) (ha : a.pending = [])
    (h : sends_at_most_one a c) : one_pending c := by
  rcases h with ⟨_, h2⟩ | ⟨p, h1, h2⟩
  · exact Or.inl (h2.trans ha)
  · refine Or.inr ⟨p, ?_, ?_⟩
    · rw [h2, ha]; rfl
    · rw [h1]; simp

theorem dispatch_outcome (conn : pcrdr_conn) (m : inbound) (hinv : one_pending conn) :
    one_pending (pcrdr_read_and_dispatch_message conn m).2
    ∧ (pcrdr_read_and_dispatch_message conn m).2.user_data.initialOps
        = conn.user_data.initialOps
    ∧ ((pcrdr_read_and_dispatch_message conn m).2.user_data.ops_issued
          = conn.user_data.ops_issued
        ∨ ((pcrdr_read_and_dispatch_message conn m).2.user_data.ops_issued
              = conn.user_data.ops_issued + 1
            ∧ (∃ r p, m = inbound.response r ∧ success r ∧ conn.pending = [p]
                ∧ r.request_id = p.id)
            ∧ issues_next conn (pcrdr_read_and_dispatch_message conn m))) := by
  cases m with
  | event e =>
    have hq := quiet_my_event_handler conn e
    simp only [pcrdr_read_and_dispatch_message, and_return_snd]
    refine ⟨?_, hq.2.2.2.1, Or.inl hq.2.2.1⟩
    unfold one_pending at *
    rw [hq.1, hq.2.1]
    exact hinv
  | response r =>
    rcases hinv with h0 | ⟨p, hp, hlast⟩
    · have e : pcrdr_read_and_dispatch_message conn (inbound.response r) = (Ret.ok 0, conn) := by
        simp [pcrdr_read_and_dispatch_message, h0, take_pending]
      rw [e]
      exact ⟨Or.inl h0, rfl, Or.inl rfl⟩
    · by_cases hid : p.id = r.request_id
      · have ho := handler_outcome_holds p.handler { conn with pending := [] } r.state
          p.context r.msg
        have e : pcrdr_read_and_dispatch_message conn (inbound.response r)
            = call_handler p.handler { conn with pending := [] } r.state p.context r.msg := by
          simp [pcrdr_read_and_dispatch_message, hp, take_pending, hid]
        rw [e]
        refine ⟨one_pending_of_sends _ _ rfl ho.2.2.1, ho.1, ?_⟩
        rcases ho.2.2.2 with h | ⟨h1, h2, h3, h4⟩
        · exact Or.inl h
        · exact Or.inr ⟨h1, ⟨r, p, rfl, ⟨h2, h3⟩, hp, hid.symm⟩, h4⟩
      · have e : pcrdr_read_and_dispatch_message conn (inbound.response r) = (Ret.ok 0, conn) := by
          simp [pcrdr_read_and_dispatch_message, hp, take_pending, hid]
        rw [e]
        exact ⟨Or.inr ⟨p, hp, hlast⟩, rfl, Or.inl rfl⟩

theorem issue_first_operation_cases (conn0 : pcrdr_conn) :
    (purc_variant_array_get conn0.user_data.initialOps 0 = none
      ∧ issue_first_operation conn0 =
          (Ret.assert_failed,
           { conn0 with user_data := { conn0.user_data with ops_issued := 0 } }))
    ∨ ∃ op, purc_variant_array_get conn0.user_data.initialOps 0 = some op
        ∧ issue_first_operation conn0 =
          issue_operation
            { conn0 with user_data := { conn0.user_data with ops_issued := 0 } } op := by
  unfold issue_first_operation
  cases hg : purc_variant_array_get conn0.user_data.initialOps 0 with
  | none => left; simp [hg]
  | some op => right; exact ⟨op, rfl, by simp [hg]⟩

theorem reachable_invariant (conn0 : pcrdr_conn) (hpend : conn0.pending = []) :
    ∀ conn, Reachable conn0 conn →
      one_pending conn ∧ conn.user_data.initialOps = conn0.user_data.initialOps := by
  intro conn hr
  induction hr with
  | first =>
    rcases issue_first_operation_cases conn0 with ⟨_, h⟩ | ⟨op, _, h⟩
    · rw [h]
      exact ⟨Or.inl hpend, rfl⟩
    · rw [h]
      have hf := frame_issue_operation
        { conn0 with user_data := { conn0.user_data with ops_issued := 0 } } op
      exact ⟨one_pending_of_sends _ _ hpend hf.2.2.2, hf.2.1⟩
  | step c m _ ih =>
    have hd := dispatch_outcome c m ih.1
    exact ⟨hd.1, hd.2.1.trans ih.2⟩

theorem reachable_main_loop (conn0 : pcrdr_conn) (inputs : List inbound) :
    ∀ conn, Reachable conn0 conn → Reachable conn0 (main_loop inputs conn).2 := by
  induction inputs with
  | nil => intro conn h; exact h
  | cons m ms ih =>
    intro conn h
    have hs := Reachable.step conn m h
    unfold main_loop
    split
    · rename_i conn1 heq
      rw [heq] at hs
      split_ifs
      · exact ih conn1 hs
      · exact hs
    · exact hs

theorem reachable_run_session (conn0 : pcrdr_conn) (inputs : List inbound) :
    Reachable conn0 (run_session inputs conn0).2 := by
  unfold run_session
  split
  · rename_i conn1 heq
    have h : Reachable conn0 (issue_first_operation conn0).2 := Reachable.first
    rw [heq] at h
    exact reachable_main_loop conn0 inputs conn1 h
  · exact Reachable.first

/-- C2: in every run of a session that starts on a connection with nothing
sent or pending, the operations are issued in the order of `initialOps`, one
at a time. `issue_first_operation` sets the queue position to 0 and issues
the element at index 0. In every state the session passes through the script
is the one it started with, and one request at most is pending, the last one
sent, so that a response can only complete the operation at the current
queue position `n`. Every message read and dispatched leaves the queue
position as it is, or moves it to `n + 1`; the latter happens only while a
success response to that pending request is handled, and then the operation
fetched and handed to `issue_operation` is the element at index `n + 1` of
`initialOps` (when there is none the assertion fails). Hence the operation
issued at position `n` is the element at index `n`, and operation `n + 1` is
never issued except while handling a success response that completes
operation `n`. The states of `run_session` are among those covered. -/
theorem operations_issued_in_script_order (conn0 : pcrdr_conn)
    (hpend : conn0.pending = []) :
    (issue_first_operation conn0).2.user_data.ops_issued = 0
    ∧ (∀ op, purc_variant_array_get conn0.user_data.initialOps 0 = some op →
        issue_first_operation conn0 =
          issue_operation
            { conn0 with user_data := { conn0.user_data with ops_issued := 0 } } op)
    ∧ (∀ inputs : List inbound, Reachable conn0 (run_session inputs conn0).2)
    ∧ ∀ conn, Reachable conn0 conn →
        conn.user_data.initialOps = conn0.user_data.initialOps
        ∧ one_pending conn
        ∧ ∀ m : inbound,
            (pcrdr_read_and_dispatch_message conn m).2.user_data.ops_issued
                = conn.user_data.ops_issued
            ∨ ((pcrdr_read_and_dispatch_message conn m).2.user_data.ops_issued
                  = conn.user_data.ops_issued + 1
                ∧ (∃ r p, m = inbound.response r ∧ success r ∧ conn.pending = [p]
                    ∧ r.request_id = p.id)
                ∧ issues_next conn (pcrdr_read_and_dispatch_message conn m)) := by
  refine ⟨?_, ?_, reachable_run_session conn0, ?_⟩
  · rcases issue_first_operation_cases conn0 with ⟨_, h⟩ | ⟨op, _, h⟩
    · rw [h]
    · rw [h]
      exact (frame_issue_operation _ op).1
  · intro op hop
    rcases issue_first_operation_cases conn0 with ⟨hn, _⟩ | ⟨op2, hg, h⟩
    · rw [hn] at hop
      cases hop
    · rw [hg] at hop
      cases hop
      exact h
  · intro conn hr
    have hi := reachable_invariant conn0 hpend conn hr
    exact ⟨hi.2, hi.1, fun m => (dispatch_outcome conn m hi.1).2.2⟩

/-- C2 on the script that creates a window and loads a document into it: the
session starts at position 0 with the create request pending, and the
success response to it moves the queue to position 1. -/
theorem operations_issued_in_script_order_witness :
    (fresh_conn (script_session 1 load_script none []) (document_file (letters 10))).pending
      = []
    ∧ (issue_first_operation
        (fresh_conn (script_session 1 load_script none [])
          (document_file (letters 10)))).2.user_data.ops_issued = 0
    ∧ (run_session [inbound.response
          { request_id := 0, state := PCRDR_RESPONSE_RESULT,
            msg := some { retCode := PCRDR_SC_OK, resultValue := 4097 } }]
        (fresh_conn (script_session 1 load_script none [])
          (document_file (letters 10)))).2.user_data.ops_issued = 1 :=
  ⟨rfl,
   (operations_issued_in_script_order
      (fresh_conn (script_session 1 load_script none []) (document_file (letters 10)))
      rfl).1,
   by decide⟩

/-! ## The empty script (C12) -/

/-- C12, which the code breaks: on a script with zero operations
`issue_first_operation` does not return a failure. It sets the queue position
to 0, fetches the operation at index 0, which the script does not have, and
its `assert(op)` fails: the process aborts on the assertion. No request is
issued. -/
theorem issue_first_operation_empty_script_aborts (conn : pcrdr_conn)
    (hempty : conn.user_data.initialOps = some (purc_variant.array [])) :
    issue_first_operation conn =
      (Ret.assert_failed,
       { conn with user_data := { conn.user_data with ops_issued := 0 } }) := by
  simp [issue_first_operation, hempty, purc_variant_array_get]

/-- C12 on the session that `main` sets up for the script with no operation:
the whole run ends in the failed assertion with nothing sent. -/
theorem issue_first_operation_empty_script_aborts_witness :
    (run_session [] (fresh_conn (script_session 1 [] none []) (fun _ => none))).1
      = Ret.assert_failed
    ∧ (issue_first_operation (fresh_conn (script_session 1 [] none []) (fun _ => none))).2.sent
      = []
    ∧ issue_first_operation (fresh_conn (script_session 1 [] none []) (fun _ => none)) =
      (Ret.assert_failed,
       { fresh_conn (script_session 1 [] none []) (fun _ => none) with
         user_data := { (fresh_conn (script_session 1 [] none []) (fun _ => none)).user_data
                        with ops_issued := 0 } }) :=
  ⟨by decide, by rfl,
   issue_first_operation_empty_script_aborts
     (fresh_conn (script_session 1 [] none []) (fun _ => none)) rfl⟩

/-! ## The number of windows (C20) -/

theorem load_sample_nr_windows (info info1 : client_info) (sample : Option purc_variant)
    (h : load_sample info sample = (true, info1)) :
    info1.nr_windows =
      (if (match purc_variant_object_get_by_ckey sample "nrWindows" with
            | some tmp =>
              match purc_variant_cast_to_uint32 tmp with
              | some nr => nr
              | none => 0
            | none => 0) = 0
          ∨ (match purc_variant_object_get_by_ckey sample "nrWindows" with
            | some tmp =>
              match purc_variant_cast_to_uint32 tmp with
              | some nr => nr
              | none => 0
            | none => 0) > MAX_NR_WINDOWS
       then 1
       else (match purc_variant_object_get_by_ckey sample "nrWindows" with
            | some tmp =>
              match purc_variant_cast_to_uint32 tmp with
              | some nr => nr
              | none => 0
            | none => 0)) := by
  unfold load_sample at h
  split at h
  · simp at h
  · simp only at h
    split at h
    · simp at h
    · split at h
      · have := congrArg Prod.snd h
        simp only at this
        subst this
        rfl
      · have := congrArg Prod.snd h
        simp only at this
        subst this
        rfl

theorem cast_cases (n : Nat) :
    purc_variant_cast_to_uint32 (purc_variant.number (n : Int)) = some n
    ∨ (8 < n ∧ purc_variant_cast_to_uint32 (purc_variant.number (n : Int)) = none) := by
  by_cases h2 : (n : Int) ≤ 4294967295
  · left
    have h1 : (0 : Int) ≤ (n : Int) := Int.ofNat_nonneg n
    show (if 0 ≤ (n : Int) ∧ (n : Int) ≤ 4294967295 then some (n : Int).toNat else none)
      = some n
    rw [if_pos ⟨h1, h2⟩]
    rfl
  · right
    refine ⟨by omega, ?_⟩
    show (if 0 ≤ (n : Int) ∧ (n : Int) ≤ 4294967295 then some (n : Int).toNat else none)
      = none
    rw [if_neg (fun h => h2 h.2)]

/-- C20 as amended: after a successful script load the window count is the
script's `nrWindows` when that is an unsigned integer in the range
`[1, MAX_NR_WINDOWS]` with `MAX_NR_WINDOWS = 8`; it is 1 when `nrWindows` is
0 or above 8 (the value is not clamped to 8), when it is absent and when it
is not an unsigned integer; in every case the count lies in `[1, 8]`. -/
theorem load_sample_window_count (info info1 : client_info) (sample : Option purc_variant)
    (h : load_sample info sample = (true, info1)) :
    (1 ≤ info1.nr_windows ∧ info1.nr_windows ≤ MAX_NR_WINDOWS)
    ∧ MAX_NR_WINDOWS = 8
    ∧ (∀ n : Nat, purc_variant_object_get_by_ckey sample "nrWindows"
          = some (purc_variant.number (n : Int)) →
        (1 ≤ n ∧ n ≤ 8 → info1.nr_windows = n)
        ∧ (n = 0 ∨ 8 < n → info1.nr_windows = 1))
    ∧ (purc_variant_object_get_by_ckey sample "nrWindows" = none → info1.nr_windows = 1)
    ∧ (∀ tmp, purc_variant_object_get_by_ckey sample "nrWindows" = some tmp →
        purc_variant_cast_to_uint32 tmp = none → info1.nr_windows = 1) := by
  have hnr := load_sample_nr_windows info info1 sample h
  refine ⟨?_, rfl, ?_, ?_, ?_⟩
  · rw [hnr]
    split_ifs with hc
    · exact ⟨by decide, by decide⟩
    · simp only [not_or] at hc
      omega
  · intro n hn
    rw [hnr, hn]
    dsimp only
    rcases cast_cases n with hcast | ⟨hbig, hcast⟩
    · rw [hcast]
      dsimp only
      constructor
      · intro hr
        have : ¬ (n = 0 ∨ n > MAX_NR_WINDOWS) := by
          simp only [MAX_NR_WINDOWS]
          omega
        rw [if_neg this]
      · intro hr
        have : n = 0 ∨ n > MAX_NR_WINDOWS := by
          simp only [MAX_NR_WINDOWS]
          omega
        rw [if_pos this]
    · rw [hcast]
      dsimp only
      constructor
      · intro hr
        omega
      · intro _
        rw [if_pos (Or.inl rfl)]
  · intro hn
    rw [hnr, hn]
    dsimp only
    rw [if_pos (Or.inl rfl)]
  · intro tmp hn hc
    rw [hnr, hn]
    dsimp only
    rw [hc]
    dsimp only
    rw [if_pos (Or.inl rfl)]

/-- C20 as amended, on the sample with `nrWindows` 5: the load succeeds and
the count is 5. -/
theorem load_sample_window_count_witness :
    load_sample zero_client (sample_with_windows 5) = (true, (load_sample zero_client
      (sample_with_windows 5)).2)
    ∧ (load_sample zero_client (sample_with_windows 5)).2.nr_windows = 5 :=
  ⟨rfl,
   ((load_sample_window_count zero_client (load_sample zero_client (sample_with_windows 5)).2
      (sample_with_windows 5) rfl).2.2.1 5 rfl).1 (by decide)⟩

/-- C20 as stated fails on a script whose `nrWindows` is 9: the load
succeeds and the window count is 1, not 8. -/
theorem window_count_above_eight_counterexample :
    (load_sample zero_client (sample_with_windows 9)).1 = true
    ∧ (load_sample zero_client (sample_with_windows 9)).2.nr_windows = 1
    ∧ (load_sample zero_client (sample_with_windows 9)).2.nr_windows ≠ 8 := by
  refine ⟨by decide, by decide, by decide⟩

/-! ## No valid character (C19) -/

theorem broken_document_check (rest : List Nat) (m : Nat) :
    pcutils_string_check_utf8_len (255 :: rest) m = 0 := by
  unfold pcutils_string_check_utf8_len
  cases m with
  | zero => rfl
  | succ k => simp [utf8_scan, utf8_char_len]

/-- C19: when the UTF-8 check finds no complete valid character at the
current offset of a document (it returns the start), the transfer functions
fail without a trace on the counters. `load_or_write_doucment`, for a
document longer than 1024 bytes (the only case in which it checks), returns
-1, sends no request and leaves the written counters and the running flag
as they were, be the document read from its file in this call or held
already (`load_or_write_request`); `write_more_doucment`, where a further
chunk of 1024 bytes is due, returns -1 and leaves the whole connection as it
was. -/
theorem chunk_failure_aborts_transfer :
    (∀ (conn : pcrdr_conn) (w handle : Nat) (content : List Nat),
        DEF_LEN_ONE_WRITE < conn.user_data.len_content w →
        pcutils_string_check_utf8_len content DEF_LEN_ONE_WRITE = 0 →
        load_or_write_request conn w handle content = (Ret.ok (-1), conn))
    ∧ (∀ (conn : pcrdr_conn) (op : purc_variant) (target file : String) (w : Nat)
        (doc : List Nat),
        string_member (some op) "target" = some target →
        split_target target = ((w : Int), some "plainwindow") →
        w ≤ conn.user_data.nr_windows_created → w < MAX_NR_WINDOWS →
        conn.user_data.win_handles w ≠ 0 →
        conn.user_data.doc_content w = none →
        purc_variant_object_get_by_ckey (some op) "content"
          = some (purc_variant.string file) →
        conn.files file = some doc →
        DEF_LEN_ONE_WRITE < doc.length →
        pcutils_string_check_utf8_len doc DEF_LEN_ONE_WRITE = 0 →
        (load_or_write_doucment conn op).1 = Ret.ok (-1)
        ∧ (load_or_write_doucment conn op).2.sent = conn.sent
        ∧ (load_or_write_doucment conn op).2.pending = conn.pending
        ∧ (load_or_write_doucment conn op).2.user_data.len_wrotten
            = conn.user_data.len_wrotten
        ∧ (load_or_write_doucment conn op).2.user_data.running = conn.user_data.running)
    ∧ (∀ (conn : pcrdr_conn) (w : Nat) (content : List Nat),
        w < conn.user_data.nr_windows → w < MAX_NR_WINDOWS →
        conn.user_data.doc_content w = some content →
        conn.user_data.len_wrotten w ≤ content.length →
        conn.user_data.len_wrotten w + DEF_LEN_ONE_WRITE ≤ conn.user_data.len_content w →
        pcutils_string_check_utf8_len (content.drop (conn.user_data.len_wrotten w))
          DEF_LEN_ONE_WRITE = 0 →
        write_more_doucment conn w = (Ret.ok (-1), conn)) := by
  have first : ∀ (conn : pcrdr_conn) (w handle : Nat) (content : List Nat),
      DEF_LEN_ONE_WRITE < conn.user_data.len_content w →
      pcutils_string_check_utf8_len content DEF_LEN_ONE_WRITE = 0 →
      load_or_write_request conn w handle content = (Ret.ok (-1), conn) := by
    intro conn w handle content hlen hchunk
    have h1 : conn.user_data.len_content w > DEF_LEN_ONE_WRITE := hlen
    unfold load_or_write_request
    simp only [h1, if_true, hchunk, gt_iff_lt, lt_self_iff_false, if_false]
  refine ⟨first, ?_, ?_⟩
  · intro conn op target file w doc htarget hsplit hw hw8 hhandle hempty hcontent hfile hlen
      hchunk
    rw [load_or_write_doucment_reads_file conn op target file w doc htarget hsplit hw hw8
      hhandle hempty hcontent hfile]
    rw [first _ w _ doc (by simpa using hlen) hchunk]
    exact ⟨rfl, rfl, rfl, rfl, rfl⟩
  · intro conn w content hwin hw8 hdoc hk hmore hchunk
    have h1 : ¬ (conn.user_data.len_wrotten w > content.length) := by omega
    have h2 : ¬ (conn.user_data.len_wrotten w + DEF_LEN_ONE_WRITE
        > conn.user_data.len_content w) := by omega
    unfold write_more_doucment
    simp only [hwin, not_true_eq_false, if_false, cell, hw8, if_true, hdoc, h1, h2, hchunk,
      gt_iff_lt, lt_self_iff_false]

/-- C19 on the session that is ready to load `doc.html` into window 0, the
file being the broken document: the load fails and the written counter of
the slot stays 0. -/
theorem chunk_failure_aborts_transfer_witness :
    (load_or_write_doucment (window_ready broken_document) load_operation).1 = Ret.ok (-1)
    ∧ (load_or_write_doucment (window_ready broken_document) load_operation).2.sent = []
    ∧ (load_or_write_doucment (window_ready broken_document)
        load_operation).2.user_data.len_wrotten 0 = 0 := by
  have h := chunk_failure_aborts_transfer.2.1 (window_ready broken_document) load_operation
    "plainwindow/0" "doc.html" 0 broken_document (by decide) (by decide) (by decide)
    (by decide) (by decide) (by rfl) (by rfl) (by rfl)
    (by simp only [broken_document, List.length_cons, letters_length]; decide)
    (broken_document_check _ _)
  exact ⟨h.1, h.2.1, by rw [h.2.2.2.1]; rfl⟩

/-! ## Changing a document (C16, C17) -/

theorem change_document_sends (conn : pcrdr_conn) (op_id : Nat) (operation : String)
    (op : purc_variant) (target element value file : String) (w : Nat) (content : List Nat)
    (htarget : string_member (some op) "target" = some target)
    (hsplit : split_target target = ((w : Int), some "dom"))
    (hw : w ≤ conn.user_data.nr_windows_created) (hw8 : w < MAX_NR_WINDOWS)
    (hhandle : conn.user_data.win_handles w ≠ 0)
    (helement : string_member (some op) "element" = some element)
    (hvalue : split_element element = (some value, some "handle"))
    (hid : op_id ≠ PCRDR_K_OPERATION_UPDATE ∧ op_id ≠ PCRDR_K_OPERATION_ERASE
        ∧ op_id ≠ PCRDR_K_OPERATION_CLEAR)
    (hcontent : purc_variant_object_get_by_ckey (some op) "content"
        = some (purc_variant.string file))
    (hfile : conn.files file = some content)
    (hsend : conn.send_script.head? ≠ some false) :
    change_document conn op_id operation op =
      (Ret.ok 0,
       { conn with
         send_script := conn.send_script.tail,
         sent := conn.sent ++ [change_request conn w operation value content],
         pending := conn.pending ++ [change_request conn w operation value content] }) := by
  have h1 : ¬ ((w : Int) < 0) := by omega
  have h2 : ¬ (conn.user_data.nr_windows_created < w) := by omega
  have hm : make_change_message conn op_id operation op w =
      Ret.ok (some (change_request conn w operation value content).msg) := by
    simp [make_change_message, helement, hvalue, hid.1, hid.2.1, hid.2.2, hcontent,
      purc_variant_get_string_const, load_file_content, hfile, cell, hw8, change_request]
  simp only [change_document, htarget, hsplit, gt_iff_lt, Nat.cast_lt, h1, h2, or_self,
    if_false, Int.toNat_ofNat, cell, hw8, if_true, hhandle, ne_eq, not_true_eq_false, hm]
  rw [send_accepted _ _ _ _ hsend]
  simp [change_request]

/-- C16 as amended: of the DOM-mutation operations only `displace` is
handled. For an operation record naming `displace` with a valid dom target
(a slot with a window handle), an element locator `handle/<value>` and a
content file that can be read, `issue_operation` builds a request addressed
to the element `value` of the document of the slot and, the request being
sent, returns 0. For a record naming `update`, `erase` or `clear`
`issue_operation` reports the operation as not implemented: it returns -1
and leaves the connection as it was, without a request. -/
theorem issue_operation_dom_mutations :
    (∀ (conn : pcrdr_conn) (op : purc_variant) (target element value file : String) (w : Nat)
        (content : List Nat),
        string_member (some op) "operation" = some "displace" →
        string_member (some op) "target" = some target →
        split_target target = ((w : Int), some "dom") →
        w ≤ conn.user_data.nr_windows_created → w < MAX_NR_WINDOWS →
        conn.user_data.win_handles w ≠ 0 →
        string_member (some op) "element" = some element →
        split_element element = (some value, some "handle") →
        purc_variant_object_get_by_ckey (some op) "content"
          = some (purc_variant.string file) →
        conn.files file = some content →
        conn.send_script.head? ≠ some false →
        issue_operation conn op =
          (Ret.ok 0,
           { conn with
             send_script := conn.send_script.tail,
             sent := conn.sent ++ [change_request conn w "displace" value content],
             pending := conn.pending ++ [change_request conn w "displace" value content] }))
    ∧ (∀ (conn : pcrdr_conn) (op : purc_variant) (operation : String),
        string_member (some op) "operation" = some operation →
        operation = "update" ∨ operation = "erase" ∨ operation = "clear" →
        issue_operation conn op = (Ret.ok (-1), conn)) := by
  constructor
  · intro conn op target element value file w content hop htarget hsplit hw hw8 hhandle
      helement hvalue hcontent hfile hsend
    have hid : pcrdr_operation_id "displace" = some PCRDR_K_OPERATION_DISPLACE := by decide
    have h1 : PCRDR_K_OPERATION_DISPLACE ≠ PCRDR_K_OPERATION_CREATEPLAINWINDOW := by decide
    have h2 : PCRDR_K_OPERATION_DISPLACE ≠ PCRDR_K_OPERATION_LOAD := by decide
    simp only [issue_operation, hop, hid, h1, h2, if_false, if_true]
    exact change_document_sends conn _ "displace" op target element value file w content
      htarget hsplit hw hw8 hhandle helement hvalue (by decide) hcontent hfile hsend
  · intro conn op operation hop hname
    rcases hname with h | h | h
    all_goals
      subst h
      simp only [issue_operation, hop]
      rfl

/-- C16 as amended, on the session whose document is written: the displace
operation is sent to the element `3f`, and the update operation is refused. -/
theorem issue_operation_dom_mutations_witness :
    (issue_operation (document_written [displace_operation]) displace_operation).1 = Ret.ok 0
    ∧ issue_operation (document_written [update_operation]) update_operation
        = (Ret.ok (-1), document_written [update_operation]) := by
  have h1 := issue_operation_dom_mutations.1 (document_written [displace_operation])
    displace_operation "dom/0" "handle/3f" "3f" "frag.html" 0 (letters 10)
    (by decide) (by decide) (by decide) (by decide) (by decide) (by decide) (by decide)
    (by decide) (by rfl) (by rfl) (by decide)
  have h2 := issue_operation_dom_mutations.2 (document_written [update_operation])
    update_operation "update" (by decide) (Or.inl rfl)
  exact ⟨by rw [h1], h2⟩

/-- C16 as stated fails for `update`: on the session whose window 0 is
created and whose document is written, the operation that updates the
element `3f` of `dom/0` is not issued; `issue_operation` returns -1 and
nothing is sent. -/
theorem update_not_issued_counterexample :
    (issue_operation (document_written [update_operation]) update_operation).1 = Ret.ok (-1)
    ∧ (issue_operation (document_written [update_operation]) update_operation).2.sent = []
    ∧ (document_written [update_operation]).user_data.dom_handles 0 = 8194 := by
  refine ⟨by decide, by rfl, by decide⟩

/-- C17, which the code breaks: `change_document` tests the window handle of
the slot, not its DOM handle. On the script that creates a window and at
once displaces an element of `dom/0`, the success response to the create
request issues the displace operation although the DOM handle of slot 0 is
still unassigned: `change_document` sends a displace request whose target
value is 0 and the handler returns 0. -/
theorem displace_before_document_written :
    (answer_ok [4097] (issue_first_operation
        (fresh_conn (script_session 1 displace_script none [])
          (fragment_file (letters 10)))).2).1 = Ret.ok 0
    ∧ (answer_ok [4097] (issue_first_operation
        (fresh_conn (script_session 1 displace_script none [])
          (fragment_file (letters 10)))).2).2.user_data.win_handles 0 = 4097
    ∧ (answer_ok [4097] (issue_first_operation
        (fresh_conn (script_session 1 displace_script none [])
          (fragment_file (letters 10)))).2).2.user_data.dom_handles 0 = 0
    ∧ (answer_ok [4097] (issue_first_operation
        (fresh_conn (script_session 1 displace_script none [])
          (fragment_file (letters 10)))).2).2.sent.map (fun q => q.msg.operation)
        = ["createPlainWindow", "displace"]
    ∧ (answer_ok [4097] (issue_first_operation
        (fresh_conn (script_session 1 displace_script none [])
          (fragment_file (letters 10)))).2).2.pending.map
          (fun q => (q.msg.operation, q.msg.target, q.msg.targetValue))
        = [("displace", PCRDR_MSG_TARGET_DOM, 0)] := by
  refine ⟨by decide, by decide, by decide, by decide, by decide⟩

/-! ## The handles of the window slots (C15) -/

theorem kept_refl (a : pcrdr_conn) : Kept a a := ⟨rfl, rfl, rfl, rfl, rfl⟩

theorem kept_trans (a b c : pcrdr_conn) (h1 : Kept a b) (h2 : Kept b c) : Kept a c :=
  ⟨h2.1.trans h1.1, h2.2.1.trans h1.2.1, h2.2.2.1.trans h1.2.2.1,
    h2.2.2.2.1.trans h1.2.2.2.1, h2.2.2.2.2.trans h1.2.2.2.2⟩

theorem send_user_data (c : pcrdr_conn) (msg : pcrdr_msg) (context : Nat)
    (handler : response_handler) :
    (pcrdr_send_request c msg context handler).2.user_data = c.user_data := by
  unfold pcrdr_send_request
  split <;> rfl

theorem kept_send (a c : pcrdr_conn) (msg : pcrdr_msg) (context : Nat)
    (handler : response_handler) (h : Kept a c) :
    Kept a (pcrdr_send_request c msg context handler).2 := by
  unfold Kept
  rw [send_user_data]
  exact h

theorem kept_create_plain_win (conn : pcrdr_conn) (op : purc_variant) :
    Kept conn (create_plain_win conn op).2 := by
  unfold create_plain_win
  simp only
  repeat' first
    | exact kept_refl _
    | exact kept_send _ _ _ _ _ ⟨rfl, rfl, rfl, rfl, rfl⟩
    | split

theorem kept_write_more_doucment (conn : pcrdr_conn) (win : Nat) :
    Kept conn (write_more_doucment conn win).2 := by
  unfold write_more_doucment
  simp only
  repeat' first
    | exact kept_refl _
    | exact kept_send _ _ _ _ _ ⟨rfl, rfl, rfl, rfl, rfl⟩
    | split

theorem kept_load_or_write_request (conn : pcrdr_conn) (win handle : Nat)
    (content : List Nat) : Kept conn (load_or_write_request conn win handle content).2 := by
  unfold load_or_write_request
  simp only
  repeat' first
    | exact kept_refl _
    | exact kept_send _ _ _ _ _ ⟨rfl, rfl, rfl, rfl, rfl⟩
    | split

theorem kept_load_or_write_doucment (conn : pcrdr_conn) (op : purc_variant) :
    Kept conn (load_or_write_doucment conn op).2 := by
  unfold load_or_write_doucment load_or_write_content
  simp only
  repeat' first
    | exact kept_refl _
    | exact kept_load_or_write_request _ _ _ _
    | exact kept_trans _ _ _ ⟨rfl, rfl, rfl, rfl, rfl⟩ (kept_load_or_write_request _ _ _ _)
    | split

theorem kept_change_document (conn : pcrdr_conn) (op_id : Nat) (operation : String)
    (op : purc_variant) : Kept conn (change_document conn op_id operation op).2 := by
  unfold change_document
  simp only
  repeat' first
    | exact kept_refl _
    | exact kept_send _ _ _ _ _ ⟨rfl, rfl, rfl, rfl, rfl⟩
    | split

theorem kept_issue_operation (conn : pcrdr_conn) (op : purc_variant) :
    Kept conn (issue_operation conn op).2 := by
  unfold issue_operation
  repeat' first
    | exact kept_refl _
    | exact kept_create_plain_win _ _
    | exact kept_load_or_write_doucment _ _
    | exact kept_change_document _ _ _ _
    | split

theorem kept_issue_next_operation (conn : pcrdr_conn) :
    Kept conn (issue_next_operation conn).2 := by
  unfold issue_next_operation
  simp only
  repeat' first
    | exact kept_refl _
    | exact ⟨rfl, rfl, rfl, rfl, rfl⟩
    | exact kept_trans _ _ _ ⟨rfl, rfl, rfl, rfl, rfl⟩ (kept_issue_operation _ _)
    | split

theorem requests_refl (a : pcrdr_conn) : Requests a a := Or.inl rfl

theorem requests_send (a c : pcrdr_conn) (msg : pcrdr_msg) (context : Nat)
    (handler : response_handler) (hp : c.pending = a.pending)
    (hok : context_ok a.user_data handler context) :
    Requests a (pcrdr_send_request c msg context handler).2 := by
  unfold pcrdr_send_request
  rcases hs : c.send_script with _ | ⟨b, rest⟩
  · exact Or.inr
      ⟨{ id := c.sent.length, msg := msg, context := context, handler := handler },
        by simp [hp], hok⟩
  · cases b
    · exact Or.inl hp
    · exact Or.inr
        ⟨{ id := c.sent.length, msg := msg, context := context, handler := handler },
          by simp [hp], hok⟩

theorem requests_create_plain_win (conn : pcrdr_conn) (op : purc_variant) :
    Requests conn (create_plain_win conn op).2 := by
  unfold create_plain_win
  simp only
  repeat' first
    | exact requests_refl _
    | exact requests_send _ _ _ _ _ rfl rfl
    | split

theorem requests_write_more_doucment (conn : pcrdr_conn) (win : Nat)
    (h : conn.user_data.win_handles win ≠ 0) :
    Requests conn (write_more_doucment conn win).2 := by
  unfold write_more_doucment
  simp only
  repeat' first
    | exact requests_refl _
    | exact requests_send _ _ _ _ _ rfl h
    | split

theorem requests_load_or_write_request (a conn : pcrdr_conn) (win handle : Nat)
    (content : List Nat) (hp : conn.pending = a.pending)
    (h : a.user_data.win_handles win ≠ 0) :
    Requests a (load_or_write_request conn win handle content).2 := by
  unfold load_or_write_request
  simp only
  repeat' first
    | exact Or.inl hp
    | exact requests_send _ _ _ _ _ hp h
    | split

theorem requests_load_or_write_doucment (conn : pcrdr_conn) (op : purc_variant) :
    Requests conn (load_or_write_doucment conn op).2 := by
  unfold load_or_write_doucment
  simp only
  repeat' first
    | exact requests_refl _
    | split
  rename_i target _ _ _ handle hcell hzero _
  have hw : conn.user_data.win_handles (split_target target).1.toNat ≠ 0 := by
    unfold cell at hcell
    split_ifs at hcell
    simp only [Option.some.injEq] at hcell
    rw [hcell]
    exact hzero
  unfold load_or_write_content
  simp only
  repeat' first
    | exact requests_refl _
    | exact requests_load_or_write_request _ _ _ _ _ rfl hw
    | split

theorem requests_change_document (conn : pcrdr_conn) (op_id : Nat) (operation : String)
    (op : purc_variant) : Requests conn (change_document conn op_id operation op).2 := by
  unfold change_document
  simp only
  repeat' first
    | exact requests_refl _
    | exact requests_send _ _ _ _ _ rfl trivial
    | split

theorem requests_issue_operation (conn : pcrdr_conn) (op : purc_variant) :
    Requests conn (issue_operation conn op).2 := by
  unfold issue_operation
  repeat' first
    | exact requests_refl _
    | exact requests_create_plain_win _ _
    | exact requests_load_or_write_doucment _ _
    | exact requests_change_document _ _ _ _
    | split

theorem context_ok_of_kept (a b : pcrdr_conn) (hk : Kept a b) (handler : response_handler)
    (context : Nat) (h : context_ok a.user_data handler context) :
    context_ok b.user_data handler context := by
  cases handler <;> simp only [context_ok, hk.1, hk.2.2.1] at * <;> exact h

theorem handles_ordered_of_kept (a b : pcrdr_conn) (hk : Kept a b)
    (h : handles_ordered a.user_data) : handles_ordered b.user_data := by
  unfold handles_ordered
  rw [hk.1, hk.2.1, hk.2.2.1]
  exact h

theorem slots_of_issue (a b : pcrdr_conn) (hs : handles_ordered a.user_data)
    (hp : a.pending = []) (hk : Kept a b) (hr : Requests a b) : Slots b := by
  refine ⟨handles_ordered_of_kept a b hk hs, ?_⟩
  rcases hr with h | ⟨p, h, hok⟩
  · exact Or.inl (h.trans hp)
  · exact Or.inr ⟨p, by rw [h, hp]; rfl, context_ok_of_kept a b hk _ _ hok⟩

theorem slots_issue_next_operation (ch : pcrdr_conn) (hs : handles_ordered ch.user_data)
    (hp : ch.pending = []) : Slots (issue_next_operation ch).2 := by
  rcases issue_next_operation_cases ch with h | ⟨_, h⟩ | ⟨op, _, h⟩
  · rw [h]
    exact ⟨hs, Or.inl hp⟩
  · rw [h]
    exact ⟨hs, Or.inl hp⟩
  · rw [h]
    exact slots_of_issue
      { ch with user_data := { ch.user_data with ops_issued := ch.user_data.ops_issued + 1 } }
      _ hs hp (kept_issue_operation _ _) (requests_issue_operation _ _)

theorem handles_ordered_window (info : client_info) (v : Nat) (h : handles_ordered info) :
    handles_ordered
      { info with nr_windows_created := info.nr_windows_created + 1,
                  win_handles := Function.update info.win_handles info.nr_windows_created v } := by
  constructor
  · intro w hd
    have hne : w ≠ info.nr_windows_created := by
      intro e
      subst e
      exact h.1 _ hd (h.2 _ (le_refl _))
    simp only [Function.update_noteq hne]
    exact h.1 w hd
  · intro w hw
    have hne : w ≠ info.nr_windows_created := by
      simp only at hw
      omega
    simp only [Function.update_noteq hne]
    exact h.2 w (by simp only at hw; omega)

theorem handles_ordered_document (info : client_info) (w v : Nat)
    (content : Nat → Option (List Nat)) (hw : info.win_handles w ≠ 0)
    (h : handles_ordered info) :
    handles_ordered
      { info with dom_handles := Function.update info.dom_handles w v,
                  doc_content := content } := by
  constructor
  · intro x hd
    by_cases hx : x = w
    · subst hx
      exact hw
    · simp only [Function.update_noteq hx] at hd
      exact h.1 x hd
  · exact h.2

theorem slots_call_handler (hd : response_handler) (c : pcrdr_conn) (state : Int)
    (context : Nat) (msg : Option pcrdr_response_msg)
    (hs : handles_ordered c.user_data) (hp : c.pending = [])
    (hok : context_ok c.user_data hd context) :
    Slots (call_handler hd c state context msg).2 := by
  have hc : Slots c := ⟨hs, Or.inl hp⟩
  cases hd
  · -- plainwin_created_handler
    simp only [context_ok] at hok
    subst hok
    simp only [call_handler, plainwin_created_handler]
    repeat' first
      | exact hc
      | exact ⟨hs, Or.inl hp⟩
      | (rw [and_return_snd]
         exact slots_issue_next_operation _ (handles_ordered_window _ _ hs) hp)
      | split
  · -- loaded_handler
    simp only [context_ok] at hok
    simp only [call_handler, loaded_handler]
    repeat' first
      | exact hc
      | exact ⟨hs, Or.inl hp⟩
      | (rw [and_return_snd]
         exact slots_issue_next_operation _ (handles_ordered_document _ _ _ _ hok hs) hp)
      | split
  · -- wrotten_handler
    simp only [context_ok] at hok
    simp only [call_handler, wrotten_handler]
    repeat' first
      | exact hc
      | exact ⟨hs, Or.inl hp⟩
      | (rw [and_return_snd]
         exact slots_issue_next_operation _ (handles_ordered_document _ _ _ _ hok hs) hp)
      | (rw [and_return_snd]
         exact slots_of_issue _ _ hs hp (kept_write_more_doucment _ _)
           (requests_write_more_doucment _ _ hok))
      | split
  · -- changed_handler
    simp only [call_handler, changed_handler]
    repeat' first
      | exact hc
      | exact ⟨hs, Or.inl hp⟩
      | (rw [and_return_snd]
         exact slots_issue_next_operation _ hs hp)
      | split

theorem kept_match_event (conn : pcrdr_conn) (evt_vrt : Option purc_variant)
    (msg : pcrdr_event_msg) : Kept conn (match_event conn evt_vrt msg).2 := by
  unfold match_event
  repeat' first
    | exact kept_refl _
    | split

theorem kept_match_events (msg : pcrdr_event_msg) (n : Nat) : ∀ (i : Nat) (conn : pcrdr_conn),
    Kept conn (match_events msg n i conn).2 := by
  induction n with
  | zero => intro i conn; exact kept_refl _
  | succ k ih =>
    intro i conn
    unfold match_events first_match
    have hq := kept_match_event conn (purc_variant_array_get conn.user_data.events i) msg
    split
    · rename_i conn1 heq
      have e : (match_event conn (purc_variant_array_get conn.user_data.events i) msg).2
          = conn1 := by rw [heq]
      rw [e] at hq
      exact kept_trans _ _ _ hq (ih (i + 1) conn1)
    · exact hq

theorem slots_of_kept (a b : pcrdr_conn) (hk : Kept a b) (hp : b.pending = a.pending)
    (h : Slots a) : Slots b := by
  refine ⟨handles_ordered_of_kept a b hk h.1, ?_⟩
  rcases h.2 with h0 | ⟨p, h1, hok⟩
  · exact Or.inl (hp.trans h0)
  · exact Or.inr ⟨p, hp.trans h1, context_ok_of_kept a b hk _ _ hok⟩

theorem slots_handle_selected (conn : pcrdr_conn) (op_name : Option String)
    (h : Slots conn) : Slots (handle_selected conn op_name) := by
  unfold handle_selected
  repeat' first
    | exact h
    | split

theorem slots_my_event_handler (conn : pcrdr_conn) (msg : pcrdr_event_msg)
    (h : Slots conn) : Slots (my_event_handler conn msg).2 := by
  have hk := kept_match_events msg conn.user_data.nr_events 0 conn
  have hq := quiet_match_events msg conn.user_data.nr_events 0 conn
  unfold my_event_handler
  split
  · rename_i op_name conn1 heq
    rw [heq] at hk hq
    exact slots_handle_selected conn1 op_name (slots_of_kept _ _ hk hq.2.1 h)
  · rename_i conn1 heq
    rw [heq] at hk hq
    exact slots_of_kept _ _ hk hq.2.1 h
  · rename_i conn1 heq
    rw [heq] at hk hq
    exact slots_of_kept _ _ hk hq.2.1 h

theorem slots_dispatch (conn : pcrdr_conn) (m : inbound) (h : Slots conn) :
    Slots (pcrdr_read_and_dispatch_message conn m).2 := by
  cases m with
  | event e =>
    simp only [pcrdr_read_and_dispatch_message, and_return_snd]
    exact slots_my_event_handler conn e h
  | response r =>
    rcases h.2 with h0 | ⟨p, hp, hok⟩
    · have e : pcrdr_read_and_dispatch_message conn (inbound.response r) = (Ret.ok 0, conn) := by
        simp [pcrdr_read_and_dispatch_message, h0, take_pending]
      rw [e]
      exact h
    · by_cases hid : p.id = r.request_id
      · have e : pcrdr_read_and_dispatch_message conn (inbound.response r)
            = call_handler p.handler { conn with pending := [] } r.state p.context r.msg := by
          simp [pcrdr_read_and_dispatch_message, hp, take_pending, hid]
        rw [e]
        exact slots_call_handler p.handler { conn with pending := [] } r.state p.context r.msg
          h.1 rfl hok
      · have e : pcrdr_read_and_dispatch_message conn (inbound.response r) = (Ret.ok 0, conn) := by
          simp [pcrdr_read_and_dispatch_message, hp, take_pending, hid]
        rw [e]
        exact h

theorem slots_issue_first_operation (conn0 : pcrdr_conn)
    (hs : handles_ordered conn0.user_data) (hpend : conn0.pending = []) :
    Slots (issue_first_operation conn0).2 := by
  rcases issue_first_operation_cases conn0 with ⟨_, h⟩ | ⟨op, _, h⟩
  · rw [h]
    exact ⟨hs, Or.inl hpend⟩
  · rw [h]
    exact slots_of_issue
      { conn0 with user_data := { conn0.user_data with ops_issued := 0 } }
      _ hs hpend (kept_issue_operation _ _) (requests_issue_operation _ _)

theorem reachable_slots (conn0 : pcrdr_conn) (hs : handles_ordered conn0.user_data)
    (hpend : conn0.pending = []) : ∀ conn, Reachable conn0 conn → Slots conn := by
  intro conn hr
  induction hr with
  | first => exact slots_issue_first_operation conn0 hs hpend
  | step c m _ ih => exact slots_dispatch c m ih

theorem handles_ordered_of_zero (info : client_info) (hwin : ∀ w, info.win_handles w = 0)
    (hdom : ∀ w, info.dom_handles w = 0) : handles_ordered info :=
  ⟨fun w h => absurd (hdom w) h, fun w _ => hwin w⟩

theorem reachable_of_returned (conn0 conn : pcrdr_conn) (h : Returned conn0 conn) :
    Reachable conn0 conn := by
  induction h with
  | first v conn1 h =>
    have hr : Reachable conn0 (issue_first_operation conn0).2 := Reachable.first
    rw [h] at hr
    exact hr
  | step conn m v conn1 _ h ih =>
    have hr := Reachable.step conn m ih
    rw [h] at hr
    exact hr

/-- C15, which the code breaks through the index 8. What holds: a session
starts with the handles of every slot zeroed, as `main` zeroes the session,
and with no request pending; in every state it passes through while the
calls return, that is after `issue_first_operation` and after every message
read and dispatched (a response is handed to the handler of its request
once, and then the request is no longer pending), a slot whose DOM handle is
not zero has a window handle that is not zero; the states in which
`run_session` returns are among them. What fails: on `eight_windows_script`
with an empty `doc.html`, after the eight windows are created and the
document of window 0 is loaded (DOM handle `0x2002`), the response to that
load issues the load into the window with index 8, which passes the test
`win > nr_windows_created` and leaves the arrays: the call runs into
undefined behaviour, with the DOM handle of slot 0 set and the length and
the written counter of slot 0 zero. -/
theorem dom_handle_only_after_window_handle :
    (∀ conn0 : pcrdr_conn,
        (∀ w, conn0.user_data.win_handles w = 0) →
        (∀ w, conn0.user_data.dom_handles w = 0) →
        conn0.pending = [] →
        (∀ conn, Returned conn0 conn →
          ∀ w, conn.user_data.dom_handles w ≠ 0 → conn.user_data.win_handles w ≠ 0)
        ∧ (∀ (inputs : List inbound) (v : Int),
            (run_session inputs conn0).1 = Ret.ok v →
            ∀ w, (run_session inputs conn0).2.user_data.dom_handles w ≠ 0 →
              (run_session inputs conn0).2.user_data.win_handles w ≠ 0))
    ∧ ((run_session eight_windows_replies eight_windows_empty_session).1
          = Ret.undefined_behaviour
        ∧ (run_session eight_windows_replies
            eight_windows_empty_session).2.user_data.nr_windows_created = 8
        ∧ (run_session eight_windows_replies
            eight_windows_empty_session).2.user_data.dom_handles 0 = 8194
        ∧ (run_session eight_windows_replies
            eight_windows_empty_session).2.user_data.win_handles 0 = 4097
        ∧ (run_session eight_windows_replies
            eight_windows_empty_session).2.user_data.len_content 0 = 0
        ∧ (run_session eight_windows_replies
            eight_windows_empty_session).2.user_data.len_wrotten 0 = 0
        ∧ (run_session eight_windows_replies
            eight_windows_empty_session).2.user_data.doc_content 0 = none
        ∧ (run_session eight_windows_replies
            eight_windows_empty_session).2.user_data.ops_issued = 9) := by
  constructor
  · intro conn0 hwin hdom hpend
    have h := reachable_slots conn0 (handles_ordered_of_zero _ hwin hdom) hpend
    exact ⟨fun conn hr => (h conn (reachable_of_returned conn0 conn hr)).1.1,
      fun inputs _ _ => (h _ (reachable_run_session conn0 inputs)).1.1⟩
  · refine ⟨by decide, by decide, by decide, by decide, by decide, by decide, by decide,
      by decide⟩

/-- C15, where it holds, on the session that creates window 0 (handle
`0x1001`) and loads a document of ten bytes into it (DOM handle `0x2002`):
the session starts zeroed, `run_session` returns after the two responses,
and in its state slot 0 has its DOM handle and a window handle that is not
zero. -/
theorem dom_handle_only_after_window_handle_witness :
    (run_session [ok_reply 0 4097, ok_reply 1 8194]
        (fresh_conn (script_session 1 reload_script none [])
          (two_documents (letters 10) (letters 20)))).1 = Ret.ok 0
    ∧ (run_session [ok_reply 0 4097, ok_reply 1 8194]
        (fresh_conn (script_session 1 reload_script none [])
          (two_documents (letters 10) (letters 20)))).2.user_data.dom_handles 0 = 8194
    ∧ (run_session [ok_reply 0 4097, ok_reply 1 8194]
        (fresh_conn (script_session 1 reload_script none [])
          (two_documents (letters 10) (letters 20)))).2.user_data.win_handles 0 ≠ 0 :=
  ⟨by decide, by decide,
   (dom_handle_only_after_window_handle.1
      (fresh_conn (script_session 1 reload_script none [])
        (two_documents (letters 10) (letters 20)))
      (fun _ => rfl) (fun _ => rfl) rfl).2 [ok_reply 0 4097, ok_reply 1 8194] 0 (by decide) 0
      (by decide)⟩

/-! ## The target of a load or displace operation (C18) -/

theorem length_le_byte_length (s : List Char) : s.length ≤ byte_length s := by
  induction s with
  | nil => exact le_refl _
  | cons c cs ih =>
    have := c.utf8Size_pos
    simp only [List.length_cons, byte_length]
    omega

theorem split_target_rejects (target : String) :
    (strchr target.data (Char.ofNat 47) = none → (split_target target).1 = -1)
    ∧ (∀ name sep, strchr target.data (Char.ofNat 47) = some (name, sep) →
        byte_length name > PURC_LEN_IDENTIFIER ∨ sep = [] ∨ (strtol sep).2 ≠ [] →
        (split_target target).1 = -1) := by
  constructor
  · intro h
    simp [split_target, h]
  · intro name sep h hbad
    simp only [split_target, h]
    split_ifs <;> first | rfl | (exfalso; simp_all)

theorem split_target_rejects_long (target : String) :
    (strchr target.data (Char.ofNat 47) = none → (split_target target).1 = -1)
    ∧ (∀ name sep, strchr target.data (Char.ofNat 47) = some (name, sep) →
        name.length > PURC_LEN_IDENTIFIER ∨ sep = [] ∨ (strtol sep).2 ≠ [] →
        (split_target target).1 = -1) := by
  refine ⟨(split_target_rejects target).1, ?_⟩
  intro name sep h hbad
  refine (split_target_rejects target).2 name sep h ?_
  rcases hbad with h1 | h1
  · left
    have := length_le_byte_length name
    omega
  · exact Or.inr h1

theorem load_or_write_doucment_refuses (conn : pcrdr_conn) (op : purc_variant)
    (target : String) (w : Nat)
    (htarget : string_member (some op) "target" = some target)
    (hsplit : (split_target target).1 = (w : Int)) (hw8 : w < MAX_NR_WINDOWS)
    (hkind : conn.user_data.win_handles w = 0 ∨ (split_target target).2 ≠ some "plainwindow") :
    load_or_write_doucment conn op = (Ret.ok (-1), conn) := by
  simp only [load_or_write_doucment, htarget, hsplit, Int.toNat_ofNat, cell, hw8, if_true]
  rcases hkind with h | h
  · simp [h]
  · simp [h]

theorem change_document_refuses (conn : pcrdr_conn) (op_id : Nat) (operation : String)
    (op : purc_variant) (target : String) (w : Nat)
    (htarget : string_member (some op) "target" = some target)
    (hsplit : (split_target target).1 = (w : Int)) (hw8 : w < MAX_NR_WINDOWS)
    (hkind : conn.user_data.win_handles w = 0 ∨ (split_target target).2 ≠ some "dom") :
    change_document conn op_id operation op = (Ret.ok (-1), conn) := by
  simp only [change_document, htarget, hsplit, Int.toNat_ofNat, cell, hw8, if_true]
  rcases hkind with h | h
  · simp [h]
  · simp [h]

/-- C18, which the code breaks at the index 8. What holds: a load or
displace operation without a target, with a locator that `split_target`
rejects (no slash, a name that is too long, no index, or an index followed
by other characters), with a negative index, with an index above the number
of windows created, or with a target of the wrong kind is not issued:
`load_or_write_doucment` and `change_document` return -1 and leave the
connection as it was. The index equal to the number of windows created
passes the test `win > nr_windows_created`; in a session that started zeroed
the slot of that index has no window handle while the index is below
`MAX_NR_WINDOWS`, and the operation is refused as well. What fails: once
eight windows are created, the index 8 passes the test and
`win_handles[8]` is read, which is outside the array: on
`eight_windows_script` the response to the load into window 0 issues the
load into window 8, and the handler runs into undefined behaviour. -/
theorem target_of_operation_checked :
    (∀ (conn : pcrdr_conn) (op : purc_variant) (op_id : Nat) (operation : String),
        string_member (some op) "target" = none →
        load_or_write_doucment conn op = (Ret.ok (-1), conn)
        ∧ change_document conn op_id operation op = (Ret.ok (-1), conn))
    ∧ (∀ target : String,
        (strchr target.data (Char.ofNat 47) = none → (split_target target).1 = -1)
        ∧ (∀ name sep, strchr target.data (Char.ofNat 47) = some (name, sep) →
            name.length > PURC_LEN_IDENTIFIER ∨ sep = [] ∨ (strtol sep).2 ≠ [] →
            (split_target target).1 = -1))
    ∧ (∀ (conn : pcrdr_conn) (op : purc_variant) (op_id : Nat) (operation target : String),
        string_member (some op) "target" = some target →
        (split_target target).1 < 0
          ∨ (split_target target).1 > (conn.user_data.nr_windows_created : Int) →
        load_or_write_doucment conn op = (Ret.ok (-1), conn)
        ∧ change_document conn op_id operation op = (Ret.ok (-1), conn))
    ∧ (∀ (conn : pcrdr_conn) (op : purc_variant) (op_id : Nat) (operation target : String)
        (w : Nat),
        string_member (some op) "target" = some target →
        (split_target target).1 = (w : Int) → w < MAX_NR_WINDOWS →
        ((split_target target).2 ≠ some "plainwindow" →
          load_or_write_doucment conn op = (Ret.ok (-1), conn))
        ∧ ((split_target target).2 ≠ some "dom" →
          change_document conn op_id operation op = (Ret.ok (-1), conn)))
    ∧ (∀ conn0 : pcrdr_conn,
        (∀ w, conn0.user_data.win_handles w = 0) →
        (∀ w, conn0.user_data.dom_handles w = 0) →
        conn0.pending = [] →
        ∀ conn, Reachable conn0 conn →
        ∀ (op : purc_variant) (op_id : Nat) (operation target : String) (w : Nat),
        string_member (some op) "target" = some target →
        (split_target target).1 = (w : Int) →
        conn.user_data.nr_windows_created ≤ w → w < MAX_NR_WINDOWS →
        load_or_write_doucment conn op = (Ret.ok (-1), conn)
        ∧ change_document conn op_id operation op = (Ret.ok (-1), conn))
    ∧ ((answer_ok [4097, 4098, 4099, 4100, 4101, 4102, 4103, 4104, 8194]
          (issue_first_operation eight_windows_session).2).1 = Ret.undefined_behaviour
        ∧ (answer_ok [4097, 4098, 4099, 4100, 4101, 4102, 4103, 4104, 8194]
          (issue_first_operation eight_windows_session).2).2.user_data.nr_windows_created = 8
        ∧ (answer_ok [4097, 4098, 4099, 4100, 4101, 4102, 4103, 4104, 8194]
          (issue_first_operation eight_windows_session).2).2.user_data.ops_issued = 9
        ∧ (split_target "plainwindow/8").1 = 8) := by
  refine ⟨?_, split_target_rejects_long, ?_, ?_, ?_, ?_⟩
  · intro conn op op_id operation h
    simp [load_or_write_doucment, change_document, h]
  · intro conn op op_id operation target h hbad
    simp [load_or_write_doucment, change_document, h, hbad]
  · intro conn op op_id operation target w h hsplit hw8
    exact ⟨fun hk => load_or_write_doucment_refuses conn op target w h hsplit hw8 (Or.inr hk),
      fun hk => change_document_refuses conn op_id operation op target w h hsplit hw8
        (Or.inr hk)⟩
  · intro conn0 hwin hdom hpend conn hr op op_id operation target w h hsplit hle hw8
    have hs := reachable_slots conn0 (handles_ordered_of_zero _ hwin hdom) hpend conn hr
    have hz := hs.1.2 w hle
    exact ⟨load_or_write_doucment_refuses conn op target w h hsplit hw8 (Or.inl hz),
      change_document_refuses conn op_id operation op target w h hsplit hw8 (Or.inl hz)⟩
  · refine ⟨by decide, by decide, by decide, by decide⟩

/-- C18, where it holds, on the session of two windows that started zeroed
and has created window 0 with handle `0x1001`: the load into window 1, which
is not created, is refused. -/
theorem target_of_operation_checked_witness :
    (pcrdr_read_and_dispatch_message
        (issue_first_operation
          (fresh_conn (script_session 2 load_script none [])
            (document_file (letters 10)))).2
        (ok_reply 0 4097)).2.user_data.nr_windows_created = 1
    ∧ load_or_write_doucment
        (pcrdr_read_and_dispatch_message
          (issue_first_operation
            (fresh_conn (script_session 2 load_script none [])
              (document_file (letters 10)))).2
          (ok_reply 0 4097)).2
        (purc_variant.object [("operation", purc_variant.string "load"),
                              ("target", purc_variant.string "plainwindow/1"),
                              ("content", purc_variant.string "doc.html")])
      = (Ret.ok (-1),
         (pcrdr_read_and_dispatch_message
          (issue_first_operation
            (fresh_conn (script_session 2 load_script none [])
              (document_file (letters 10)))).2
          (ok_reply 0 4097)).2) :=
  ⟨by decide,
   (target_of_operation_checked.2.2.2.2.1
    (fresh_conn (script_session 2 load_script none []) (document_file (letters 10)))
    (fun _ => rfl) (fun _ => rfl) rfl
    (pcrdr_read_and_dispatch_message
      (issue_first_operation
        (fresh_conn (script_session 2 load_script none [])
          (document_file (letters 10)))).2
      (ok_reply 0 4097)).2
    (Reachable.step _ (ok_reply 0 4097) Reachable.first)
    (purc_variant.object [("operation", purc_variant.string "load"),
                          ("target", purc_variant.string "plainwindow/1"),
                          ("content", purc_variant.string "doc.html")])
    0 "load" "plainwindow/1" 1 (by decide) (by decide) (by decide) (by decide)).1⟩

/-! ## The response to a create request (C11) -/

/-- C11 as amended: for a create-window response for slot `w` with return
code `OK` and result handle `h`, `plainwin_created_handler` sets the window
handle of the slot to `h`, so that it reads back as `h`, and raises the
count of created windows by one; and when the script has an operation after
the current queue position, that operation is issued once: the queue
position moves by one, the operation at the new position is handed to
`issue_operation`, which sends one request at most and leaves the handle and
the count as stored, and the handler returns 0. -/
theorem plainwin_created_handler_stores_handle (conn : pcrdr_conn) (state : Int) (w : Nat)
    (m : pcrdr_response_msg)
    (hw : w < conn.user_data.nr_windows) (hw8 : w < MAX_NR_WINDOWS)
    (hstate : state ≠ PCRDR_RESPONSE_CANCELLED) (hcode : m.retCode = PCRDR_SC_OK) :
    (plainwin_created_handler conn state w (some m)).2.user_data.win_handles w
        = m.resultValue
    ∧ (plainwin_created_handler conn state w (some m)).2.user_data.nr_windows_created
        = conn.user_data.nr_windows_created + 1
    ∧ (∀ op, conn.user_data.ops_issued < conn.user_data.nr_ops →
        purc_variant_array_get conn.user_data.initialOps (conn.user_data.ops_issued + 1)
          = some op →
        plainwin_created_handler conn state w (some m)
          = and_return (issue_operation (window_stored conn w m.resultValue) op) 0
        ∧ (plainwin_created_handler conn state w (some m)).2.user_data.ops_issued
          = conn.user_data.ops_issued + 1
        ∧ sends_at_most_one conn (plainwin_created_handler conn state w (some m)).2
        ∧ ((issue_operation (window_stored conn w m.resultValue) op).1 = Ret.ok 0 ∨
            (issue_operation (window_stored conn w m.resultValue) op).1 = Ret.ok (-1) →
            (plainwin_created_handler conn state w (some m)).1 = Ret.ok 0)) := by
  have e : plainwin_created_handler conn state w (some m)
      = and_return (issue_next_operation { conn with user_data :=
          { conn.user_data with
            nr_windows_created := conn.user_data.nr_windows_created + 1,
            win_handles := Function.update conn.user_data.win_handles w m.resultValue } }) 0 := by
    simp [plainwin_created_handler, hw, hw8, hstate, hcode]
  have hk := kept_issue_next_operation { conn with user_data :=
          { conn.user_data with
            nr_windows_created := conn.user_data.nr_windows_created + 1,
            win_handles := Function.update conn.user_data.win_handles w m.resultValue } }
  refine ⟨?_, ?_, ?_⟩
  · rw [e, and_return_snd, hk.1]
    simp
  · rw [e, and_return_snd, hk.2.2.1]
  · intro op hlt hop
    have e2 : plainwin_created_handler conn state w (some m)
        = and_return (issue_operation (window_stored conn w m.resultValue) op) 0 := by
      rw [e]
      simp [issue_next_operation, hlt, hop, window_stored]
    have hf := frame_issue_operation (window_stored conn w m.resultValue) op
    refine ⟨e2, ?_, ?_, ?_⟩
    · rw [e2, and_return_snd, hf.1]
      rfl
    · rw [e2, and_return_snd]
      exact hf.2.2.2
    · intro hr
      rw [e2]
      rcases hr with h | h <;> simp [and_return, h]

/-- C11 as amended, on the script that creates a window and loads a
document of ten bytes into it: the response `OK` with handle `0x1001` to the
create request stores the handle, counts the window and issues the load. -/
theorem plainwin_created_handler_stores_handle_witness :
    (plainwin_created_handler (first_answered load_script (document_file (letters 10)))
        PCRDR_RESPONSE_RESULT 0
        (some { retCode := PCRDR_SC_OK, resultValue := 4097 })).2.user_data.win_handles 0
      = 4097
    ∧ (plainwin_created_handler (first_answered load_script (document_file (letters 10)))
        PCRDR_RESPONSE_RESULT 0
        (some { retCode := PCRDR_SC_OK, resultValue := 4097 })).2.user_data.nr_windows_created
      = 1
    ∧ (plainwin_created_handler (first_answered load_script (document_file (letters 10)))
        PCRDR_RESPONSE_RESULT 0
        (some { retCode := PCRDR_SC_OK, resultValue := 4097 })).2.user_data.ops_issued = 1
    ∧ (plainwin_created_handler (first_answered load_script (document_file (letters 10)))
        PCRDR_RESPONSE_RESULT 0
        (some { retCode := PCRDR_SC_OK, resultValue := 4097 })).2.sent.map
          (fun q => (q.msg.operation, q.msg.targetValue))
      = [("createPlainWindow", 0), ("load", 4097)] := by
  have h := plainwin_created_handler_stores_handle
    (first_answered load_script (document_file (letters 10))) PCRDR_RESPONSE_RESULT 0
    { retCode := PCRDR_SC_OK, resultValue := 4097 } (by decide) (by decide) (by decide) rfl
  refine ⟨h.1, h.2.1, ?_, by decide⟩
  exact (h.2.2 load_operation (by decide) (by rfl)).2.1

/-- C11 as stated fails on the script of one operation: the response `OK`
with handle `0x1001` to its create request stores the handle and counts the
window, but no follow-up operation is issued, since the script has none; the
create request stays the only request sent (and the assertion on the fetched
operation fails). -/
theorem no_follow_up_operation_counterexample :
    (plainwin_created_handler (first_answered one_operation_script (fun _ => none))
        PCRDR_RESPONSE_RESULT 0
        (some { retCode := PCRDR_SC_OK, resultValue := 4097 })).2.user_data.win_handles 0
      = 4097
    ∧ (plainwin_created_handler (first_answered one_operation_script (fun _ => none))
        PCRDR_RESPONSE_RESULT 0
        (some { retCode := PCRDR_SC_OK, resultValue := 4097 })).2.sent.map
          (fun q => q.msg.operation)
      = ["createPlainWindow"]
    ∧ (plainwin_created_handler (first_answered one_operation_script (fun _ => none))
        PCRDR_RESPONSE_RESULT 0
        (some { retCode := PCRDR_SC_OK, resultValue := 4097 })).1 = Ret.assert_failed
    ∧ purc_variant_array_get
        (first_answered one_operation_script (fun _ => none)).user_data.initialOps 1 = none := by
  refine ⟨by decide, by decide, by decide, by rfl⟩

/-! ## A request that the transport fails to send (C13) -/

theorem refusal_send (a c : pcrdr_conn) (msg : pcrdr_msg) (context : Nat)
    (handler : response_handler) (h1 : c.send_script = a.send_script)
    (h2 : c.sent = a.sent) (h3 : c.pending = a.pending) :
    Refusal a
      (if (pcrdr_send_request c msg context handler).1 < 0
       then (Ret.ok (-1), (pcrdr_send_request c msg context handler).2)
       else (Ret.ok 0, (pcrdr_send_request c msg context handler).2)) := by
  unfold pcrdr_send_request
  rcases hs : c.send_script with _ | ⟨b, rest⟩
  · right; left
    rw [← h1, hs]
    simp
  · cases b
    · right; right
      simp [h2, h3]
    · right; left
      rw [← h1, hs]
      simp

theorem refusal_none (a : pcrdr_conn) (v : Ret Int) : Refusal a (v, a) := Or.inl rfl

theorem refusal_create_plain_win (conn : pcrdr_conn) (op : purc_variant) :
    Refusal conn (create_plain_win conn op) := by
  unfold create_plain_win
  simp only
  repeat' first
    | exact refusal_none _ _
    | exact refusal_send _ _ _ _ _ rfl rfl rfl
    | split

theorem refusal_write_more_doucment (conn : pcrdr_conn) (win : Nat) :
    Refusal conn (write_more_doucment conn win) := by
  unfold write_more_doucment
  simp only
  repeat' first
    | exact refusal_none _ _
    | exact refusal_send _ _ _ _ _ rfl rfl rfl
    | split

theorem refusal_load_or_write_request (a conn : pcrdr_conn) (win handle : Nat)
    (content : List Nat) (h1 : conn.send_script = a.send_script)
    (h2 : conn.sent = a.sent) (h3 : conn.pending = a.pending) :
    Refusal a (load_or_write_request conn win handle content) := by
  unfold load_or_write_request
  simp only
  repeat' first
    | exact Or.inl h1
    | exact refusal_send _ _ _ _ _ h1 h2 h3
    | split

theorem refusal_load_or_write_doucment (conn : pcrdr_conn) (op : purc_variant) :
    Refusal conn (load_or_write_doucment conn op) := by
  unfold load_or_write_doucment load_or_write_content
  simp only
  repeat' first
    | exact refusal_none _ _
    | exact refusal_load_or_write_request _ _ _ _ _ rfl rfl rfl
    | split

theorem refusal_change_document (conn : pcrdr_conn) (op_id : Nat) (operation : String)
    (op : purc_variant) : Refusal conn (change_document conn op_id operation op) := by
  unfold change_document
  simp only
  repeat' first
    | exact refusal_none _ _
    | exact refusal_send _ _ _ _ _ rfl rfl rfl
    | split

theorem refusal_issue_operation (a conn : pcrdr_conn) (op : purc_variant)
    (h1 : conn.send_script = a.send_script)
    (h2 : conn.sent = a.sent) (h3 : conn.pending = a.pending) :
    Refusal a (issue_operation conn op) := by
  have h : Refusal conn (issue_operation conn op) := by
    unfold issue_operation
    repeat' first
      | exact refusal_none _ _
      | exact refusal_create_plain_win _ _
      | exact refusal_load_or_write_doucment _ _
      | exact refusal_change_document _ _ _ _
      | split
  unfold Refusal at *
  rw [← h1, ← h2, ← h3]
  exact h

theorem refusal_issue_first_operation (conn : pcrdr_conn) :
    Refusal conn (issue_first_operation conn) := by
  unfold issue_first_operation
  simp only
  split
  · exact Or.inl rfl
  · exact refusal_issue_operation _ _ _ rfl rfl rfl

theorem refused_of_refusal (a : pcrdr_conn) (r : Ret Int × pcrdr_conn) (h : Refusal a r)
    (hfail : a.send_script.head? = some false)
    (hsend : r.2.send_script = a.send_script.tail) :
    r.1 = Ret.ok (-1) ∧ r.2.sent = a.sent ∧ r.2.pending = a.pending := by
  rcases h with h | h | h
  · exfalso
    rw [h] at hsend
    cases hs : a.send_script with
    | nil => simp [hs] at hfail
    | cons b rest =>
      rw [hs] at hsend
      have := congrArg List.length hsend
      simp at this
  · exact absurd hfail h
  · exact h

theorem kept_issue_first_operation (conn : pcrdr_conn) :
    Kept conn (issue_first_operation conn).2 := by
  unfold issue_first_operation
  simp only
  split
  · exact ⟨rfl, rfl, rfl, rfl, rfl⟩
  · exact kept_trans _ _ _ ⟨rfl, rfl, rfl, rfl, rfl⟩ (kept_issue_operation _ _)

theorem running_call_handler (hd : response_handler) (c : pcrdr_conn) (state : Int)
    (context : Nat) (msg : Option pcrdr_response_msg) :
    (call_handler hd c state context msg).2.send_script = c.send_script
    ∨ (call_handler hd c state context msg).2.user_data.running = c.user_data.running := by
  cases hd
  all_goals
    simp only [call_handler, plainwin_created_handler, loaded_handler, wrotten_handler,
      changed_handler]
    repeat' first
      | exact Or.inl rfl
      | (rw [and_return_snd]
         exact Or.inr (kept_issue_next_operation _).2.2.2.2)
      | (rw [and_return_snd]
         exact Or.inr (kept_write_more_doucment _ _).2.2.2.2)
      | split

/-- C13 as amended: when the transport fails to send a request while an
operation is being issued (the next outcome of the transport is a failure
and the function uses it up), `create_plain_win`, `load_or_write_doucment`,
`write_more_doucment` and `change_document` return -1 and record no request,
and the running flag of the session is left as it was: no caller reads the
result, neither `issue_first_operation` at the start of the queue, which
hands the -1 on while `main` drops it, nor a response handler, so a running
session is still running afterwards. -/
theorem send_failure_keeps_running :
    (∀ (conn : pcrdr_conn) (op : purc_variant),
        conn.send_script.head? = some false →
        (create_plain_win conn op).2.send_script = conn.send_script.tail →
        (create_plain_win conn op).1 = Ret.ok (-1)
        ∧ (create_plain_win conn op).2.sent = conn.sent
        ∧ (create_plain_win conn op).2.pending = conn.pending
        ∧ (create_plain_win conn op).2.user_data.running = conn.user_data.running)
    ∧ (∀ (conn : pcrdr_conn) (op : purc_variant),
        conn.send_script.head? = some false →
        (load_or_write_doucment conn op).2.send_script = conn.send_script.tail →
        (load_or_write_doucment conn op).1 = Ret.ok (-1)
        ∧ (load_or_write_doucment conn op).2.sent = conn.sent
        ∧ (load_or_write_doucment conn op).2.pending = conn.pending
        ∧ (load_or_write_doucment conn op).2.user_data.running = conn.user_data.running)
    ∧ (∀ (conn : pcrdr_conn) (win : Nat),
        conn.send_script.head? = some false →
        (write_more_doucment conn win).2.send_script = conn.send_script.tail →
        (write_more_doucment conn win).1 = Ret.ok (-1)
        ∧ (write_more_doucment conn win).2.sent = conn.sent
        ∧ (write_more_doucment conn win).2.pending = conn.pending
        ∧ (write_more_doucment conn win).2.user_data.running = conn.user_data.running)
    ∧ (∀ (conn : pcrdr_conn) (op_id : Nat) (operation : String) (op : purc_variant),
        conn.send_script.head? = some false →
        (change_document conn op_id operation op).2.send_script = conn.send_script.tail →
        (change_document conn op_id operation op).1 = Ret.ok (-1)
        ∧ (change_document conn op_id operation op).2.sent = conn.sent
        ∧ (change_document conn op_id operation op).2.pending = conn.pending
        ∧ (change_document conn op_id operation op).2.user_data.running
            = conn.user_data.running)
    ∧ (∀ conn : pcrdr_conn,
        conn.send_script.head? = some false →
        (issue_first_operation conn).2.send_script = conn.send_script.tail →
        (issue_first_operation conn).1 = Ret.ok (-1)
        ∧ (issue_first_operation conn).2.sent = conn.sent
        ∧ (issue_first_operation conn).2.pending = conn.pending
        ∧ (issue_first_operation conn).2.user_data.running = conn.user_data.running)
    ∧ (∀ (hd : response_handler) (conn : pcrdr_conn) (state : Int) (context : Nat)
        (msg : Option pcrdr_response_msg),
        conn.send_script.head? = some false →
        (call_handler hd conn state context msg).2.send_script = conn.send_script.tail →
        (call_handler hd conn state context msg).2.user_data.running
          = conn.user_data.running) := by
  refine ⟨?_, ?_, ?_, ?_, ?_, ?_⟩
  · intro conn op hfail hsend
    have h := refused_of_refusal _ _ (refusal_create_plain_win conn op) hfail hsend
    exact ⟨h.1, h.2.1, h.2.2, (kept_create_plain_win conn op).2.2.2.2⟩
  · intro conn op hfail hsend
    have h := refused_of_refusal _ _ (refusal_load_or_write_doucment conn op) hfail hsend
    exact ⟨h.1, h.2.1, h.2.2, (kept_load_or_write_doucment conn op).2.2.2.2⟩
  · intro conn win hfail hsend
    have h := refused_of_refusal _ _ (refusal_write_more_doucment conn win) hfail hsend
    exact ⟨h.1, h.2.1, h.2.2, (kept_write_more_doucment conn win).2.2.2.2⟩
  · intro conn op_id operation op hfail hsend
    have h := refused_of_refusal _ _ (refusal_change_document conn op_id operation op)
      hfail hsend
    exact ⟨h.1, h.2.1, h.2.2, (kept_change_document conn op_id operation op).2.2.2.2⟩
  · intro conn hfail hsend
    have h := refused_of_refusal _ _ (refusal_issue_first_operation conn) hfail hsend
    exact ⟨h.1, h.2.1, h.2.2, (kept_issue_first_operation conn).2.2.2.2⟩
  · intro hd conn state context msg hfail hsend
    rcases running_call_handler hd conn state context msg with h | h
    · exfalso
      rw [h] at hsend
      cases hs : conn.send_script with
      | nil => simp [hs] at hfail
      | cons b rest =>
        rw [hs] at hsend
        have := congrArg List.length hsend
        simp at this
    · exact h

/-- C13 as amended, on the script that creates a window and loads a
document, with a transport that fails to send the load request: the handler
of the response to the create request uses up the failure and the session is
still running. -/
theorem send_failure_keeps_running_witness :
    (refusing (first_answered load_script (document_file (letters 10)))).user_data.running
      = true
    ∧ (call_handler response_handler.plainwin_created_handler
        (refusing (first_answered load_script (document_file (letters 10))))
        PCRDR_RESPONSE_RESULT 0
        (some { retCode := PCRDR_SC_OK, resultValue := 4097 })).2.user_data.running = true :=
  ⟨by decide,
   (send_failure_keeps_running.2.2.2.2.2 response_handler.plainwin_created_handler
      (refusing (first_answered load_script (document_file (letters 10))))
      PCRDR_RESPONSE_RESULT 0 (some { retCode := PCRDR_SC_OK, resultValue := 4097 })
      (by decide) (by decide)).trans (by decide)⟩

/-- C13 as stated fails on the script of one operation with a transport that
fails to send the create request: `issue_first_operation` returns -1, the
failure is used up, no request is recorded, and the running flag is still
true; the main loop goes on waiting for messages. -/
theorem send_failure_counterexample :
    (issue_first_operation
        (refusing_conn (script_session 1 one_operation_script none []) (fun _ => none))).1
      = Ret.ok (-1)
    ∧ (issue_first_operation
        (refusing_conn (script_session 1 one_operation_script none [])
          (fun _ => none))).2.send_script = []
    ∧ (issue_first_operation
        (refusing_conn (script_session 1 one_operation_script none [])
          (fun _ => none))).2.sent.length = 0
    ∧ (issue_first_operation
        (refusing_conn (script_session 1 one_operation_script none [])
          (fun _ => none))).2.user_data.running = true
    ∧ (run_session []
        (refusing_conn (script_session 1 one_operation_script none [])
          (fun _ => none))).2.user_data.running = true := by
  refine ⟨by decide, by decide, by decide, by decide, by decide⟩

/-! ## The bytes written and the length of the document (C14) -/

theorem check_utf8_len_le (s : List Nat) (m : Nat) :
    pcutils_string_check_utf8_len s m ≤ m := by
  unfold pcutils_string_check_utf8_len
  exact (utf8_scan_bounds m s m).1

theorem request_result_user_data (c : pcrdr_conn) (msg : pcrdr_msg) (context : Nat)
    (handler : response_handler) :
    (if (pcrdr_send_request c msg context handler).1 < 0
     then ((Ret.ok (-1) : Ret Int), (pcrdr_send_request c msg context handler).2)
     else (Ret.ok 0, (pcrdr_send_request c msg context handler).2)).2.user_data
      = c.user_data := by
  split <;> exact send_user_data _ _ _ _

theorem load_or_write_request_counter (conn : pcrdr_conn) (w handle : Nat)
    (content : List Nat) :
    load_or_write_request conn w handle content = (Ret.ok (-1), conn)
    ∨ ∃ k, k ≤ conn.user_data.len_content w
        ∧ (load_or_write_request conn w handle content).2.user_data
          = { conn.user_data with
              len_wrotten := Function.update conn.user_data.len_wrotten w k } := by
  unfold load_or_write_request
  simp only
  by_cases h1 : conn.user_data.len_content w > DEF_LEN_ONE_WRITE
  · rw [if_pos h1]
    by_cases h2 : pcutils_string_check_utf8_len content DEF_LEN_ONE_WRITE > 0
    · rw [if_pos h2]
      right
      refine ⟨pcutils_string_check_utf8_len content DEF_LEN_ONE_WRITE, ?_, ?_⟩
      · have := check_utf8_len_le content DEF_LEN_ONE_WRITE
        omega
      · rw [request_result_user_data]
    · rw [if_neg h2]
      left
      rfl
  · rw [if_neg h1]
    right
    refine ⟨conn.user_data.len_content w, le_refl _, ?_⟩
    rw [request_result_user_data]

theorem cell_some {α : Type} (a : Nat → α) (i : Nat) (v : α) (h : cell a i = some v) :
    i < MAX_NR_WINDOWS ∧ a i = v := by
  unfold cell at h
  split_ifs at h with hi
  exact ⟨hi, Option.some.inj h⟩

theorem write_more_doucment_counter (conn : pcrdr_conn) (win : Nat) :
    (write_more_doucment conn win).2 = conn
    ∨ ∃ k, k ≤ conn.user_data.len_content win
        ∧ (write_more_doucment conn win).2.user_data
          = { conn.user_data with
              len_wrotten := Function.update conn.user_data.len_wrotten win k } := by
  unfold write_more_doucment
  simp only
  by_cases h0 : win < conn.user_data.nr_windows
  · rw [if_neg (not_not.mpr h0)]
    split
    · rename_i wrotten total handle content hw ht hh hc
      have ht2 := (cell_some _ _ _ ht).2
      by_cases h1 : wrotten > content.length
      · rw [if_pos h1]
        exact Or.inl rfl
      · rw [if_neg h1]
        by_cases h2 : wrotten + DEF_LEN_ONE_WRITE > total
        · rw [if_pos h2]
          right
          refine ⟨total, by omega, ?_⟩
          rw [request_result_user_data]
        · rw [if_neg h2]
          by_cases h3 : pcutils_string_check_utf8_len (List.drop wrotten content)
              DEF_LEN_ONE_WRITE > 0
          · rw [if_pos h3]
            right
            refine ⟨wrotten + pcutils_string_check_utf8_len (List.drop wrotten content)
              DEF_LEN_ONE_WRITE, ?_, ?_⟩
            · have := check_utf8_len_le (List.drop wrotten content) DEF_LEN_ONE_WRITE
              omega
            · rw [request_result_user_data]
          · rw [if_neg h3]
            exact Or.inl rfl
    · exact Or.inl rfl
  · rw [if_pos h0]
    exact Or.inl rfl

theorem load_or_write_content_counter (conn : pcrdr_conn) (op : purc_variant)
    (w handle : Nat) (h : (load_or_write_content conn op w handle).1 = Ret.ok 0) :
    (load_or_write_content conn op w handle).2.user_data.len_wrotten w
      ≤ (load_or_write_content conn op w handle).2.user_data.len_content w := by
  unfold load_or_write_content at h ⊢
  simp only at h ⊢
  split at h
  · rename_i content hc
    rcases load_or_write_request_counter conn w handle content with e | ⟨k, hk, e⟩
    · rw [e] at h
      simp at h
    · rw [e]
      simp only [Function.update_same]
      exact hk
  · rename_i hc
    split at h
    · simp at h
    · rename_i tmp htmp
      split at h
      · simp at h
      · rename_i file hfile
        split at h
        · simp at h
        · rename_i content hcontent
          rcases load_or_write_request_counter
            { conn with user_data :=
              { conn.user_data with
                doc_content := Function.update conn.user_data.doc_content w (some content),
                len_content := Function.update conn.user_data.len_content w content.length } }
            w handle content with e | ⟨k, hk, e⟩
          · rw [e] at h
            simp at h
          · rw [e]
            simp only [Function.update_same] at hk ⊢
            exact hk

/-- C14, which the code breaks when a load fails at the first chunk. What
holds: the checker returns an end within `max_len` bytes of the start; when
`load_or_write_doucment` returns 0 (load or write-begin), the written
counter of the target slot is no more than the length of its document;
`write_more_doucment` (write-more, write-end) keeps the counter of every
slot within the length. What fails: on `reload_script` the first document of
3000 bytes is transferred in full, so the counter of slot 0 is 3000; then
the load of `bad.html` reads 2000 bytes into the slot, finds no valid
character at its start and gives up, which leaves the counter at 3000, above
the length 2000. -/
theorem wrotten_within_content :
    (∀ (s : List Nat) (m : Nat), pcutils_string_check_utf8_len s m ≤ m)
    ∧ (∀ (conn : pcrdr_conn) (op : purc_variant) (target : String),
        string_member (some op) "target" = some target →
        (load_or_write_doucment conn op).1 = Ret.ok 0 →
        (load_or_write_doucment conn op).2.user_data.len_wrotten (split_target target).1.toNat
          ≤ (load_or_write_doucment conn op).2.user_data.len_content
              (split_target target).1.toNat)
    ∧ (∀ (conn : pcrdr_conn) (win w : Nat),
        conn.user_data.len_wrotten w ≤ conn.user_data.len_content w →
        (write_more_doucment conn win).2.user_data.len_wrotten w
          ≤ (write_more_doucment conn win).2.user_data.len_content w)
    ∧ ((answer_ok [4097, 1, 2, 8194] (issue_first_operation reload_session).2).1 = Ret.ok 0
        ∧ (answer_ok [4097, 1, 2, 8194] (issue_first_operation reload_session).2).2.sent.map
            (fun q => q.msg.operation)
          = ["createPlainWindow", "writeBegin", "writeMore", "writeEnd"]
        ∧ (answer_ok [4097, 1, 2, 8194]
            (issue_first_operation reload_session).2).2.user_data.ops_issued = 2
        ∧ (answer_ok [4097, 1, 2, 8194]
            (issue_first_operation reload_session).2).2.user_data.len_wrotten 0 = 3000
        ∧ (answer_ok [4097, 1, 2, 8194]
            (issue_first_operation reload_session).2).2.user_data.len_content 0 = 2000) := by
  refine ⟨check_utf8_len_le, ?_, ?_, ?_⟩
  · intro conn op target htarget h
    unfold load_or_write_doucment at h ⊢
    simp only [htarget] at h ⊢
    split at h
    · simp at h
    · rename_i hg
      split at h
      · simp at h
      · split at h
        · simp at h
        · rename_i hz
          split at h
          · simp at h
          · rename_i hn
            rw [if_neg hg, if_neg hz, if_neg hn]
            exact load_or_write_content_counter conn op _ _ h
  · intro conn win w hle
    rcases write_more_doucment_counter conn win with e | ⟨k, hk, e⟩
    · rw [e]
      exact hle
    · rw [e]
      by_cases hw : w = win
      · subst hw
        simp only [Function.update_same]
        exact hk
      · simp only [Function.update_noteq hw]
        exact hle
  · set_option maxRecDepth 10000 in
    refine ⟨by decide!, by decide!, by decide!, by decide!, by decide!⟩

/-- C14, where it holds, on the session whose window 0 is created and whose
`doc.html` holds 3000 letters: the load returns 0 with 1024 bytes written of
3000. -/
theorem wrotten_within_content_witness :
    (load_or_write_doucment (window_ready (letters 3000)) load_operation).1 = Ret.ok 0
    ∧ (load_or_write_doucment (window_ready (letters 3000))
        load_operation).2.user_data.len_wrotten (split_target "plainwindow/0").1.toNat
      ≤ (load_or_write_doucment (window_ready (letters 3000))
        load_operation).2.user_data.len_content (split_target "plainwindow/0").1.toNat := by
  have h : (load_or_write_doucment (window_ready (letters 3000)) load_operation).1
      = Ret.ok 0 := by
    set_option maxRecDepth 10000 in
    decide!
  exact ⟨h, wrotten_within_content.2.1 (window_ready (letters 3000)) load_operation
    "plainwindow/0" (by decide) h⟩

/-! ## Events never match (C23) -/

theorem dispatch_event_unmatched (conn : pcrdr_conn) (msg : pcrdr_event_msg)
    (htarget : 0 ≤ msg.target) :
    my_event_handler conn msg = (Ret.ok (), conn)
    ∧ pcrdr_read_and_dispatch_message conn (inbound.event msg) = (Ret.ok 0, conn) := by
  have h : my_event_handler conn msg = (Ret.ok (), conn) := by
    unfold my_event_handler
    rw [match_events_never_match msg htarget]
    rfl
  refine ⟨h, ?_⟩
  simp only [pcrdr_read_and_dispatch_message, h]
  rfl

theorem main_loop_events_unmatched (events : List pcrdr_event_msg)
    (htarget : ∀ e ∈ events, 0 ≤ e.target) (conn : pcrdr_conn) :
    main_loop (events.map inbound.event) conn = (Ret.ok 0, conn) := by
  induction events with
  | nil => rfl
  | cons e es ih =>
    have he := (dispatch_event_unmatched conn e (htarget e (List.mem_cons_self _ _))).2
    have hes := ih (fun x hx => htarget x (List.mem_cons_of_mem _ hx))
    simp only [List.map_cons, main_loop, he]
    split_ifs
    · exact hes
    · rfl

/-- C23: for every subscription record and every inbound event whose target
kind is not negative, `match_event` returns NULL and leaves the session as
it was, since `split_target_deep` returns -1 for every source locator, which
is never the target kind of the event. Hence for every subscription list and
every such event the loop of `my_event_handler` selects nothing,
`my_event_handler` and the dispatch of the event leave the connection
exactly as it was, and a run of the main loop over any number of such events
ends in the state it started in: no event clears the running flag. -/
theorem events_never_match (conn : pcrdr_conn) (msg : pcrdr_event_msg)
    (htarget : 0 ≤ msg.target) :
    (∀ source : String, (split_target_deep source).1 = -1)
    ∧ (∀ evt_vrt : Option purc_variant, match_event conn evt_vrt msg = (Ret.ok none, conn))
    ∧ (∀ n i : Nat, match_events msg n i conn = (Ret.ok none, conn))
    ∧ my_event_handler conn msg = (Ret.ok (), conn)
    ∧ pcrdr_read_and_dispatch_message conn (inbound.event msg) = (Ret.ok 0, conn)
    ∧ (pcrdr_read_and_dispatch_message conn (inbound.event msg)).2.user_data.running
        = conn.user_data.running
    ∧ (∀ events : List pcrdr_event_msg, (∀ e ∈ events, 0 ≤ e.target) →
        main_loop (events.map inbound.event) conn = (Ret.ok 0, conn)) := by
  have h := dispatch_event_unmatched conn msg htarget
  refine ⟨fun _ => rfl, fun evt_vrt => match_event_never_matches conn evt_vrt msg htarget,
    fun n i => match_events_never_match msg htarget n i conn, h.1, h.2, ?_,
    fun events he => main_loop_events_unmatched events he conn⟩
  rw [h.2]

/-- C23 on the session with the two click subscriptions, the second of which
names `QUIT`: the click on window 0 has the target kind 2, and its dispatch
leaves the session running. -/
theorem events_never_match_witness :
    (0 : Int) ≤ click_on_window.target
    ∧ (subscribed click_subscriptions).user_data.running = true
    ∧ (pcrdr_read_and_dispatch_message (subscribed click_subscriptions)
        (inbound.event click_on_window)).2.user_data.running = true :=
  ⟨by decide, by decide,
   ((events_never_match (subscribed click_subscriptions) click_on_window
      (by decide)).2.2.2.2.2.1).trans (by decide)⟩

/-! ## Locators (C21, C22) -/

theorem digit_facts (c : Char) (h : isdigit c = true) :
    isspace c = false ∧ c ≠ Char.ofNat 45 ∧ c ≠ Char.ofNat 43 ∧ c ≠ Char.ofNat 47 := by
  unfold isdigit at h
  simp only [Bool.and_eq_true, decide_eq_true_eq] at h
  refine ⟨?_, ?_, ?_, ?_⟩
  · unfold isspace
    simp only [Bool.or_eq_false_iff, decide_eq_false_iff_not, Bool.and_eq_false_iff]
    omega
  · rintro rfl
    revert h
    decide
  · rintro rfl
    revert h
    decide
  · rintro rfl
    revert h
    decide

theorem scan_digits_all : ∀ (s : List Char) (acc : Nat), s.all isdigit = true →
    scan_digits s acc = (s.foldl (fun a c => a * 10 + (c.toNat - 48)) acc, []) := by
  intro s
  induction s with
  | nil => intro acc _; rfl
  | cons c cs ih =>
    intro acc h
    simp only [List.all_cons, Bool.and_eq_true] at h
    simp only [scan_digits, h.1, if_true, List.foldl_cons]
    exact ih _ h.2

theorem scan_digits_rest : ∀ (s : List Char) (acc : Nat), (scan_digits s acc).2 = [] →
    s.all isdigit = true := by
  intro s
  induction s with
  | nil => intro acc _; rfl
  | cons c cs ih =>
    intro acc h
    unfold scan_digits at h
    split_ifs at h with hc
    simp only [List.all_cons, hc, Bool.true_and]
    exact ih _ h

theorem clamp_long_small (v : Int) (h1 : -2147483648 ≤ v) (h2 : v ≤ 2147483647) :
    long_to_int (clamp_long v) = v := by
  unfold clamp_long
  split_ifs <;> (try unfold long_to_int) <;> omega

theorem strtol_digits (n : List Char) (hn : decimal_numeral n = true) :
    strtol n = (clamp_long (decimal_value n : Int), []) := by
  cases n with
  | nil => simp [decimal_numeral] at hn
  | cons c cs =>
    simp only [decimal_numeral, List.isEmpty_cons, Bool.not_false, Bool.true_and] at hn
    have hc : isdigit c = true := by
      simp only [List.all_cons, Bool.and_eq_true] at hn
      exact hn.1
    obtain ⟨h1, h2, h3, _⟩ := digit_facts c hc
    have ht : (c :: cs).dropWhile isspace = c :: cs := by
      simp [List.dropWhile, h1]
    simp only [strtol, ht, List.head?_cons, Option.some.injEq, h2, h3, or_self, if_false, hc,
      if_true, scan_digits_all _ 0 hn]
    rfl

theorem strtol_minus_digits (n : List Char) (hn : decimal_numeral n = true) :
    strtol (Char.ofNat 45 :: n) = (clamp_long (-(decimal_value n : Int)), []) := by
  cases n with
  | nil => simp [decimal_numeral] at hn
  | cons c cs =>
    simp only [decimal_numeral, List.isEmpty_cons, Bool.not_false, Bool.true_and] at hn
    have hc : isdigit c = true := by
      simp only [List.all_cons, Bool.and_eq_true] at hn
      exact hn.1
    have hm : isspace (Char.ofNat 45) = false := by decide
    have ht : (Char.ofNat 45 :: c :: cs).dropWhile isspace = Char.ofNat 45 :: c :: cs := by
      simp [List.dropWhile, hm]
    simp only [strtol, ht, List.head?_cons, true_or, if_true, List.tail_cons, hc,
      scan_digits_all _ 0 hn]
    rfl

theorem strtol_rest (s : List Char) (hs : s ≠ []) (h : strtol_numeral s = false) :
    (strtol s).2 ≠ [] := by
  unfold strtol_numeral at h
  unfold strtol
  simp only
  generalize (if (List.dropWhile isspace s).head? = some (Char.ofNat 45)
        ∨ (List.dropWhile isspace s).head? = some (Char.ofNat 43)
     then (List.dropWhile isspace s).tail else List.dropWhile isspace s) = u at h ⊢
  cases u with
  | nil => exact hs
  | cons c cs =>
    simp only
    by_cases hc : isdigit c = true
    · simp only [hc, if_true]
      intro hr
      have hall := scan_digits_rest _ 0 hr
      simp [decimal_numeral] at h
      simp only [List.all_cons, Bool.and_eq_true] at hall
      obtain ⟨x, hx, hxd⟩ := h hall.1
      have := List.all_eq_true.mp hall.2 x hx
      rw [this] at hxd
      exact Bool.noConfusion hxd
    · simp only [hc]
      exact hs

theorem strchr_append (k n : List Char) (c : Char) (hk : c ∉ k) :
    strchr (k ++ c :: n) c = some (k, n) := by
  induction k with
  | nil => simp [strchr]
  | cons x xs ih =>
    have hx : x ≠ c := fun e => hk (by simp [e])
    have hxs : c ∉ xs := fun e => hk (List.mem_cons_of_mem _ e)
    simp [strchr, hx, ih hxs]

theorem byte_length_ascii (k : List Char) (h : ∀ c ∈ k, c.toNat < 128) :
    byte_length k = k.length := by
  induction k with
  | nil => rfl
  | cons c cs ih =>
    have hc : c.toNat < 128 := h c (List.mem_cons_self _ _)
    have h1 : c.utf8Size = 1 := by
      unfold Char.utf8Size
      have : c.val ≤ UInt32.ofNatCore 127 (by decide) := by
        show c.val.toNat ≤ 127
        unfold Char.toNat at hc
        omega
      rw [if_pos this]
    simp only [byte_length, List.length_cons, h1,
      ih (fun x hx => h x (List.mem_cons_of_mem _ hx))]
    omega

/-- C21 as amended: `split_target` agrees with the reference parser of
`<kind>/<index>` locators, except that it bounds the kind in bytes and takes
the index as `strtol` does, with white space and a sign allowed before the
digits. For every string `k/n` where `k` contains no `/` and has at most
`PURC_LEN_IDENTIFIER` bytes in UTF-8 (for a kind of ASCII characters the
bytes are the characters) and `n` is a decimal numeral that fits in an
`int`, it returns the value of `n` and stores `k` as the kind, so
`plainwindow/0` gives (`plainwindow`, 0) and `dom/1` gives (`dom`, 1). It
returns -1 whenever the string has no `/`, the kind is longer than
`PURC_LEN_IDENTIFIER` bytes, nothing follows the first `/`, or the text
after the first `/` is not white space, an optional sign and a decimal
numeral. -/
theorem split_target_parses_locator :
    (∀ k n : List Char, Char.ofNat 47 ∉ k → byte_length k ≤ PURC_LEN_IDENTIFIER →
        decimal_numeral n = true → decimal_value n ≤ 2147483647 →
        split_target (String.mk (k ++ Char.ofNat 47 :: n))
          = ((decimal_value n : Int), some (String.mk k)))
    ∧ (∀ k : List Char, (∀ c ∈ k, c.toNat < 128) → byte_length k = k.length)
    ∧ split_target "plainwindow/0" = (0, some "plainwindow")
    ∧ split_target "dom/1" = (1, some "dom")
    ∧ (∀ target : String, strchr target.data (Char.ofNat 47) = none →
        (split_target target).1 = -1)
    ∧ (∀ (target : String) (name sep : List Char),
        strchr target.data (Char.ofNat 47) = some (name, sep) →
        byte_length name > PURC_LEN_IDENTIFIER ∨ sep = [] ∨ strtol_numeral sep = false →
        (split_target target).1 = -1) := by
  refine ⟨?_, byte_length_ascii, by decide, by decide, ?_, ?_⟩
  · intro k n hk hlen hn hv
    have hne : n ≠ [] := by
      intro e
      subst e
      simp [decimal_numeral] at hn
    have hlen2 : ¬ byte_length k > PURC_LEN_IDENTIFIER := by omega
    simp only [split_target, strchr_append k n _ hk, hlen2, if_false, hne, strtol_digits n hn,
      if_true]
    rw [clamp_long_small _ (by omega) (by omega)]
  · intro target h
    exact (split_target_rejects target).1 h
  · intro target name sep h hbad
    rcases hbad with h1 | h1 | h1
    · exact (split_target_rejects target).2 name sep h (Or.inl h1)
    · exact (split_target_rejects target).2 name sep h (Or.inr (Or.inl h1))
    · by_cases hs : sep = []
      · exact (split_target_rejects target).2 name sep h (Or.inr (Or.inl hs))
      · exact (split_target_rejects target).2 name sep h
          (Or.inr (Or.inr (strtol_rest sep hs h1)))

/-- C21 as amended, on the locator `plainwindow/42`. -/
theorem split_target_parses_locator_witness :
    split_target "plainwindow/42" = (42, some "plainwindow") :=
  split_target_parses_locator.1 "plainwindow".data "42".data (by decide) (by decide)
    (by decide) (by decide)

/-- C21 as stated fails in two ways. On the locator `plainwindow/ 7` the
text after the first `/`, a blank and a digit, is not entirely a number, and
`split_target` returns 7, not -1; the same with a sign before the digit. And
a kind of 40 letters `e` with an acute accent has 40 characters, which is no
more than `PURC_LEN_IDENTIFIER`, but 80 bytes: `split_target` returns -1 for
it and stores no kind. -/
theorem locator_reading_counterexample :
    decimal_numeral " 7".data = false
    ∧ split_target "plainwindow/ 7" = (7, some "plainwindow")
    ∧ decimal_numeral "+7".data = false
    ∧ split_target "plainwindow/+7" = (7, some "plainwindow")
    ∧ (List.replicate 40 (Char.ofNat 233)).length ≤ PURC_LEN_IDENTIFIER
    ∧ Char.ofNat 47 ∉ List.replicate 40 (Char.ofNat 233)
    ∧ byte_length (List.replicate 40 (Char.ofNat 233)) = 80
    ∧ split_target (String.mk (List.replicate 40 (Char.ofNat 233) ++ "/0".data))
        = (-1, none) := by
  refine ⟨by decide, by decide, by decide, by decide, by decide, by decide, by decide,
    by decide⟩

theorem split_element_append (k v : List Char) (hk : Char.ofNat 47 ∉ k)
    (hlen : byte_length k ≤ PURC_LEN_IDENTIFIER) (hv : v ≠ []) :
    split_element (String.mk (k ++ Char.ofNat 47 :: v))
      = (some (String.mk v), some (String.mk k)) := by
  have hlen2 : ¬ byte_length k > PURC_LEN_IDENTIFIER := by omega
  simp only [split_element, strchr_append k v _ hk, hlen2, if_false, hv]

theorem atoi_digits (n : List Char) (hn : decimal_numeral n = true)
    (hv : decimal_value n ≤ 2147483647) : atoi n = (decimal_value n : Int) := by
  unfold atoi
  rw [strtol_digits n hn]
  exact clamp_long_small _ (by omega) (by omega)

theorem atoi_minus_digits (n : List Char) (hn : decimal_numeral n = true)
    (hv : decimal_value n ≤ 2147483648) :
    atoi (Char.ofNat 45 :: n) = -(decimal_value n : Int) := by
  unfold atoi
  rw [strtol_minus_digits n hn]
  exact clamp_long_small _ (by omega) (by omega)

/-- C22 as amended: `transfer_element_info` resolves the element locators
as follows, in a session whose window count is at most `MAX_NR_WINDOWS`, as
`load_sample` leaves it. `handle/<v>` with a value `v` that is not empty
resolves to `v` verbatim. `plainwindow/<i>`, with `i` written as a decimal
numeral and `0 <= i < nr_windows`, resolves to the text that `%llx` prints
for `win_handles[i]` as it is at the call, lowercase hexadecimal, which is
left in `buff`. Both report the element type `HANDLE`. `plainwindow/<i>`
with `i` within the range of an `int` and not below `nr_windows`, or
negative, resolves to NULL, and so does every locator without `/` or with
nothing after the first `/`. In general the index is the `int` that `atoi`
makes of the text after the slash, whatever that text is, and the locator
resolves as that index does. -/
theorem transfer_element_info_resolves (info : client_info)
    (hnr : info.nr_windows ≤ MAX_NR_WINDOWS) :
    (∀ v : List Char, v ≠ [] →
        transfer_element_info info (String.mk ("handle".data ++ Char.ofNat 47 :: v))
          = (Ret.ok (some (String.mk v), some PCRDR_MSG_ELEMENT_TYPE_HANDLE), info))
    ∧ (∀ n : List Char, decimal_numeral n = true → decimal_value n < info.nr_windows →
        transfer_element_info info (String.mk ("plainwindow".data ++ Char.ofNat 47 :: n))
          = (Ret.ok (some (sprintf_llx (info.win_handles (decimal_value n))),
                     some PCRDR_MSG_ELEMENT_TYPE_HANDLE),
             { info with buff := sprintf_llx (info.win_handles (decimal_value n)) }))
    ∧ (sprintf_llx 4097 = "1001" ∧ sprintf_llx 43981 = "abcd")
    ∧ (∀ n : List Char, decimal_numeral n = true → info.nr_windows ≤ decimal_value n →
        decimal_value n ≤ 2147483647 →
        transfer_element_info info (String.mk ("plainwindow".data ++ Char.ofNat 47 :: n))
          = (Ret.ok (none, some PCRDR_MSG_ELEMENT_TYPE_HANDLE), info))
    ∧ (∀ n : List Char, decimal_numeral n = true → 1 ≤ decimal_value n →
        decimal_value n ≤ 2147483648 →
        transfer_element_info info
            (String.mk ("plainwindow".data ++ Char.ofNat 47 :: Char.ofNat 45 :: n))
          = (Ret.ok (none, some PCRDR_MSG_ELEMENT_TYPE_HANDLE), info))
    ∧ (∀ element : String, strchr element.data (Char.ofNat 47) = none →
        transfer_element_info info element = (Ret.ok (none, none), info))
    ∧ (∀ (element : String) (type : List Char),
        strchr element.data (Char.ofNat 47) = some (type, []) →
        transfer_element_info info element = (Ret.ok (none, none), info))
    ∧ (∀ v : List Char, v ≠ [] →
        (atoi v < 0 ∨ atoi v ≥ (info.nr_windows : Int) →
          transfer_element_info info (String.mk ("plainwindow".data ++ Char.ofNat 47 :: v))
            = (Ret.ok (none, some PCRDR_MSG_ELEMENT_TYPE_HANDLE), info))
        ∧ (0 ≤ atoi v ∧ atoi v < (info.nr_windows : Int) →
          transfer_element_info info (String.mk ("plainwindow".data ++ Char.ofNat 47 :: v))
            = (Ret.ok (some (sprintf_llx (info.win_handles (atoi v).toNat)),
                       some PCRDR_MSG_ELEMENT_TYPE_HANDLE),
               { info with buff := sprintf_llx (info.win_handles (atoi v).toNat) }))) := by
  have hp : ("plainwindow" : String) ≠ "handle" := by decide
  refine ⟨?_, ?_, ⟨by decide, by decide⟩, ?_, ?_, ?_, ?_, ?_⟩
  · intro v hv
    have hs := split_element_append "handle".data v (by decide) (by decide) hv
    simp only [transfer_element_info, hs, if_true]
  · intro n hn hlt
    have hne : n ≠ [] := by
      intro e
      subst e
      simp [decimal_numeral] at hn
    have hs := split_element_append "plainwindow".data n (by decide) (by decide) hne
    have ha := atoi_digits n hn (by unfold MAX_NR_WINDOWS at hnr; omega)
    have h1 : ¬ ((decimal_value n : Int) < 0 ∨ (decimal_value n : Int) ≥ info.nr_windows) := by
      omega
    have h8 : decimal_value n < MAX_NR_WINDOWS := by omega
    simp only [transfer_element_info, hs, Option.some.injEq, hp, if_false, if_true, ha, h1,
      Int.toNat_ofNat, cell, h8]
  · intro n hn hge hv
    have hne : n ≠ [] := by
      intro e
      subst e
      simp [decimal_numeral] at hn
    have hs := split_element_append "plainwindow".data n (by decide) (by decide) hne
    have ha := atoi_digits n hn hv
    have h1 : (decimal_value n : Int) < 0 ∨ (decimal_value n : Int) ≥ info.nr_windows := by
      omega
    simp only [transfer_element_info, hs, Option.some.injEq, hp, if_false, if_true, ha, h1]
  · intro n hn hge hv
    have hs := split_element_append "plainwindow".data (Char.ofNat 45 :: n) (by decide)
      (by decide) (by simp)
    have ha := atoi_minus_digits n hn hv
    have h1 : -(decimal_value n : Int) < 0 ∨ -(decimal_value n : Int) ≥ info.nr_windows := by
      omega
    simp only [transfer_element_info, hs, Option.some.injEq, hp, if_false, if_true, ha, h1]
  · intro element h
    simp only [transfer_element_info, split_element, h]
  · intro element type h
    simp only [transfer_element_info, split_element, h]
    split_ifs <;> rfl
  · intro v hv
    have hs := split_element_append "plainwindow".data v (by decide) (by decide) hv
    constructor
    · intro h1
      simp only [transfer_element_info, hs, Option.some.injEq, hp, if_false, if_true, h1]
    · intro h2
      have h1 : ¬ (atoi v < 0 ∨ atoi v ≥ (info.nr_windows : Int)) := by omega
      have h8 : (atoi v).toNat < MAX_NR_WINDOWS := by omega
      simp only [transfer_element_info, hs, Option.some.injEq, hp, if_false, if_true, h1,
        cell, h8]

/-- C22 as amended, on the session whose window 0 has the handle `0x1001`:
the locator of window 0 resolves to the text `1001`, and the locator of
window 1, which the session does not have, to NULL. -/
theorem transfer_element_info_resolves_witness :
    (transfer_element_info (subscribed click_subscriptions).user_data "plainwindow/0").1
        = Ret.ok (some "1001", some PCRDR_MSG_ELEMENT_TYPE_HANDLE)
    ∧ (transfer_element_info (subscribed click_subscriptions).user_data "plainwindow/1").1
        = Ret.ok (none, some PCRDR_MSG_ELEMENT_TYPE_HANDLE) := by
  have h := transfer_element_info_resolves (subscribed click_subscriptions).user_data
    (by decide)
  have h1 := h.2.1 "0".data (by decide) (by decide)
  have h2 := h.2.2.2.1 "1".data (by decide) (by decide) (by decide)
  exact ⟨by rw [show ("plainwindow/0" : String)
      = String.mk ("plainwindow".data ++ Char.ofNat 47 :: "0".data) from by decide, h1]
            decide,
    by rw [show ("plainwindow/1" : String)
      = String.mk ("plainwindow".data ++ Char.ofNat 47 :: "1".data) from by decide, h2]⟩

/-- C22 as stated fails for an index beyond the range of an `int`: in the
session with one window, whose handle is `0x1001`, the index 4294967296 is
not below the number of windows, but `atoi` makes 0 of it and the locator
resolves to the handle of window 0, the text `1001`, not to NULL. -/
theorem index_beyond_int_counterexample :
    (subscribed click_subscriptions).user_data.nr_windows = 1
    ∧ decimal_numeral "4294967296".data = true
    ∧ decimal_value "4294967296".data = 4294967296
    ∧ atoi "4294967296".data = 0
    ∧ (transfer_element_info (subscribed click_subscriptions).user_data
        "plainwindow/4294967296").1
        = Ret.ok (some "1001", some PCRDR_MSG_ELEMENT_TYPE_HANDLE) := by
  refine ⟨by decide, by decide, by decide, by decide, by decide⟩

/-! ## The index of the window slot (C24) -/

theorem load_or_write_request_defined (conn : pcrdr_conn) (w handle : Nat)
    (content : List Nat) :
    (load_or_write_request conn w handle content).1 ≠ Ret.undefined_behaviour := by
  unfold load_or_write_request
  simp only
  repeat' first
    | (intro h; exact Ret.noConfusion h)
    | split

theorem index_in_range (created : Nat) (win : Int) (hc : created ≤ MAX_NR_WINDOWS)
    (hg : ¬ (win < 0 ∨ win > (created : Int))) (h8 : win ≠ 8) :
    win.toNat < MAX_NR_WINDOWS := by
  unfold MAX_NR_WINDOWS at *
  omega

theorem load_or_write_doucment_defined (conn : pcrdr_conn) (op : purc_variant)
    (hc : conn.user_data.nr_windows_created ≤ MAX_NR_WINDOWS)
    (hidx : ∀ target, string_member (some op) "target" = some target →
      (split_target target).1 ≠ 8)
    (hcontent : purc_variant_object_get_by_ckey (some op) "content" ≠ none) :
    (load_or_write_doucment conn op).1 ≠ Ret.undefined_behaviour := by
  unfold load_or_write_doucment
  simp only
  split
  · intro h; exact Ret.noConfusion h
  · rename_i target htarget
    split
    · intro h; exact Ret.noConfusion h
    · rename_i hg
      have hin := index_in_range _ _ hc hg (hidx target htarget)
      simp only [cell, hin, if_true]
      split
      · intro h; exact Ret.noConfusion h
      · split
        · intro h; exact Ret.noConfusion h
        · unfold load_or_write_content
          simp only
          repeat' first
            | exact load_or_write_request_defined _ _ _ _
            | (intro h; exact Ret.noConfusion h)
            | (rename_i hnone; exact absurd hnone hcontent)
            | split

theorem change_document_defined (conn : pcrdr_conn) (op_id : Nat) (operation : String)
    (op : purc_variant)
    (hc : conn.user_data.nr_windows_created ≤ MAX_NR_WINDOWS)
    (hidx : ∀ target, string_member (some op) "target" = some target →
      (split_target target).1 ≠ 8)
    (hid : op_id ≠ PCRDR_K_OPERATION_UPDATE ∧ op_id ≠ PCRDR_K_OPERATION_ERASE
      ∧ op_id ≠ PCRDR_K_OPERATION_CLEAR)
    (hcontent : purc_variant_object_get_by_ckey (some op) "content" ≠ none) :
    (change_document conn op_id operation op).1 ≠ Ret.undefined_behaviour := by
  unfold change_document
  simp only
  split
  · intro h; exact Ret.noConfusion h
  · rename_i target htarget
    split
    · intro h; exact Ret.noConfusion h
    · rename_i hg
      have hin := index_in_range _ _ hc hg (hidx target htarget)
      simp only [cell, hin, if_true]
      split
      · intro h; exact Ret.noConfusion h
      · split
        · intro h; exact Ret.noConfusion h
        · have hm : make_change_message conn op_id operation op (split_target target).1.toNat
              ≠ Ret.undefined_behaviour ∧
              make_change_message conn op_id operation op (split_target target).1.toNat
              ≠ Ret.assert_failed := by
            unfold make_change_message
            simp only [hid.1, hid.2.1, hid.2.2, or_self, if_false, cell, hin, if_true]
            constructor
            all_goals
              repeat' first
                | (intro h; exact Ret.noConfusion h)
                | (rename_i hnone; exact absurd hnone hcontent)
                | split
          split
          · intro h; exact Ret.noConfusion h
          · split <;> (intro h; exact Ret.noConfusion h)
          · rename_i he
            exact absurd he hm.2
          · rename_i he
            exact absurd he hm.1

/-- C24, which the code breaks at the index 8. What holds: with eight
windows created at most, an index that passes the test
`win < 0 || win > nr_windows_created` and is not 8 is within
`0 .. MAX_NR_WINDOWS - 1`; and for an operation whose target index is not 8
and which has a `content` member, `load_or_write_doucment` and
`change_document` (called for `displace`) do not run into undefined
behaviour: no index is out of range. What fails: in a state with eight
windows created, which the bounds `created <= count <= 8` allow, the index 8
passes the test, since it is not above `nr_windows_created`, and both
functions read `win_handles[8]`, outside the array. The state is reached: on
the session that creates eight windows and then displaces an element of the
window with index 8, the response to the eighth create request runs into
it. -/
theorem window_index_within_arrays :
    (∀ (conn : pcrdr_conn) (win : Int),
        conn.user_data.nr_windows_created ≤ MAX_NR_WINDOWS →
        ¬ (win < 0 ∨ win > (conn.user_data.nr_windows_created : Int)) → win ≠ 8 →
        win.toNat < MAX_NR_WINDOWS ∧ cell conn.user_data.win_handles win.toNat
          = some (conn.user_data.win_handles win.toNat))
    ∧ (∀ (conn : pcrdr_conn) (op : purc_variant),
        conn.user_data.nr_windows_created ≤ MAX_NR_WINDOWS →
        (∀ target, string_member (some op) "target" = some target →
          (split_target target).1 ≠ 8) →
        purc_variant_object_get_by_ckey (some op) "content" ≠ none →
        (load_or_write_doucment conn op).1 ≠ Ret.undefined_behaviour
        ∧ (change_document conn PCRDR_K_OPERATION_DISPLACE "displace" op).1
            ≠ Ret.undefined_behaviour)
    ∧ (∀ (conn : pcrdr_conn) (op : purc_variant) (op_id : Nat) (operation target : String),
        conn.user_data.nr_windows_created = MAX_NR_WINDOWS →
        conn.user_data.nr_windows = MAX_NR_WINDOWS →
        string_member (some op) "target" = some target →
        (split_target target).1 = 8 →
        load_or_write_doucment conn op = (Ret.undefined_behaviour, conn)
        ∧ change_document conn op_id operation op = (Ret.undefined_behaviour, conn))
    ∧ ((answer_ok [4097, 4098, 4099, 4100, 4101, 4102, 4103, 4104]
          (issue_first_operation eight_windows_displace_session).2).1
          = Ret.undefined_behaviour
        ∧ (answer_ok [4097, 4098, 4099, 4100, 4101, 4102, 4103, 4104]
          (issue_first_operation eight_windows_displace_session).2).2.user_data.nr_windows_created
          = 8
        ∧ (answer_ok [4097, 4098, 4099, 4100, 4101, 4102, 4103, 4104]
          (issue_first_operation eight_windows_displace_session).2).2.user_data.nr_windows = 8
        ∧ (split_target "dom/8").1 = 8) := by
  refine ⟨?_, ?_, ?_, ?_⟩
  · intro conn win hc hg h8
    have hin := index_in_range _ _ hc hg h8
    exact ⟨hin, by simp [cell, hin]⟩
  · intro conn op hc hidx hcontent
    exact ⟨load_or_write_doucment_defined conn op hc hidx hcontent,
      change_document_defined conn _ _ op hc hidx (by decide) hcontent⟩
  · intro conn op op_id operation target hc _ htarget h8
    have hg : ¬ ((8 : Int) < 0 ∨ (8 : Int) > (conn.user_data.nr_windows_created : Int)) := by
      rw [hc]
      decide
    have hcell : cell conn.user_data.win_handles (8 : Int).toNat = none := by
      simp [cell, MAX_NR_WINDOWS]
    constructor
    · simp only [load_or_write_doucment, htarget, h8, hg, if_false, hcell]
    · simp only [change_document, htarget, h8, hg, if_false, hcell]
  · refine ⟨by decide, by decide, by decide, by decide⟩

/-- C24, where it holds, on the session whose window 0 is created: the index
0 of the load operation is in range, and the load of a document of ten bytes
does not run into undefined behaviour. -/
theorem window_index_within_arrays_witness :
    (load_or_write_doucment (window_ready (letters 10)) load_operation).1
      ≠ Ret.undefined_behaviour :=
  (window_index_within_arrays.2.1 (window_ready (letters 10)) load_operation (by decide)
    (by
      intro target h
      have e : target = "plainwindow/0" := by
        have h2 : string_member (some load_operation) "target" = some "plainwindow/0" := by
          decide
        rw [h2] at h
        exact (Option.some.inj h).symm
      subst e
      decide)
    (by
      intro h
      have h2 : purc_variant_object_get_by_ckey (some load_operation) "content"
          = some (purc_variant.string "doc.html") := by rfl
      rw [h2] at h
      exact Option.noConfusion h)).1

end Purcsex
